import Mathlib

/-!
pfsense-api-client: a shallow embedding of package `pfsenseapi`.

The Go package is a typed HTTP client.  Everything outside the package is
represented explicitly:

* the network (`http.NewRequestWithContext`, `http.Client.Do`, `io.ReadAll`) is an
  environment `Env` that the client functions receive as an argument;
* a byte slice travelling as HTTP body is a `Body`: either text that
  `encoding/json` rejects, or the JSON document it denotes; the decoding rules of
  `encoding/json` (field selection by tag, `null`, type errors, pointers, slices) and
  the JSON methods of `github.com/markphelps/optional` are modelled on documents;
* Go `error` values are the type `GoError`, with the package level sentinels as
  their own constructor so that `errors.Is` can be evaluated;
* every function returns, next to its Go result, the list of `Event`s it performed
  on the connection, in order: a call of `http.Client.Do`, the read of the response
  body, and what the deferred function does with the body.

Go values are represented as follows.  A `string` that is only compared,
concatenated or passed on (hosts, endpoints, query values, error texts), or that holds
text decoded from JSON into an `apiResponse`, is a `String`.  The `string` fields of
the request structs, which `json.Marshal` reads byte by byte, are `GoString`s, the
sequence of their bytes, so that a string that is not valid UTF-8 is a value of the
model.  `int` and `int32` are `Int` (their ranges are checked where the decoder checks
them), a pointer is an `Option`, a slice is a `GoSlice` (its elements and what its
backing array holds behind them; nil and empty are not told apart), a result
`(value, error)` of which exactly one is set is an `Except`.

The file has three parts: the embedding of the source files, the definitions that
only the statements use, and the theorems.
-/

namespace pfsenseapi

/-! ## Go error values -/

/-- The package level error variables of `client.go` (lines 231-266). -/
inductive Sentinel
  | ErrBadRequest
  | ErrUnauthorized
  | ErrForbidden
  | ErrNotFound
  | ErrMethodNotAllowed
  | ErrNotAcceptable
  | ErrConflict
  | ErrUnsupportedMediaType
  | ErrUnprocessableEntity
  | ErrFailedDependency
  | ErrInternalServerError
  | ErrServiceUnavailable
  deriving DecidableEq, Repr

/-- The text each sentinel was created with (`fmt.Errorf("HTTP 400: Bad Request")`, ...). -/
def Sentinel.Error : Sentinel → String
  | .ErrBadRequest => "HTTP 400: Bad Request"
  | .ErrUnauthorized => "HTTP 401: Unauthorized"
  | .ErrForbidden => "HTTP 403: Forbidden"
  | .ErrNotFound => "HTTP 404: Not Found"
  | .ErrMethodNotAllowed => "HTTP 405: Method Not Allowed"
  | .ErrNotAcceptable => "HTTP 406: Not Acceptable"
  | .ErrConflict => "HTTP 409: Conflict"
  | .ErrUnsupportedMediaType => "HTTP 415: Unsupported Media Type"
  | .ErrUnprocessableEntity => "HTTP 422: Unprocessable Entity"
  | .ErrFailedDependency => "HTTP 424: Failed Dependency"
  | .ErrInternalServerError => "HTTP 500: Internal Server Error"
  | .ErrServiceUnavailable => "HTTP 503: Service Unavailable"

/-- A Go `error` value.  `sentinel` is one of the package variables (compared by
identity), `fresh` is an error allocated by the call that returns it (`errors.New`,
`fmt.Errorf` without `%w`, or an error made by a library), `wrapped` is
`fmt.Errorf` with exactly one `%w` verb: the text before it, the wrapped error, the
text after it. -/
inductive GoError
  | sentinel (s : Sentinel)
  | fresh (text : String)
  | wrapped (pre : String) (inner : GoError) (post : String)
  deriving DecidableEq, Repr

/-- The method `Error()` of an error value. -/
def GoError.Error : GoError → String
  | .sentinel s => s.Error
  | .fresh text => text
  | .wrapped pre inner post => pre ++ inner.Error ++ post

/-- The function `errors.Is(err, target)` for a sentinel target: identity with the
target, or the same for what `err` wraps.  A freshly allocated error is identical to
no package variable. -/
def errorsIs : GoError → Sentinel → Bool
  | .sentinel s, target => decide (s = target)
  | .fresh _, _ => false
  | .wrapped _ inner _, target => errorsIs inner target

/-- The table `responseCodeErrorMap` of `client.go` (lines 268-281); `none` is a
missing key. -/
def responseCodeErrorMap (statusCode : Int) : Option Sentinel :=
  if statusCode = 400 then some .ErrBadRequest
  else if statusCode = 401 then some .ErrUnauthorized
  else if statusCode = 403 then some .ErrForbidden
  else if statusCode = 404 then some .ErrNotFound
  else if statusCode = 405 then some .ErrMethodNotAllowed
  else if statusCode = 406 then some .ErrNotAcceptable
  else if statusCode = 409 then some .ErrConflict
  else if statusCode = 415 then some .ErrUnsupportedMediaType
  else if statusCode = 422 then some .ErrUnprocessableEntity
  else if statusCode = 424 then some .ErrFailedDependency
  else if statusCode = 500 then some .ErrInternalServerError
  else if statusCode = 503 then some .ErrServiceUnavailable
  else none

/-! ## JSON documents and the rules of `encoding/json` used by the package -/

/-- A JSON document as `encoding/json` scans it.  Numbers keep the distinction the
decoder makes: `int` is a literal in plain decimal integer notation, `frac` any other
number literal (with a fraction or an exponent), which no integer field accepts.
A string is the text the decoder unquotes, a sequence of Unicode characters.
Object members keep their order and their duplicates. -/
inductive Json
  | null
  | bool (b : Bool)
  | int (n : Int)
  | frac (lit : String)
  | str (s : String)
  | arr (elems : List Json)
  | obj (members : List (String × Json))

/-- A byte slice used as HTTP body: `invalid raw` is text that is not one JSON
document (for instance the empty body), `json doc` is the text of document `doc`. -/
inductive Body
  | invalid (raw : String)
  | json (doc : Json)

/-- The word `encoding/json` uses for a value in its type errors. -/
def Json.kind : Json → String
  | .null => "null"
  | .bool _ => "bool"
  | .int _ => "number"
  | .frac _ => "number"
  | .str _ => "string"
  | .arr _ => "array"
  | .obj _ => "object"

/-- The error `*json.SyntaxError`; the wording of the library is not reproduced. -/
def jsonSyntaxError : GoError := .fresh "json: invalid JSON input"

/-- The error `*json.UnmarshalTypeError`. -/
def jsonUnmarshalTypeError (value goType : String) : GoError :=
  .fresh ("json: cannot unmarshal " ++ value ++ " into Go value of type " ++ goType)

/-- Case folding of one character of an object key, as the decoder matches keys
against field names: ASCII letters fold together, and the two non-ASCII characters
that fold to ASCII letters (U+017F long s, U+212A Kelvin sign) fold with them. -/
def foldRune (c : Char) : Char :=
  if c = Char.ofNat 0x17F then 'S'
  else if c = Char.ofNat 0x212A then 'K'
  else c.toUpper

/-- Whether object key `key` selects the struct field tagged `name`.  All field names
of this package are distinct after folding, so the exact match the decoder prefers
and the folded match select the same field. -/
def fieldIs (key name : String) : Bool :=
  key.data.map foldRune == name.data.map foldRune

/-- Range of the Go type `int` (64 bit). -/
def fitsInt (n : Int) : Bool := decide (-9223372036854775808 ≤ n ∧ n ≤ 9223372036854775807)

/-- Range of the Go type `int32`. -/
def fitsInt32 (n : Int) : Bool := decide (-2147483648 ≤ n ∧ n ≤ 2147483647)

/-- Storing a JSON value into a field of Go type `string`: `null` leaves the field
as it is, a string is stored, anything else is a type error. -/
def storeString : Json → String → Except GoError String
  | .null, cur => .ok cur
  | .str s, _ => .ok s
  | j, _ => .error (jsonUnmarshalTypeError j.kind "string")

/-- Storing a JSON value into a field of Go type `int`. -/
def storeInt : Json → Int → Except GoError Int
  | .null, cur => .ok cur
  | .int n, _ => if fitsInt n then .ok n else .error (jsonUnmarshalTypeError "number" "int")
  | j, _ => .error (jsonUnmarshalTypeError j.kind "int")

/-- Storing a JSON value into a field of Go type `int32`. -/
def storeInt32 : Json → Int → Except GoError Int
  | .null, cur => .ok cur
  | .int n, _ => if fitsInt32 n then .ok n else .error (jsonUnmarshalTypeError "number" "int32")
  | j, _ => .error (jsonUnmarshalTypeError j.kind "int32")

/-- Decoding the members of a JSON object into a struct: the members are visited in
order and each is stored through `store`, which ignores keys that select no field. -/
def decodeObject {α : Type} (store : String → Json → α → Except GoError α)
    (members : List (String × Json)) (cur : α) : Except GoError α :=
  members.foldlM (fun acc kv => store kv.1 kv.2 acc) cur

/-- Storing a JSON value into a struct: `null` leaves it as it is, an object is
decoded member by member, anything else is a type error. -/
def storeStruct {α : Type} (goType : String) (store : String → Json → α → Except GoError α) :
    Json → α → Except GoError α
  | .null, cur => .ok cur
  | .obj members, cur => decodeObject store members cur
  | j, _ => .error (jsonUnmarshalTypeError j.kind goType)

/-- The call `json.Unmarshal(data, ptr)` for a pointer to a struct holding `cur`. -/
def jsonUnmarshal {α : Type} (goType : String) (store : String → Json → α → Except GoError α) :
    Body → α → Except GoError α
  | .invalid _, _ => .error jsonSyntaxError
  | .json doc, cur => storeStruct goType store doc cur

/-! ## Go strings and UTF-8 -/

/-- A Go string whose bytes are not known to be text: the sequence of its bytes, each
below 256. -/
abbrev GoString := List Nat

/-- The rune `utf8.RuneError`, U+FFFD. -/
def runeError : Char := Char.ofNat 0xFFFD

/-- The function `utf8.AppendRune`: the UTF-8 encoding of a character. -/
def encodeRune (c : Char) : List Nat :=
  if c.toNat < 0x80 then [c.toNat]
  else if c.toNat < 0x800 then [0xC0 + c.toNat / 64, 0x80 + c.toNat % 64]
  else if c.toNat < 0x10000 then
    [0xE0 + c.toNat / 4096, 0x80 + c.toNat / 64 % 64, 0x80 + c.toNat % 64]
  else
    [0xF0 + c.toNat / 262144, 0x80 + c.toNat / 4096 % 64, 0x80 + c.toNat / 64 % 64,
      0x80 + c.toNat % 64]

/-- The bytes of the Go string that holds the text `s`. -/
def utf8Encode (s : String) : GoString :=
  s.data.flatMap encodeRune

/-- The function `utf8.DecodeRuneInString`: the first rune of a byte sequence and the
number of bytes it takes; a byte that starts no well-formed encoding is
`(utf8.RuneError, 1)`. -/
def decodeRune : List Nat → Char × Nat
  | [] => (runeError, 0)
  | b0 :: rest =>
    if b0 < 0x80 then (Char.ofNat b0, 1)
    else if 0xC2 ≤ b0 ∧ b0 ≤ 0xDF then
      match rest with
      | b1 :: _ =>
        if 0x80 ≤ b1 ∧ b1 ≤ 0xBF then (Char.ofNat (b0 % 32 * 64 + b1 % 64), 2)
        else (runeError, 1)
      | _ => (runeError, 1)
    else if 0xE0 ≤ b0 ∧ b0 ≤ 0xEF then
      match rest with
      | b1 :: b2 :: _ =>
        if (if b0 = 0xE0 then 0xA0 else 0x80) ≤ b1 ∧ b1 ≤ (if b0 = 0xED then 0x9F else 0xBF) ∧
            0x80 ≤ b2 ∧ b2 ≤ 0xBF then
          (Char.ofNat (b0 % 16 * 4096 + b1 % 64 * 64 + b2 % 64), 3)
        else (runeError, 1)
      | _ => (runeError, 1)
    else if 0xF0 ≤ b0 ∧ b0 ≤ 0xF4 then
      match rest with
      | b1 :: b2 :: b3 :: _ =>
        if (if b0 = 0xF0 then 0x90 else 0x80) ≤ b1 ∧ b1 ≤ (if b0 = 0xF4 then 0x8F else 0xBF) ∧
            0x80 ≤ b2 ∧ b2 ≤ 0xBF ∧ 0x80 ≤ b3 ∧ b3 ≤ 0xBF then
          (Char.ofNat (b0 % 8 * 262144 + b1 % 64 * 4096 + b2 % 64 * 64 + b3 % 64), 4)
        else (runeError, 1)
      | _ => (runeError, 1)
    else (runeError, 1)

/-- The loop of `json.Marshal` over the bytes of a Go string: the runes of the string
in order, with `utf8.RuneError` in place of every byte that starts no well-formed
encoding.  Every turn takes at least one byte, and `fuel` bounds the turns. -/
def coerceLoop : Nat → List Nat → List Char
  | 0, _ => []
  | _ + 1, [] => []
  | fuel + 1, b0 :: rest =>
    (decodeRune (b0 :: rest)).1 ::
      coerceLoop fuel ((b0 :: rest).drop (decodeRune (b0 :: rest)).2)

/-- The text `json.Marshal` writes for a Go string; the loop gets one turn for
every byte. -/
def coerceUTF8 (g : List Nat) : List Char :=
  coerceLoop g.length g

/-- The function `utf8.ValidString`: the bytes are the encoding of the text they
decode to. -/
def validUTF8 (g : GoString) : Bool :=
  decide (utf8Encode (String.mk (coerceUTF8 g)) = g)

/-- What `json.Marshal` writes for a Go string: the JSON string of its text, with
U+FFFD in place of every byte that starts no well-formed encoding. -/
def jsonString (g : GoString) : Json :=
  Json.str (String.mk (coerceUTF8 g))

/-- Storing a JSON value into a field of Go type `string` kept as bytes: a JSON
string is stored as the encoding of its text. -/
def storeGoString : Json → GoString → Except GoError GoString
  | .null, cur => .ok cur
  | .str s, _ => .ok (utf8Encode s)
  | j, _ => .error (jsonUnmarshalTypeError j.kind "string")

/-! ## client.go -/

/-- The struct `apiResponse` (client.go lines 224-229). -/
structure apiResponse where
  Status : String := ""
  Code : Int := 0
  ResponseId : String := ""
  Message : String := ""
  deriving DecidableEq, Repr

/-- Field selection for `apiResponse`, from its `json` tags. -/
def apiResponse.storeField (key : String) (v : Json) (r : apiResponse) :
    Except GoError apiResponse :=
  if fieldIs key "status" then do
    let x ← storeString v r.Status
    pure { r with Status := x }
  else if fieldIs key "code" then do
    let x ← storeInt v r.Code
    pure { r with Code := x }
  else if fieldIs key "response_id" then do
    let x ← storeString v r.ResponseId
    pure { r with ResponseId := x }
  else if fieldIs key "message" then do
    let x ← storeString v r.Message
    pure { r with Message := x }
  else pure r

/-- The struct `options` (options.go lines 17-23); `timeout` is a `time.Duration`,
a count of nanoseconds. -/
structure options where
  host : String := ""
  username : String := ""
  password : String := ""
  skipTLS : Bool := false
  timeout : Int := 0
  deriving DecidableEq, Repr

/-- The fields of the `http.Client` that `New` sets. -/
structure HTTPClient where
  Timeout : Int
  InsecureSkipVerify : Bool
  deriving DecidableEq, Repr

/-- The struct `client` (client.go lines 19-22); its field `client` is named `http`
here, a structure of Lean cannot have a field of its own name. -/
structure client where
  http : HTTPClient
  options : options
  deriving DecidableEq, Repr

/-- An HTTP request as `client.do` builds it: the method and URL given to
`http.NewRequestWithContext`, the pairs added to the query, the headers added, the
basic authentication set, and the body (`none` for a nil slice). -/
structure Request where
  Method : String
  URL : String
  Query : List (String × String)
  Header : List (String × String)
  BasicAuth : Option (String × String)
  Body : Option Body

/-- An HTTP response: its status code and what `io.ReadAll(res.Body)` yields. -/
structure Response where
  StatusCode : Int
  Body : Except GoError Body

/-- The world outside the package: `newRequest method url` is the error of
`http.NewRequestWithContext` (`none` when the request is built), `roundTrip` is
`http.Client.Do`. -/
structure Env where
  newRequest : String → String → Option GoError
  roundTrip : Request → Except GoError Response

/-- What a function does with the connection, in order. -/
inductive Event
  | send (req : Request)
  | readAll
  | discard
  | close

/-- The method `client.do` (client.go lines 49-66).  (`do` is a keyword of Lean.) -/
def client.doRequest (c : client) (env : Env) (method endpoint : String)
    (queryMap : Option (List (String × String))) (body : Option Body) :
    Except GoError Response × List Event :=
  let baseURL := c.options.host ++ "/" ++ endpoint
  match env.newRequest method baseURL with
  | some err => (.error err, [])
  | none =>
    let req : Request :=
      { Method := method
        URL := baseURL
        Query := queryMap.getD []
        Header := [("Accept", "application/json")]
        BasicAuth := some (c.options.username, c.options.password)
        Body := body }
    (env.roundTrip req, [Event.send req])

/-- The method `client.get` (client.go lines 68-97).  The deferred function drains and
closes the response body on every return after the response was received. -/
def client.get (c : client) (env : Env) (endpoint : String)
    (queryMap : Option (List (String × String))) : Except GoError Body × List Event :=
  match c.doRequest env "GET" endpoint queryMap none with
  | (.error err, tr) => (.error err, tr)
  | (.ok res, tr) =>
    let deferred := [Event.discard, Event.close]
    match res.Body with
    | .error err => (.error err, tr ++ [Event.readAll] ++ deferred)
    | .ok respbody =>
      if res.StatusCode < 200 ∨ res.StatusCode > 299 then
        let err :=
          match responseCodeErrorMap res.StatusCode with
          | some e => GoError.sentinel e
          | none => GoError.fresh ("non 2xx response code received: " ++ toString res.StatusCode)
        match jsonUnmarshal "apiResponse" apiResponse.storeField respbody {} with
        | .error _ => (.error err, tr ++ [Event.readAll] ++ deferred)
        | .ok resp =>
          (.error (GoError.wrapped "" err (": " ++ resp.Message)), tr ++ [Event.readAll] ++ deferred)
      else (.ok respbody, tr ++ [Event.readAll] ++ deferred)

/-- The method `client.post` (client.go lines 99-128). -/
def client.post (c : client) (env : Env) (endpoint : String)
    (queryMap : Option (List (String × String))) (body : Option Body) :
    Except GoError Body × List Event :=
  match c.doRequest env "POST" endpoint queryMap body with
  | (.error err, tr) => (.error err, tr)
  | (.ok res, tr) =>
    let deferred := [Event.discard, Event.close]
    match res.Body with
    | .error err => (.error err, tr ++ [Event.readAll] ++ deferred)
    | .ok respbody =>
      if res.StatusCode < 200 ∨ res.StatusCode > 299 then
        let err :=
          match responseCodeErrorMap res.StatusCode with
          | some e => GoError.sentinel e
          | none => GoError.fresh ("non 2xx response code received: " ++ toString res.StatusCode)
        match jsonUnmarshal "apiResponse" apiResponse.storeField respbody {} with
        | .error _ => (.error err, tr ++ [Event.readAll] ++ deferred)
        | .ok resp =>
          (.error (GoError.wrapped "" err (": " ++ resp.Message)), tr ++ [Event.readAll] ++ deferred)
      else (.ok respbody, tr ++ [Event.readAll] ++ deferred)

/-- The method `client.patch` (client.go lines 131-160).  Its deferred function reads
`_ = res.Body.Close`, a method value that is never called: the body is drained and
not closed. -/
def client.patch (c : client) (env : Env) (endpoint : String)
    (queryMap : Option (List (String × String))) (body : Option Body) :
    Except GoError Body × List Event :=
  match c.doRequest env "PATCH" endpoint queryMap body with
  | (.error err, tr) => (.error err, tr)
  | (.ok res, tr) =>
    let deferred := [Event.discard]
    match res.Body with
    | .error err => (.error err, tr ++ [Event.readAll] ++ deferred)
    | .ok respbody =>
      if res.StatusCode < 200 ∨ res.StatusCode > 299 then
        let err :=
          match responseCodeErrorMap res.StatusCode with
          | some e => GoError.sentinel e
          | none => GoError.fresh ("non 2xx response code received: " ++ toString res.StatusCode)
        match jsonUnmarshal "apiResponse" apiResponse.storeField respbody {} with
        | .error _ => (.error err, tr ++ [Event.readAll] ++ deferred)
        | .ok resp =>
          (.error (GoError.wrapped "" err (": " ++ resp.Message)), tr ++ [Event.readAll] ++ deferred)
      else (.ok respbody, tr ++ [Event.readAll] ++ deferred)

/-- The method `client.put` (client.go lines 162-191). -/
def client.put (c : client) (env : Env) (endpoint : String)
    (queryMap : Option (List (String × String))) (body : Option Body) :
    Except GoError Body × List Event :=
  match c.doRequest env "PUT" endpoint queryMap body with
  | (.error err, tr) => (.error err, tr)
  | (.ok res, tr) =>
    let deferred := [Event.discard, Event.close]
    match res.Body with
    | .error err => (.error err, tr ++ [Event.readAll] ++ deferred)
    | .ok respbody =>
      if res.StatusCode < 200 ∨ res.StatusCode > 299 then
        let err :=
          match responseCodeErrorMap res.StatusCode with
          | some e => GoError.sentinel e
          | none => GoError.fresh ("non 2xx response code received: " ++ toString res.StatusCode)
        match jsonUnmarshal "apiResponse" apiResponse.storeField respbody {} with
        | .error _ => (.error err, tr ++ [Event.readAll] ++ deferred)
        | .ok resp =>
          (.error (GoError.wrapped "" err (": " ++ resp.Message)), tr ++ [Event.readAll] ++ deferred)
      else (.ok respbody, tr ++ [Event.readAll] ++ deferred)

/-- The method `client.delete` (client.go lines 193-222). -/
def client.delete (c : client) (env : Env) (endpoint : String)
    (queryMap : Option (List (String × String))) : Except GoError Body × List Event :=
  match c.doRequest env "DELETE" endpoint queryMap none with
  | (.error err, tr) => (.error err, tr)
  | (.ok res, tr) =>
    let deferred := [Event.discard, Event.close]
    match res.Body with
    | .error err => (.error err, tr ++ [Event.readAll] ++ deferred)
    | .ok respbody =>
      if res.StatusCode < 200 ∨ res.StatusCode > 299 then
        let err :=
          match responseCodeErrorMap res.StatusCode with
          | some e => GoError.sentinel e
          | none => GoError.fresh ("non 2xx response code received: " ++ toString res.StatusCode)
        match jsonUnmarshal "apiResponse" apiResponse.storeField respbody {} with
        | .error _ => (.error err, tr ++ [Event.readAll] ++ deferred)
        | .ok resp =>
          (.error (GoError.wrapped "" err (": " ++ resp.Message)), tr ++ [Event.readAll] ++ deferred)
      else (.ok respbody, tr ++ [Event.readAll] ++ deferred)

/-! ## options.go and `New` -/

/-- The type `Options`, `func(o options)`.  The parameter `o` is a struct passed by
value: the function works on its own copy.  A value of this type is modelled by what
the body makes of that copy, which Go discards when the function returns. -/
def Options : Type := options → options

/-- The function `defaultOptions` (options.go lines 10-15); `5 * time.Second` in
nanoseconds. -/
def defaultOptions : options :=
  { skipTLS := true, timeout := 5 * 1000000000 }

/-- The function `WithHost` (options.go lines 25-29). -/
def WithHost (host : String) : Options :=
  fun o => { o with host := host }

/-- The function `WithCredentials` (options.go lines 31-36). -/
def WithCredentials (username : String) (password : String) : Options :=
  fun o => { o with username := username, password := password }

/-- The function `WithSkipTLS` (options.go lines 38-42). -/
def WithSkipTLS : Options :=
  fun o => { o with skipTLS := true }

/-- The function `WithTimeout` (options.go lines 44-48). -/
def WithTimeout (timeout : Int) : Options :=
  fun o => { o with timeout := timeout }

/-- The method `options.validate` (options.go lines 50-61); `none` is a nil error. -/
def options.validate (o : options) : Option GoError :=
  if o.host = "" then some (GoError.fresh "missing host")
  else if o.username = "" then some (GoError.fresh "missing username")
  else if o.password = "" then some (GoError.fresh "missing password")
  else none

/-- The loop `for _, opt := range opts { opt(options) }` of `New` (client.go lines
27-29): every option function receives a copy of the local variable `options`, and
the variable itself is what the loop leaves behind. -/
def applyOptions : List Options → options → options
  | [], options => options
  | opt :: rest, options =>
    let _copy := opt options
    applyOptions rest options

/-- The function `New` (client.go lines 25-47); `.error err` is the pair
`(nil, err)`. -/
def New (opts : List Options) : Except GoError client :=
  let options := applyOptions opts defaultOptions
  match options.validate with
  | some err => .error err
  | none =>
    .ok { options := options
          http := { Timeout := options.timeout, InsecureSkipVerify := options.skipTLS } }

/-! ## JSON rules for pointers, slices and the optional types -/

/-- Storing a JSON value into a field of Go type `bool`. -/
def storeBool : Json → Bool → Except GoError Bool
  | .null, cur => .ok cur
  | .bool b, _ => .ok b
  | j, _ => .error (jsonUnmarshalTypeError j.kind "bool")

/-- The types `optional.String`, `optional.Int`, `optional.Int32` and `optional.Bool`
of the library `github.com/markphelps/optional`: a struct holding a pointer to the
value, nil when the value is not present. -/
structure Optional (α : Type) where
  value : Option α
  deriving DecidableEq, Repr

/-- The method `MarshalJSON` of the optional types: `json.Marshal` of the value when
it is present, `null` when it is not. -/
def Optional.marshal {α : Type} (enc : α → Json) (o : Optional α) : Json :=
  match o.value with
  | some x => enc x
  | none => Json.null

/-- The members `json.Marshal` writes for a field of type `*optional.T` tagged
`omitempty`: none for a nil pointer, otherwise what `MarshalJSON` returns. -/
def marshalOptionalPtr {α : Type} (name : String) (enc : α → Json) :
    Option (Optional α) → List (String × Json)
  | none => []
  | some o => [(name, o.marshal enc)]

/-- Storing a JSON value into a field of type `*optional.T`: `null` sets the pointer
to nil; any other value goes to the method `UnmarshalJSON` of a new optional, which
decodes it into a variable of type `T` and holds the result as present. -/
def storeOptionalPtr {α : Type} (store : Json → α → Except GoError α) (zero : α) :
    Json → Option (Optional α) → Except GoError (Option (Optional α))
  | .null, _ => .ok none
  | j, _ => do
    let x ← store j zero
    pure (some { value := some x })

/-- Storing a JSON value into a field of type pointer to struct: `null` sets the
pointer to nil; any other value is stored into the struct pointed to, a new zero
struct when the pointer is nil. -/
def storeStructPtr {α : Type} (goType : String)
    (store : String → Json → α → Except GoError α) (zero : α) :
    Json → Option α → Except GoError (Option α)
  | .null, _ => .ok none
  | j, cur => do
    let x ← storeStruct goType store j (cur.getD zero)
    pure (some x)

/-- A Go slice: its elements, and what its backing array holds behind them (the
elements between length and capacity, left there by an earlier, longer decoding). -/
structure GoSlice (β : Type) where
  elems : List β
  spare : List β
  deriving DecidableEq, Repr

/-- Decoding the elements of a JSON array into the slots of a backing array: the
i-th element is decoded into the i-th slot, which holds what an earlier decoding left
there, and into a new zero element when the slots have run out (the slice has grown).
The result is the decoded elements and the slots not reached. -/
def storeElems {β : Type} (storeElem : Json → β → Except GoError β) (zero : β) :
    List Json → List β → Except GoError (List β × List β)
  | [], slots => .ok ([], slots)
  | x :: xs, slots => do
    let y ← storeElem x (slots.headD zero)
    let r ← storeElems storeElem zero xs slots.tail
    pure (y :: r.1, r.2)

/-- Storing a JSON value into a field of slice type: `null` sets the slice to nil, an
empty array sets it to a new empty slice, an array decodes its elements into the
elements the slice and its backing array already hold and sets the length to the
number of elements decoded, anything else is a type error. -/
def storeSlice {β : Type} (goType : String) (storeElem : Json → β → Except GoError β)
    (zero : β) : Json → GoSlice β → Except GoError (GoSlice β)
  | .null, _ => .ok { elems := [], spare := [] }
  | .arr [], _ => .ok { elems := [], spare := [] }
  | .arr elems, cur => do
    let r ← storeElems storeElem zero elems (cur.elems ++ cur.spare)
    pure { elems := r.1, spare := r.2 }
  | j, _ => .error (jsonUnmarshalTypeError j.kind goType)

/-- The call `json.Marshal(v)` for a struct whose document is `doc`; none of the
types of this package makes it fail. -/
def jsonMarshal (doc : Json) : Except GoError Body :=
  .ok (Body.json doc)

/-! ## vlan.go -/

/-- The constant `interfaceVLANEndpoint`. -/
def interfaceVLANEndpoint : String := "api/v2/interface/vlan"

/-- The constant `interfaceVLANsEndpoint`. -/
def interfaceVLANsEndpoint : String := "api/v2/interface/vlans"

/-- The struct `VLANRequest` (vlan.go lines 86-92). -/
structure VLANRequest where
  If : GoString := []
  Tag : Int := 0
  Vlanif : Option (Optional GoString) := none
  Pcp : Option (Optional Int) := none
  Descr : Option (Optional GoString) := none
  deriving DecidableEq, Repr

/-- The struct `VLAN` (vlan.go lines 25-28), with its embedded `VLANRequest`. -/
structure VLAN where
  VLANRequest : VLANRequest := {}
  Id : Int := 0
  deriving DecidableEq, Repr

/-- The struct `vlanListResponse` (vlan.go lines 30-33). -/
structure vlanListResponse where
  apiResponse : apiResponse := {}
  Data : GoSlice (Option VLAN) := { elems := [], spare := [] }
  deriving DecidableEq, Repr

/-- The struct `createVLANResponse` (vlan.go lines 94-97). -/
structure createVLANResponse where
  apiResponse : apiResponse := {}
  Data : Option VLAN := none
  deriving DecidableEq, Repr

/-- The members `json.Marshal` writes for a `VLANRequest`, from its `json` tags. -/
def VLANRequest.marshalFields (r : pfsenseapi.VLANRequest) : List (String × Json) :=
  [("if", jsonString r.If)] ++
  ([("tag", Json.int r.Tag)] ++
  (marshalOptionalPtr "vlanif" jsonString r.Vlanif ++
  (marshalOptionalPtr "pcp" Json.int r.Pcp ++
  marshalOptionalPtr "descr" jsonString r.Descr)))

/-- The members `json.Marshal` writes for a `VLAN`: those of the embedded struct,
then `id`. -/
def VLAN.marshalFields (x : VLAN) : List (String × Json) :=
  x.VLANRequest.marshalFields ++ [("id", Json.int x.Id)]

/-- Field selection for `VLANRequest`, from its `json` tags. -/
def VLANRequest.storeField (key : String) (v : Json) (r : pfsenseapi.VLANRequest) :
    Except GoError pfsenseapi.VLANRequest :=
  if fieldIs key "if" then do
    let x ← storeGoString v r.If
    pure { r with If := x }
  else if fieldIs key "tag" then do
    let x ← storeInt v r.Tag
    pure { r with Tag := x }
  else if fieldIs key "vlanif" then do
    let x ← storeOptionalPtr storeGoString [] v r.Vlanif
    pure { r with Vlanif := x }
  else if fieldIs key "pcp" then do
    let x ← storeOptionalPtr storeInt 0 v r.Pcp
    pure { r with Pcp := x }
  else if fieldIs key "descr" then do
    let x ← storeOptionalPtr storeGoString [] v r.Descr
    pure { r with Descr := x }
  else pure r

/-- Field selection for `VLAN`: its own field `id` and the promoted fields of the
embedded `VLANRequest`. -/
def VLAN.storeField (key : String) (v : Json) (x : VLAN) : Except GoError VLAN :=
  if fieldIs key "id" then do
    let n ← storeInt v x.Id
    pure { x with Id := n }
  else do
    let r ← VLANRequest.storeField key v x.VLANRequest
    pure { x with VLANRequest := r }

/-- Field selection for `vlanListResponse`. -/
def vlanListResponse.storeField (key : String) (v : Json) (r : vlanListResponse) :
    Except GoError vlanListResponse :=
  if fieldIs key "data" then do
    let d ← storeSlice "[]*pfsenseapi.VLAN"
      (storeStructPtr "pfsenseapi.VLAN" VLAN.storeField {}) none v r.Data
    pure { r with Data := d }
  else do
    let a ← apiResponse.storeField key v r.apiResponse
    pure { r with apiResponse := a }

/-- Field selection for `createVLANResponse`. -/
def createVLANResponse.storeField (key : String) (v : Json) (r : createVLANResponse) :
    Except GoError createVLANResponse :=
  if fieldIs key "data" then do
    let d ← storeStructPtr "pfsenseapi.VLAN" VLAN.storeField {} v r.Data
    pure { r with Data := d }
  else do
    let a ← apiResponse.storeField key v r.apiResponse
    pure { r with apiResponse := a }

/-- The method `GetVLANs` (vlan.go lines 36-48). -/
def client.GetVLANs (c : client) (env : Env) :
    Except GoError (GoSlice (Option VLAN)) × List Event :=
  match c.get env interfaceVLANsEndpoint none with
  | (.error err, tr) => (.error err, tr)
  | (.ok response, tr) =>
    match jsonUnmarshal "vlanListResponse" vlanListResponse.storeField response {} with
    | .error err => (.error (GoError.wrapped "error unmarshalling response: " err ""), tr)
    | .ok resp => (.ok resp.Data, tr)

/-- The method `GetVLAN` (vlan.go lines 51-68); `strconv.Itoa` is `toString`. -/
def client.GetVLAN (c : client) (env : Env) (id : Int) :
    Except GoError (Option VLAN) × List Event :=
  match c.get env interfaceVLANEndpoint (some [("id", toString id)]) with
  | (.error err, tr) => (.error err, tr)
  | (.ok response, tr) =>
    match jsonUnmarshal "createVLANResponse" createVLANResponse.storeField response {} with
    | .error err => (.error (GoError.wrapped "error unmarshalling response: " err ""), tr)
    | .ok resp => (.ok resp.Data, tr)

/-- The method `DeleteVLAN` (vlan.go lines 71-84); `none` is a nil error. -/
def client.DeleteVLAN (c : client) (env : Env) (idToDelete : Int) :
    Option GoError × List Event :=
  match c.delete env interfaceVLANEndpoint (some [("id", toString idToDelete)]) with
  | (.error err, tr) => (some err, tr)
  | (.ok _, tr) => (none, tr)

/-- The method `CreateVLAN` (vlan.go lines 100-119). -/
def client.CreateVLAN (c : client) (env : Env) (newVLAN : VLANRequest) :
    Except GoError (Option VLAN) × List Event :=
  match jsonMarshal (Json.obj newVLAN.marshalFields) with
  | .error err =>
    (.error (GoError.wrapped "error marshalling request payload into json: " err ""), [])
  | .ok jsonData =>
    match c.post env interfaceVLANEndpoint none (some jsonData) with
    | (.error err, tr) => (.error (GoError.wrapped "error unmarshalling response: " err ""), tr)
    | (.ok response, tr) =>
      match jsonUnmarshal "createVLANResponse" createVLANResponse.storeField response {} with
      | .error err => (.error (GoError.wrapped "error unmarshalling response: " err ""), tr)
      | .ok resp => (.ok resp.Data, tr)

/-- The method `UpdateVLAN` (vlan.go lines 122-147). -/
def client.UpdateVLAN (c : client) (env : Env) (idToUpdate : Int) (vlanData : VLANRequest) :
    Except GoError (Option VLAN) × List Event :=
  let requestData : VLAN := { VLANRequest := vlanData, Id := idToUpdate }
  match jsonMarshal (Json.obj requestData.marshalFields) with
  | .error err =>
    (.error (GoError.wrapped "error marshalling request payload into json: " err ""), [])
  | .ok jsonData =>
    match c.patch env interfaceVLANEndpoint none (some jsonData) with
    | (.error err, tr) => (.error err, tr)
    | (.ok response, tr) =>
      match jsonUnmarshal "createVLANResponse" createVLANResponse.storeField response {} with
      | .error err => (.error (GoError.wrapped "error unmarshalling response: " err ""), tr)
      | .ok resp => (.ok resp.Data, tr)

/-! ## interface.go -/

/-- The constant `interfaceEndpoint`. -/
def interfaceEndpoint : String := "api/v2/interface"

/-- The constant `interfacesEndpoint`. -/
def interfacesEndpoint : String := "api/v2/interfaces"

/-- The struct `InterfaceRequest` (interface.go lines 82-117); `int32` fields are
integers, checked against the range of `int32` where they are decoded. -/
structure InterfaceRequest where
  If : GoString := []
  Enable : Option (Optional Bool) := none
  Descr : GoString := []
  Spoofmac : Option (Optional GoString) := none
  Mtu : Option (Optional Int) := none
  Mss : Option (Optional Int) := none
  Media : Option (Optional GoString) := none
  Mediaopt : Option (Optional GoString) := none
  Blockpriv : Option (Optional Bool) := none
  Blockbogons : Option (Optional Bool) := none
  Typev4 : GoString := []
  Ipaddr : GoString := []
  Subnet : Int := 0
  Gateway : Option (Optional GoString) := none
  AliasSubnet : Option (Optional Int) := none
  AdvDhcpPtTimeout : Option (Optional Int) := none
  AdvDhcpPtRetry : Option (Optional Int) := none
  AdvDhcpPtSelectTimeout : Option (Optional Int) := none
  AdvDhcpPtReboot : Option (Optional Int) := none
  AdvDhcpPtBackoffCutoff : Option (Optional Int) := none
  AdvDhcpPtInitialInterval : Option (Optional Int) := none
  AdvDhcpSendOptions : Option (Optional GoString) := none
  AdvDhcpRequestOptions : Option (Optional GoString) := none
  AdvDhcpRequiredOptions : Option (Optional GoString) := none
  AdvDhcpOptionModifiers : Option (Optional GoString) := none
  AdvDhcpConfigFileOverridePath : Option (Optional GoString) := none
  Typev6 : Option (Optional GoString) := none
  Ipaddrv6 : GoString := []
  Subnetv6 : Int := 0
  Gatewayv6 : Option (Optional GoString) := none
  Prefix6Rd : GoString := []
  Gateway6Rd : GoString := []
  Prefix6RdV4Plen : Int := 0
  Track6Interface : GoString := []
  deriving DecidableEq, Repr

/-- The struct `Interface` (interface.go lines 22-25), with its embedded
`InterfaceRequest`. -/
structure Interface where
  InterfaceRequest : InterfaceRequest := {}
  Id : GoString := []
  deriving DecidableEq, Repr

/-- The struct `interfaceListResponse` (interface.go lines 27-30). -/
structure interfaceListResponse where
  apiResponse : apiResponse := {}
  Data : GoSlice (Option Interface) := { elems := [], spare := [] }
  deriving DecidableEq, Repr

/-- The struct `createInterfaceResponse` (interface.go lines 119-122). -/
structure createInterfaceResponse where
  apiResponse : apiResponse := {}
  Data : Option Interface := none
  deriving DecidableEq, Repr

/-- The members `json.Marshal` writes for an `InterfaceRequest`, from its `json`
tags: a pointer field tagged `omitempty` is left out when it is nil. -/
def InterfaceRequest.marshalFields (r : pfsenseapi.InterfaceRequest) : List (String × Json) :=
  [("if", jsonString r.If)] ++
  (marshalOptionalPtr "enable" Json.bool r.Enable ++
  ([("descr", jsonString r.Descr)] ++
  (marshalOptionalPtr "spoofmac" jsonString r.Spoofmac ++
  (marshalOptionalPtr "mtu" Json.int r.Mtu ++
  (marshalOptionalPtr "mss" Json.int r.Mss ++
  (marshalOptionalPtr "media" jsonString r.Media ++
  (marshalOptionalPtr "mediaopt" jsonString r.Mediaopt ++
  (marshalOptionalPtr "blockpriv" Json.bool r.Blockpriv ++
  (marshalOptionalPtr "blockbogons" Json.bool r.Blockbogons ++
  ([("typev4", jsonString r.Typev4)] ++
  ([("ipaddr", jsonString r.Ipaddr)] ++
  ([("subnet", Json.int r.Subnet)] ++
  (marshalOptionalPtr "gateway" jsonString r.Gateway ++
  (marshalOptionalPtr "alias_subnet" Json.int r.AliasSubnet ++
  (marshalOptionalPtr "adv_dhcp_pt_timeout" Json.int r.AdvDhcpPtTimeout ++
  (marshalOptionalPtr "adv_dhcp_pt_retry" Json.int r.AdvDhcpPtRetry ++
  (marshalOptionalPtr "adv_dhcp_pt_select_timeout" Json.int r.AdvDhcpPtSelectTimeout ++
  (marshalOptionalPtr "adv_dhcp_pt_reboot" Json.int r.AdvDhcpPtReboot ++
  (marshalOptionalPtr "adv_dhcp_pt_backoff_cutoff" Json.int r.AdvDhcpPtBackoffCutoff ++
  (marshalOptionalPtr "adv_dhcp_pt_initial_interval" Json.int r.AdvDhcpPtInitialInterval ++
  (marshalOptionalPtr "adv_dhcp_send_options" jsonString r.AdvDhcpSendOptions ++
  (marshalOptionalPtr "adv_dhcp_request_options" jsonString r.AdvDhcpRequestOptions ++
  (marshalOptionalPtr "adv_dhcp_required_options" jsonString r.AdvDhcpRequiredOptions ++
  (marshalOptionalPtr "adv_dhcp_option_modifiers" jsonString r.AdvDhcpOptionModifiers ++
  (marshalOptionalPtr "adv_dhcp_config_file_override_path" jsonString r.AdvDhcpConfigFileOverridePath ++
  (marshalOptionalPtr "typev6" jsonString r.Typev6 ++
  ([("ipaddrv6", jsonString r.Ipaddrv6)] ++
  ([("subnetv6", Json.int r.Subnetv6)] ++
  (marshalOptionalPtr "gatewayv6" jsonString r.Gatewayv6 ++
  ([("prefix_6rd", jsonString r.Prefix6Rd)] ++
  ([("gateway_6rd", jsonString r.Gateway6Rd)] ++
  ([("prefix_6rd_v4plen", Json.int r.Prefix6RdV4Plen)] ++
  [("track6_interface", jsonString r.Track6Interface)]))))))))))))))))))))))))))))))))

/-- The members `json.Marshal` writes for an `Interface`: those of the embedded
struct, then `id`. -/
def Interface.marshalFields (x : Interface) : List (String × Json) :=
  x.InterfaceRequest.marshalFields ++ [("id", jsonString x.Id)]

/-- Field selection for `InterfaceRequest`, from its `json` tags. -/
def InterfaceRequest.storeField (key : String) (v : Json) (r : pfsenseapi.InterfaceRequest) :
    Except GoError pfsenseapi.InterfaceRequest :=
  if fieldIs key "if" then do
    let x ← storeGoString v r.If
    pure { r with If := x }
  else if fieldIs key "enable" then do
    let x ← storeOptionalPtr storeBool false v r.Enable
    pure { r with Enable := x }
  else if fieldIs key "descr" then do
    let x ← storeGoString v r.Descr
    pure { r with Descr := x }
  else if fieldIs key "spoofmac" then do
    let x ← storeOptionalPtr storeGoString [] v r.Spoofmac
    pure { r with Spoofmac := x }
  else if fieldIs key "mtu" then do
    let x ← storeOptionalPtr storeInt32 0 v r.Mtu
    pure { r with Mtu := x }
  else if fieldIs key "mss" then do
    let x ← storeOptionalPtr storeInt32 0 v r.Mss
    pure { r with Mss := x }
  else if fieldIs key "media" then do
    let x ← storeOptionalPtr storeGoString [] v r.Media
    pure { r with Media := x }
  else if fieldIs key "mediaopt" then do
    let x ← storeOptionalPtr storeGoString [] v r.Mediaopt
    pure { r with Mediaopt := x }
  else if fieldIs key "blockpriv" then do
    let x ← storeOptionalPtr storeBool false v r.Blockpriv
    pure { r with Blockpriv := x }
  else if fieldIs key "blockbogons" then do
    let x ← storeOptionalPtr storeBool false v r.Blockbogons
    pure { r with Blockbogons := x }
  else if fieldIs key "typev4" then do
    let x ← storeGoString v r.Typev4
    pure { r with Typev4 := x }
  else if fieldIs key "ipaddr" then do
    let x ← storeGoString v r.Ipaddr
    pure { r with Ipaddr := x }
  else if fieldIs key "subnet" then do
    let x ← storeInt32 v r.Subnet
    pure { r with Subnet := x }
  else if fieldIs key "gateway" then do
    let x ← storeOptionalPtr storeGoString [] v r.Gateway
    pure { r with Gateway := x }
  else if fieldIs key "alias_subnet" then do
    let x ← storeOptionalPtr storeInt32 0 v r.AliasSubnet
    pure { r with AliasSubnet := x }
  else if fieldIs key "adv_dhcp_pt_timeout" then do
    let x ← storeOptionalPtr storeInt32 0 v r.AdvDhcpPtTimeout
    pure { r with AdvDhcpPtTimeout := x }
  else if fieldIs key "adv_dhcp_pt_retry" then do
    let x ← storeOptionalPtr storeInt32 0 v r.AdvDhcpPtRetry
    pure { r with AdvDhcpPtRetry := x }
  else if fieldIs key "adv_dhcp_pt_select_timeout" then do
    let x ← storeOptionalPtr storeInt32 0 v r.AdvDhcpPtSelectTimeout
    pure { r with AdvDhcpPtSelectTimeout := x }
  else if fieldIs key "adv_dhcp_pt_reboot" then do
    let x ← storeOptionalPtr storeInt32 0 v r.AdvDhcpPtReboot
    pure { r with AdvDhcpPtReboot := x }
  else if fieldIs key "adv_dhcp_pt_backoff_cutoff" then do
    let x ← storeOptionalPtr storeInt32 0 v r.AdvDhcpPtBackoffCutoff
    pure { r with AdvDhcpPtBackoffCutoff := x }
  else if fieldIs key "adv_dhcp_pt_initial_interval" then do
    let x ← storeOptionalPtr storeInt32 0 v r.AdvDhcpPtInitialInterval
    pure { r with AdvDhcpPtInitialInterval := x }
  else if fieldIs key "adv_dhcp_send_options" then do
    let x ← storeOptionalPtr storeGoString [] v r.AdvDhcpSendOptions
    pure { r with AdvDhcpSendOptions := x }
  else if fieldIs key "adv_dhcp_request_options" then do
    let x ← storeOptionalPtr storeGoString [] v r.AdvDhcpRequestOptions
    pure { r with AdvDhcpRequestOptions := x }
  else if fieldIs key "adv_dhcp_required_options" then do
    let x ← storeOptionalPtr storeGoString [] v r.AdvDhcpRequiredOptions
    pure { r with AdvDhcpRequiredOptions := x }
  else if fieldIs key "adv_dhcp_option_modifiers" then do
    let x ← storeOptionalPtr storeGoString [] v r.AdvDhcpOptionModifiers
    pure { r with AdvDhcpOptionModifiers := x }
  else if fieldIs key "adv_dhcp_config_file_override_path" then do
    let x ← storeOptionalPtr storeGoString [] v r.AdvDhcpConfigFileOverridePath
    pure { r with AdvDhcpConfigFileOverridePath := x }
  else if fieldIs key "typev6" then do
    let x ← storeOptionalPtr storeGoString [] v r.Typev6
    pure { r with Typev6 := x }
  else if fieldIs key "ipaddrv6" then do
    let x ← storeGoString v r.Ipaddrv6
    pure { r with Ipaddrv6 := x }
  else if fieldIs key "subnetv6" then do
    let x ← storeInt32 v r.Subnetv6
    pure { r with Subnetv6 := x }
  else if fieldIs key "gatewayv6" then do
    let x ← storeOptionalPtr storeGoString [] v r.Gatewayv6
    pure { r with Gatewayv6 := x }
  else if fieldIs key "prefix_6rd" then do
    let x ← storeGoString v r.Prefix6Rd
    pure { r with Prefix6Rd := x }
  else if fieldIs key "gateway_6rd" then do
    let x ← storeGoString v r.Gateway6Rd
    pure { r with Gateway6Rd := x }
  else if fieldIs key "prefix_6rd_v4plen" then do
    let x ← storeInt32 v r.Prefix6RdV4Plen
    pure { r with Prefix6RdV4Plen := x }
  else if fieldIs key "track6_interface" then do
    let x ← storeGoString v r.Track6Interface
    pure { r with Track6Interface := x }
  else pure r

/-- Field selection for `Interface`: its own field `id` and the promoted fields of
the embedded `InterfaceRequest`. -/
def Interface.storeField (key : String) (v : Json) (x : Interface) : Except GoError Interface :=
  if fieldIs key "id" then do
    let s ← storeGoString v x.Id
    pure { x with Id := s }
  else do
    let r ← InterfaceRequest.storeField key v x.InterfaceRequest
    pure { x with InterfaceRequest := r }

/-- Field selection for `interfaceListResponse`. -/
def interfaceListResponse.storeField (key : String) (v : Json) (r : interfaceListResponse) :
    Except GoError interfaceListResponse :=
  if fieldIs key "data" then do
    let d ← storeSlice "[]*pfsenseapi.Interface"
      (storeStructPtr "pfsenseapi.Interface" Interface.storeField {}) none v r.Data
    pure { r with Data := d }
  else do
    let a ← apiResponse.storeField key v r.apiResponse
    pure { r with apiResponse := a }

/-- Field selection for `createInterfaceResponse`. -/
def createInterfaceResponse.storeField (key : String) (v : Json) (r : createInterfaceResponse) :
    Except GoError createInterfaceResponse :=
  if fieldIs key "data" then do
    let d ← storeStructPtr "pfsenseapi.Interface" Interface.storeField {} v r.Data
    pure { r with Data := d }
  else do
    let a ← apiResponse.storeField key v r.apiResponse
    pure { r with apiResponse := a }

/-- The method `GetInterface` (interface.go lines 33-50). -/
def client.GetInterface (c : client) (env : Env) (interfaceID : String) :
    Except GoError (Option Interface) × List Event :=
  match c.get env interfaceEndpoint (some [("if", interfaceID)]) with
  | (.error err, tr) => (.error err, tr)
  | (.ok response, tr) =>
    match jsonUnmarshal "createInterfaceResponse" createInterfaceResponse.storeField
        response {} with
    | .error err => (.error (GoError.wrapped "error unmarshalling response: " err ""), tr)
    | .ok resp => (.ok resp.Data, tr)

/-- The method `GetInterfaces` (interface.go lines 53-65). -/
def client.GetInterfaces (c : client) (env : Env) :
    Except GoError (GoSlice (Option Interface)) × List Event :=
  match c.get env interfacesEndpoint none with
  | (.error err, tr) => (.error err, tr)
  | (.ok response, tr) =>
    match jsonUnmarshal "interfaceListResponse" interfaceListResponse.storeField
        response {} with
    | .error err => (.error (GoError.wrapped "error unmarshalling response: " err ""), tr)
    | .ok resp => (.ok resp.Data, tr)

/-- The method `DeleteInterface` (interface.go lines 70-80); `none` is a nil error. -/
def client.DeleteInterface (c : client) (env : Env) (interfaceID : String) :
    Option GoError × List Event :=
  match c.delete env interfaceEndpoint (some [("if", interfaceID)]) with
  | (.error err, tr) => (some err, tr)
  | (.ok _, tr) => (none, tr)

/-- The method `CreateInterface` (interface.go lines 125-144). -/
def client.CreateInterface (c : client) (env : Env) (newInterface : InterfaceRequest) :
    Except GoError (Option Interface) × List Event :=
  match jsonMarshal (Json.obj newInterface.marshalFields) with
  | .error err =>
    (.error (GoError.wrapped "error marshalling request payload into json: " err ""), [])
  | .ok jsonData =>
    match c.post env interfaceEndpoint none (some jsonData) with
    | (.error err, tr) => (.error err, tr)
    | (.ok response, tr) =>
      match jsonUnmarshal "createInterfaceResponse" createInterfaceResponse.storeField
          response {} with
      | .error err => (.error (GoError.wrapped "error unmarshalling response: " err ""), tr)
      | .ok resp => (.ok resp.Data, tr)

/-- The method `UpdateInterface` (interface.go lines 147-172).  The identifier goes
into the request body, so it is kept as the bytes of the Go string. -/
def client.UpdateInterface (c : client) (env : Env) (idToUpdate : GoString)
    (interfaceData : InterfaceRequest) : Except GoError (Option Interface) × List Event :=
  let requestData : Interface := { InterfaceRequest := interfaceData, Id := idToUpdate }
  match jsonMarshal (Json.obj requestData.marshalFields) with
  | .error err =>
    (.error (GoError.wrapped "error marshalling request payload into json: " err ""), [])
  | .ok jsonData =>
    match c.patch env interfaceEndpoint none (some jsonData) with
    | (.error err, tr) => (.error (GoError.wrapped "error unmarshalling response: " err ""), tr)
    | (.ok response, tr) =>
      match jsonUnmarshal "createInterfaceResponse" createInterfaceResponse.storeField
          response {} with
      | .error err => (.error err, tr)
      | .ok resp => (.ok resp.Data, tr)

/-! ## Well-formedness of request data -/

/-- A field of type `*optional.T` that is nil or points to a present value. -/
def presentOrNil {α : Type} : Option (Optional α) → Bool
  | none => true
  | some o => o.value.isSome

/-- The value of a field of type `*optional.T`, when there is one, satisfies `fits`. -/
def optionalFits {α : Type} (fits : α → Bool) : Option (Optional α) → Bool
  | some { value := some x } => fits x
  | _ => true

/-- What a Go string is after `json.Marshal` and `json.Unmarshal`: every byte that
starts no well-formed encoding has become the three bytes of U+FFFD. -/
def normString (g : GoString) : GoString :=
  utf8Encode (String.mk (coerceUTF8 g))

/-- What a field of type `*optional.T` is after `json.Marshal` and `json.Unmarshal`:
a pointer to an optional without a value has become nil, and a present value `x` has
become `f x`. -/
def normOptional {α : Type} (f : α → α) : Option (Optional α) → Option (Optional α)
  | some { value := some x } => some { value := some (f x) }
  | _ => none

/-- The integers of a `VLANRequest` are values of their Go type `int`. -/
def VLANRequest.inRange (r : pfsenseapi.VLANRequest) : Bool :=
  fitsInt r.Tag && optionalFits fitsInt r.Pcp

/-- No optional field of a `VLANRequest` points to an optional without a value. -/
def VLANRequest.presentOrNil (r : pfsenseapi.VLANRequest) : Bool :=
  pfsenseapi.presentOrNil r.Vlanif && pfsenseapi.presentOrNil r.Pcp &&
    pfsenseapi.presentOrNil r.Descr

/-- Every string of a `VLANRequest` is valid UTF-8. -/
def VLANRequest.validUTF8 (r : pfsenseapi.VLANRequest) : Bool :=
  pfsenseapi.validUTF8 r.If && optionalFits pfsenseapi.validUTF8 r.Vlanif &&
    optionalFits pfsenseapi.validUTF8 r.Descr

/-- What a `VLANRequest` is after `json.Marshal` and `json.Unmarshal`. -/
def VLANRequest.normalize (r : pfsenseapi.VLANRequest) : pfsenseapi.VLANRequest :=
  { If := normString r.If, Tag := r.Tag, Vlanif := normOptional normString r.Vlanif
    Pcp := normOptional id r.Pcp, Descr := normOptional normString r.Descr }

/-- The integers of an `InterfaceRequest` are values of their Go type `int32`. -/
def InterfaceRequest.inRange (r : pfsenseapi.InterfaceRequest) : Bool :=
  optionalFits fitsInt32 r.Mtu && optionalFits fitsInt32 r.Mss && fitsInt32 r.Subnet &&
  optionalFits fitsInt32 r.AliasSubnet && optionalFits fitsInt32 r.AdvDhcpPtTimeout &&
  optionalFits fitsInt32 r.AdvDhcpPtRetry &&
  optionalFits fitsInt32 r.AdvDhcpPtSelectTimeout &&
  optionalFits fitsInt32 r.AdvDhcpPtReboot &&
  optionalFits fitsInt32 r.AdvDhcpPtBackoffCutoff &&
  optionalFits fitsInt32 r.AdvDhcpPtInitialInterval && fitsInt32 r.Subnetv6 &&
  fitsInt32 r.Prefix6RdV4Plen

/-- No optional field of an `InterfaceRequest` points to an optional without a value. -/
def InterfaceRequest.presentOrNil (r : pfsenseapi.InterfaceRequest) : Bool :=
  pfsenseapi.presentOrNil r.Enable && pfsenseapi.presentOrNil r.Spoofmac &&
  pfsenseapi.presentOrNil r.Mtu && pfsenseapi.presentOrNil r.Mss &&
  pfsenseapi.presentOrNil r.Media && pfsenseapi.presentOrNil r.Mediaopt &&
  pfsenseapi.presentOrNil r.Blockpriv && pfsenseapi.presentOrNil r.Blockbogons &&
  pfsenseapi.presentOrNil r.Gateway && pfsenseapi.presentOrNil r.AliasSubnet &&
  pfsenseapi.presentOrNil r.AdvDhcpPtTimeout && pfsenseapi.presentOrNil r.AdvDhcpPtRetry &&
  pfsenseapi.presentOrNil r.AdvDhcpPtSelectTimeout &&
  pfsenseapi.presentOrNil r.AdvDhcpPtReboot &&
  pfsenseapi.presentOrNil r.AdvDhcpPtBackoffCutoff &&
  pfsenseapi.presentOrNil r.AdvDhcpPtInitialInterval &&
  pfsenseapi.presentOrNil r.AdvDhcpSendOptions &&
  pfsenseapi.presentOrNil r.AdvDhcpRequestOptions &&
  pfsenseapi.presentOrNil r.AdvDhcpRequiredOptions &&
  pfsenseapi.presentOrNil r.AdvDhcpOptionModifiers &&
  pfsenseapi.presentOrNil r.AdvDhcpConfigFileOverridePath &&
  pfsenseapi.presentOrNil r.Typev6 && pfsenseapi.presentOrNil r.Gatewayv6

/-- Every string of an `InterfaceRequest` is valid UTF-8. -/
def InterfaceRequest.validUTF8 (r : pfsenseapi.InterfaceRequest) : Bool :=
  pfsenseapi.validUTF8 r.If && pfsenseapi.validUTF8 r.Descr &&
  optionalFits pfsenseapi.validUTF8 r.Spoofmac &&
  optionalFits pfsenseapi.validUTF8 r.Media &&
  optionalFits pfsenseapi.validUTF8 r.Mediaopt && pfsenseapi.validUTF8 r.Typev4 &&
  pfsenseapi.validUTF8 r.Ipaddr && optionalFits pfsenseapi.validUTF8 r.Gateway &&
  optionalFits pfsenseapi.validUTF8 r.AdvDhcpSendOptions &&
  optionalFits pfsenseapi.validUTF8 r.AdvDhcpRequestOptions &&
  optionalFits pfsenseapi.validUTF8 r.AdvDhcpRequiredOptions &&
  optionalFits pfsenseapi.validUTF8 r.AdvDhcpOptionModifiers &&
  optionalFits pfsenseapi.validUTF8 r.AdvDhcpConfigFileOverridePath &&
  optionalFits pfsenseapi.validUTF8 r.Typev6 && pfsenseapi.validUTF8 r.Ipaddrv6 &&
  optionalFits pfsenseapi.validUTF8 r.Gatewayv6 && pfsenseapi.validUTF8 r.Prefix6Rd &&
  pfsenseapi.validUTF8 r.Gateway6Rd && pfsenseapi.validUTF8 r.Track6Interface

/-- What an `InterfaceRequest` is after `json.Marshal` and `json.Unmarshal`. -/
def InterfaceRequest.normalize (r : pfsenseapi.InterfaceRequest) : pfsenseapi.InterfaceRequest :=
  { If := normString r.If, Enable := normOptional id r.Enable, Descr := normString r.Descr,
    Spoofmac := normOptional normString r.Spoofmac, Mtu := normOptional id r.Mtu,
    Mss := normOptional id r.Mss, Media := normOptional normString r.Media,
    Mediaopt := normOptional normString r.Mediaopt,
    Blockpriv := normOptional id r.Blockpriv, Blockbogons := normOptional id r.Blockbogons,
    Typev4 := normString r.Typev4, Ipaddr := normString r.Ipaddr, Subnet := r.Subnet,
    Gateway := normOptional normString r.Gateway,
    AliasSubnet := normOptional id r.AliasSubnet,
    AdvDhcpPtTimeout := normOptional id r.AdvDhcpPtTimeout,
    AdvDhcpPtRetry := normOptional id r.AdvDhcpPtRetry,
    AdvDhcpPtSelectTimeout := normOptional id r.AdvDhcpPtSelectTimeout,
    AdvDhcpPtReboot := normOptional id r.AdvDhcpPtReboot,
    AdvDhcpPtBackoffCutoff := normOptional id r.AdvDhcpPtBackoffCutoff,
    AdvDhcpPtInitialInterval := normOptional id r.AdvDhcpPtInitialInterval,
    AdvDhcpSendOptions := normOptional normString r.AdvDhcpSendOptions,
    AdvDhcpRequestOptions := normOptional normString r.AdvDhcpRequestOptions,
    AdvDhcpRequiredOptions := normOptional normString r.AdvDhcpRequiredOptions,
    AdvDhcpOptionModifiers := normOptional normString r.AdvDhcpOptionModifiers,
    AdvDhcpConfigFileOverridePath := normOptional normString r.AdvDhcpConfigFileOverridePath,
    Typev6 := normOptional normString r.Typev6, Ipaddrv6 := normString r.Ipaddrv6,
    Subnetv6 := r.Subnetv6, Gatewayv6 := normOptional normString r.Gatewayv6,
    Prefix6Rd := normString r.Prefix6Rd, Gateway6Rd := normString r.Gateway6Rd,
    Prefix6RdV4Plen := r.Prefix6RdV4Plen, Track6Interface := normString r.Track6Interface }


/-- A `VLAN` whose JSON object decodes back to it: integers within their Go types, no
optional without a value, strings valid UTF-8. -/
def VLAN.wellFormed (x : VLAN) : Bool :=
  x.VLANRequest.inRange && fitsInt x.Id && x.VLANRequest.presentOrNil &&
    x.VLANRequest.validUTF8

/-- An `Interface` whose JSON object decodes back to it. -/
def Interface.wellFormed (x : Interface) : Bool :=
  x.InterfaceRequest.inRange && x.InterfaceRequest.presentOrNil &&
    x.InterfaceRequest.validUTF8 && validUTF8 x.Id

/-- The `json` names of the fields of `VLAN`, promoted fields included. -/
def VLAN.fieldNames : List String :=
  ["if", "tag", "vlanif", "pcp", "descr", "id"]

/-- The `json` names of the fields of `Interface`, promoted fields included. -/
def Interface.fieldNames : List String :=
  ["if", "enable", "descr", "spoofmac", "mtu", "mss", "media", "mediaopt", "blockpriv",
    "blockbogons", "typev4", "ipaddr", "subnet", "gateway", "alias_subnet",
    "adv_dhcp_pt_timeout", "adv_dhcp_pt_retry", "adv_dhcp_pt_select_timeout",
    "adv_dhcp_pt_reboot", "adv_dhcp_pt_backoff_cutoff", "adv_dhcp_pt_initial_interval",
    "adv_dhcp_send_options", "adv_dhcp_request_options", "adv_dhcp_required_options",
    "adv_dhcp_option_modifiers", "adv_dhcp_config_file_override_path", "typev6",
    "ipaddrv6", "subnetv6", "gatewayv6", "prefix_6rd", "gateway_6rd", "prefix_6rd_v4plen",
    "track6_interface", "id"]

/-- Whether an object key selects one of the fields named. -/
def selectsField (names : List String) (key : String) : Bool :=
  names.any (fun name => fieldIs key name)

/-! ## Requests expected from the operations -/

/-- The requests an operation sends, in the words of the specification amended for
request construction: none when `http.NewRequestWithContext` rejects the method and
URL, otherwise exactly one, to `host + "/" + endpoint`, with the header `Accept:
application/json` and basic authentication from the configured credentials. -/
def expectedRequests (c : client) (env : Env) (method endpoint : String)
    (query : List (String × String)) (body : Option Body) : List Request :=
  match env.newRequest method (c.options.host ++ "/" ++ endpoint) with
  | some _ => []
  | none =>
    [{ Method := method
       URL := c.options.host ++ "/" ++ endpoint
       Query := query
       Header := [("Accept", "application/json")]
       BasicAuth := some (c.options.username, c.options.password)
       Body := body }]

/-- An environment whose `http.NewRequestWithContext` rejects, as `net/url` does, a
URL that holds an ASCII control character, and whose server answers 200 with an empty
envelope. -/
def strictEnv : Env :=
  { newRequest := fun _ url =>
      if url.data.any (fun ch => decide (ch.toNat < 32 ∨ ch.toNat = 127)) then
        some (GoError.fresh "net/url: invalid control character in URL")
      else none
    roundTrip := fun _ => .ok { StatusCode := 200, Body := .ok (Body.json (Json.obj [])) } }

/-- A client whose host ends in a line feed. -/
def lineFeedHostClient : client :=
  { http := { Timeout := 5000000000, InsecureSkipVerify := true }
    options :=
      { host := "https://192.168.1.1\n", username := "admin", password := "pfsense"
        skipTLS := true, timeout := 5000000000 } }

/-- A sample `VLANRequest`. -/
def sampleVLANRequest : VLANRequest :=
  { If := utf8Encode "igb0", Tag := 10, Descr := some { value := some (utf8Encode "lab") } }

/-- A sample `InterfaceRequest`. -/
def sampleInterfaceRequest : InterfaceRequest :=
  { If := utf8Encode "igb1", Descr := utf8Encode "LAN2", Typev4 := utf8Encode "static"
    Ipaddr := utf8Encode "10.0.2.1", Subnet := 24, Mtu := some { value := some 1500 } }

/-- The constant `dhcpLeasesTestResponse` of dhcp_test.go (lines 13-18), as the
document its text denotes. -/
def dhcpLeasesTestResponse : Body :=
  Body.json (Json.obj
    [("status", Json.str "ok"), ("code", Json.int 200), ("return", Json.int 0),
     ("message", Json.str "Success"),
     ("data", Json.arr
       [Json.obj
         [("ip", Json.str "192.168.60.7"), ("type", Json.str "static"),
          ("mac", Json.str "b4:5f:56:22:d4:33"), ("if", Json.str "opt10"),
          ("starts", Json.str ""), ("ends", Json.str ""), ("hostname", Json.str "host1"),
          ("descr", Json.str "host1"), ("online", Json.bool true),
          ("staticmap_array_index", Json.int 1), ("state", Json.str "static")]])])

/-- A `VLANRequest` whose field `Vlanif` points to an optional without a value. -/
def emptyOptionalVLANRequest : VLANRequest :=
  { If := utf8Encode "igb0", Tag := 10, Vlanif := some { value := none } }

/-- A `VLANRequest` whose field `If` is the single byte 0xff, which is not UTF-8. -/
def invalidUTF8VLANRequest : VLANRequest :=
  { If := [0xff], Tag := 1 }

/-- An envelope whose data is a list of one VLAN object, with a member that is no
field of a VLAN. -/
def vlanListEnvelope : Body :=
  Body.json (Json.obj
    [("status", Json.str "ok"), ("code", Json.int 200), ("message", Json.str "Success"),
     ("data", Json.arr
       [Json.obj
         [("if", Json.str "igb0"), ("tag", Json.int 10), ("online", Json.bool true),
          ("descr", Json.str "lab"), ("id", Json.int 3)]])])

/-- An envelope whose data is a list of one interface object. -/
def interfaceListEnvelope : Body :=
  Body.json (Json.obj
    [("status", Json.str "ok"), ("code", Json.int 200), ("message", Json.str "Success"),
     ("data", Json.arr
       [Json.obj
         [("if", Json.str "igb1"), ("descr", Json.str "LAN2"), ("mtu", Json.int 1500),
          ("typev4", Json.str "static"), ("ipaddr", Json.str "10.0.2.1"),
          ("subnet", Json.int 24), ("ipaddrv6", Json.str ""), ("subnetv6", Json.int 0),
          ("prefix_6rd", Json.str ""), ("gateway_6rd", Json.str ""),
          ("prefix_6rd_v4plen", Json.int 0), ("track6_interface", Json.str ""),
          ("id", Json.str "opt1")]])])

/-- An envelope whose data is one VLAN object. -/
def vlanEnvelope : Body :=
  Body.json (Json.obj
    [("status", Json.str "ok"), ("code", Json.int 200), ("message", Json.str "Success"),
     ("data", Json.obj
       [("if", Json.str "igb0"), ("tag", Json.int 10), ("descr", Json.str "lab"),
        ("id", Json.int 3)])])

/-! ## The five verb helpers, addressed by verb -/

/-- The five verb helpers of `client.go`. -/
inductive Verb
  | get
  | post
  | patch
  | put
  | delete
  deriving DecidableEq, Repr

/-- The `http.Method...` constant each helper passes to `client.do`. -/
def Verb.method : Verb → String
  | .get => "GET"
  | .post => "POST"
  | .patch => "PATCH"
  | .put => "PUT"
  | .delete => "DELETE"

/-- The body each helper passes to `client.do`: `get` and `delete` pass nil. -/
def Verb.requestBody : Verb → Option Body → Option Body
  | .get, _ => none
  | .post, body => body
  | .patch, body => body
  | .put, body => body
  | .delete, _ => none

/-- Calling the helper of a verb. -/
def client.call (c : client) (env : Env) (v : Verb) (endpoint : String)
    (queryMap : Option (List (String × String))) (body : Option Body) :
    Except GoError Body × List Event :=
  match v with
  | .get => c.get env endpoint queryMap
  | .post => c.post env endpoint queryMap body
  | .patch => c.patch env endpoint queryMap body
  | .put => c.put env endpoint queryMap body
  | .delete => c.delete env endpoint queryMap

/-- The error a non-2xx status starts from: the sentinel of the table, or a fresh
error naming the status. -/
def baseError (statusCode : Int) : GoError :=
  match responseCodeErrorMap statusCode with
  | some e => GoError.sentinel e
  | none => GoError.fresh ("non 2xx response code received: " ++ toString statusCode)

/-- Response handling in the words of the specification: a status in 200..299 gives
the body back; any other status gives the base error, followed by the message of the
envelope when the body decodes as one. -/
def specHandleResponse (statusCode : Int) (respbody : Body) : Except GoError Body :=
  if 200 ≤ statusCode ∧ statusCode ≤ 299 then .ok respbody
  else
    match jsonUnmarshal "apiResponse" apiResponse.storeField respbody {} with
    | .ok resp => .error (GoError.wrapped "" (baseError statusCode) (": " ++ resp.Message))
    | .error _ => .error (baseError statusCode)

/-- The result of a helper in the words of the specification, from what `client.do`
returned: a transport error or a read error is passed on, a response is handled by
`specHandleResponse`. -/
def specOutcome : Except GoError Response → Except GoError Body
  | .error err => .error err
  | .ok res =>
    match res.Body with
    | .error err => .error err
    | .ok respbody => specHandleResponse res.StatusCode respbody

/-! ## Auxiliary definitions for the statements -/

/-- The requests among the events of a call. -/
def requestsOf : List Event → List Request
  | [] => []
  | Event.send req :: rest => req :: requestsOf rest
  | _ :: rest => requestsOf rest

/-- What the deferred function of a helper does: `patch` never calls `Close`. -/
def Verb.deferred : Verb → List Event
  | .patch => [Event.discard]
  | _ => [Event.discard, Event.close]

/-- The events of a helper, from what its call of `client.do` returned: the events
of `client.do`, and when a response came back the body is read, drained and (by every
helper but `patch`) closed. -/
def helperEvents (v : Verb) : Except GoError Response × List Event → List Event
  | (.error _, tr) => tr
  | (.ok _, tr) => tr ++ [Event.readAll] ++ v.deferred

/-- A client as `New` would build it from a host and credentials. -/
def sampleClient : client :=
  { http := { Timeout := 5000000000, InsecureSkipVerify := true }
    options :=
      { host := "https://192.168.1.1", username := "admin", password := "pfsense"
        skipTLS := true, timeout := 5000000000 } }

/-- A server that answers every request with the given status and body. -/
def serverReplying (statusCode : Int) (body : Body) : Env :=
  { newRequest := fun _ _ => none
    roundTrip := fun _ => .ok { StatusCode := statusCode, Body := .ok body } }

/-- A server that answers the requests to one URL with the given status and body, and
whose connection fails for every other URL. -/
def serverReplyingAt (url : String) (statusCode : Int) (body : Body) : Env :=
  { newRequest := fun _ _ => none
    roundTrip := fun req =>
      if req.URL = url then .ok { StatusCode := statusCode, Body := .ok body }
      else .error (GoError.fresh "connection refused") }

/-- The request `client.do` builds. -/
def client.buildRequest (c : client) (method endpoint : String)
    (queryMap : Option (List (String × String))) (body : Option Body) : Request :=
  { Method := method
    URL := c.options.host ++ "/" ++ endpoint
    Query := queryMap.getD []
    Header := [("Accept", "application/json")]
    BasicAuth := some (c.options.username, c.options.password)
    Body := body }


/-! ## Theorems: the verb helpers -/

theorem get_fst (c : client) (env : Env) (endpoint : String)
    (queryMap : Option (List (String × String))) :
    (c.get env endpoint queryMap).1 =
      specOutcome (c.doRequest env "GET" endpoint queryMap none).1 := by
  unfold client.get specOutcome specHandleResponse baseError
  rcases c.doRequest env "GET" endpoint queryMap none with ⟨r, tr⟩
  rcases r with err | res
  · rfl
  · rcases hb : res.Body with err | respbody
    · simp [hb]
    · by_cases h : res.StatusCode < 200 ∨ res.StatusCode > 299
      · have h2 : ¬ (200 ≤ res.StatusCode ∧ res.StatusCode ≤ 299) := by omega
        simp only [hb, h, h2, if_true, if_false]
        cases jsonUnmarshal "apiResponse" apiResponse.storeField respbody {} <;> rfl
      · have h2 : 200 ≤ res.StatusCode ∧ res.StatusCode ≤ 299 := by omega
        simp only [hb, h, h2, if_true, if_false, and_self]

theorem post_fst (c : client) (env : Env) (endpoint : String)
    (queryMap : Option (List (String × String))) (body : Option Body) :
    (c.post env endpoint queryMap body).1 =
      specOutcome (c.doRequest env "POST" endpoint queryMap body).1 := by
  unfold client.post specOutcome specHandleResponse baseError
  rcases c.doRequest env "POST" endpoint queryMap body with ⟨r, tr⟩
  rcases r with err | res
  · rfl
  · rcases hb : res.Body with err | respbody
    · simp [hb]
    · by_cases h : res.StatusCode < 200 ∨ res.StatusCode > 299
      · have h2 : ¬ (200 ≤ res.StatusCode ∧ res.StatusCode ≤ 299) := by omega
        simp only [hb, h, h2, if_true, if_false]
        cases jsonUnmarshal "apiResponse" apiResponse.storeField respbody {} <;> rfl
      · have h2 : 200 ≤ res.StatusCode ∧ res.StatusCode ≤ 299 := by omega
        simp only [hb, h, h2, if_true, if_false, and_self]

theorem patch_fst (c : client) (env : Env) (endpoint : String)
    (queryMap : Option (List (String × String))) (body : Option Body) :
    (c.patch env endpoint queryMap body).1 =
      specOutcome (c.doRequest env "PATCH" endpoint queryMap body).1 := by
  unfold client.patch specOutcome specHandleResponse baseError
  rcases c.doRequest env "PATCH" endpoint queryMap body with ⟨r, tr⟩
  rcases r with err | res
  · rfl
  · rcases hb : res.Body with err | respbody
    · simp [hb]
    · by_cases h : res.StatusCode < 200 ∨ res.StatusCode > 299
      · have h2 : ¬ (200 ≤ res.StatusCode ∧ res.StatusCode ≤ 299) := by omega
        simp only [hb, h, h2, if_true, if_false]
        cases jsonUnmarshal "apiResponse" apiResponse.storeField respbody {} <;> rfl
      · have h2 : 200 ≤ res.StatusCode ∧ res.StatusCode ≤ 299 := by omega
        simp only [hb, h, h2, if_true, if_false, and_self]

theorem put_fst (c : client) (env : Env) (endpoint : String)
    (queryMap : Option (List (String × String))) (body : Option Body) :
    (c.put env endpoint queryMap body).1 =
      specOutcome (c.doRequest env "PUT" endpoint queryMap body).1 := by
  unfold client.put specOutcome specHandleResponse baseError
  rcases c.doRequest env "PUT" endpoint queryMap body with ⟨r, tr⟩
  rcases r with err | res
  · rfl
  · rcases hb : res.Body with err | respbody
    · simp [hb]
    · by_cases h : res.StatusCode < 200 ∨ res.StatusCode > 299
      · have h2 : ¬ (200 ≤ res.StatusCode ∧ res.StatusCode ≤ 299) := by omega
        simp only [hb, h, h2, if_true, if_false]
        cases jsonUnmarshal "apiResponse" apiResponse.storeField respbody {} <;> rfl
      · have h2 : 200 ≤ res.StatusCode ∧ res.StatusCode ≤ 299 := by omega
        simp only [hb, h, h2, if_true, if_false, and_self]

theorem delete_fst (c : client) (env : Env) (endpoint : String)
    (queryMap : Option (List (String × String))) :
    (c.delete env endpoint queryMap).1 =
      specOutcome (c.doRequest env "DELETE" endpoint queryMap none).1 := by
  unfold client.delete specOutcome specHandleResponse baseError
  rcases c.doRequest env "DELETE" endpoint queryMap none with ⟨r, tr⟩
  rcases r with err | res
  · rfl
  · rcases hb : res.Body with err | respbody
    · simp [hb]
    · by_cases h : res.StatusCode < 200 ∨ res.StatusCode > 299
      · have h2 : ¬ (200 ≤ res.StatusCode ∧ res.StatusCode ≤ 299) := by omega
        simp only [hb, h, h2, if_true, if_false]
        cases jsonUnmarshal "apiResponse" apiResponse.storeField respbody {} <;> rfl
      · have h2 : 200 ≤ res.StatusCode ∧ res.StatusCode ≤ 299 := by omega
        simp only [hb, h, h2, if_true, if_false, and_self]

/-- Every helper returns what the specification's response handling returns on the
outcome of its own call of `client.do`. -/
theorem call_fst (c : client) (env : Env) (v : Verb) (endpoint : String)
    (queryMap : Option (List (String × String))) (body : Option Body) :
    (c.call env v endpoint queryMap body).1 =
      specOutcome (c.doRequest env v.method endpoint queryMap (v.requestBody body)).1 := by
  cases v
  · exact get_fst c env endpoint queryMap
  · exact post_fst c env endpoint queryMap body
  · exact patch_fst c env endpoint queryMap body
  · exact put_fst c env endpoint queryMap body
  · exact delete_fst c env endpoint queryMap

/-- No status in 200..299 is a key of the table. -/
theorem responseCodeErrorMap_of_2xx (statusCode : Int)
    (h : 200 ≤ statusCode ∧ statusCode ≤ 299) : responseCodeErrorMap statusCode = none := by
  unfold responseCodeErrorMap
  repeat rw [if_neg (by omega)]

theorem errorsIs_baseError (statusCode : Int) (s : Sentinel)
    (h : responseCodeErrorMap statusCode = some s) (t : Sentinel) :
    errorsIs (baseError statusCode) t = true ↔ t = s := by
  simp [baseError, h, errorsIs, eq_comm]

theorem specHandleResponse_mapped (statusCode : Int) (s : Sentinel)
    (h : responseCodeErrorMap statusCode = some s) (respbody : Body) :
    ∃ e, specHandleResponse statusCode respbody = .error e ∧
      ∀ t, errorsIs e t = true ↔ t = s := by
  have hne : ¬ (200 ≤ statusCode ∧ statusCode ≤ 299) := by
    intro h2
    rw [responseCodeErrorMap_of_2xx statusCode h2] at h
    cases h
  unfold specHandleResponse
  rw [if_neg hne]
  cases jsonUnmarshal "apiResponse" apiResponse.storeField respbody {} with
  | error _ => exact ⟨_, rfl, errorsIs_baseError statusCode s h⟩
  | ok resp =>
    refine ⟨_, rfl, fun t => ?_⟩
    simp only [errorsIs]
    exact errorsIs_baseError statusCode s h t

theorem get_snd (c : client) (env : Env) (endpoint : String)
    (queryMap : Option (List (String × String))) :
    (c.get env endpoint queryMap).2 =
      helperEvents .get (c.doRequest env "GET" endpoint queryMap none) := by
  unfold client.get
  rcases c.doRequest env "GET" endpoint queryMap none with ⟨r, tr⟩
  rcases r with err | res
  · rfl
  · rcases hb : res.Body with err | respbody
    · simp [hb, helperEvents, Verb.deferred]
    · by_cases h : res.StatusCode < 200 ∨ res.StatusCode > 299
      · simp only [hb, h, if_true]
        cases jsonUnmarshal "apiResponse" apiResponse.storeField respbody {} <;>
          simp [helperEvents, Verb.deferred]
      · simp [hb, h, helperEvents, Verb.deferred]

theorem post_snd (c : client) (env : Env) (endpoint : String)
    (queryMap : Option (List (String × String))) (body : Option Body) :
    (c.post env endpoint queryMap body).2 =
      helperEvents .post (c.doRequest env "POST" endpoint queryMap body) := by
  unfold client.post
  rcases c.doRequest env "POST" endpoint queryMap body with ⟨r, tr⟩
  rcases r with err | res
  · rfl
  · rcases hb : res.Body with err | respbody
    · simp [hb, helperEvents, Verb.deferred]
    · by_cases h : res.StatusCode < 200 ∨ res.StatusCode > 299
      · simp only [hb, h, if_true]
        cases jsonUnmarshal "apiResponse" apiResponse.storeField respbody {} <;>
          simp [helperEvents, Verb.deferred]
      · simp [hb, h, helperEvents, Verb.deferred]

theorem patch_snd (c : client) (env : Env) (endpoint : String)
    (queryMap : Option (List (String × String))) (body : Option Body) :
    (c.patch env endpoint queryMap body).2 =
      helperEvents .patch (c.doRequest env "PATCH" endpoint queryMap body) := by
  unfold client.patch
  rcases c.doRequest env "PATCH" endpoint queryMap body with ⟨r, tr⟩
  rcases r with err | res
  · rfl
  · rcases hb : res.Body with err | respbody
    · simp [hb, helperEvents, Verb.deferred]
    · by_cases h : res.StatusCode < 200 ∨ res.StatusCode > 299
      · simp only [hb, h, if_true]
        cases jsonUnmarshal "apiResponse" apiResponse.storeField respbody {} <;>
          simp [helperEvents, Verb.deferred]
      · simp [hb, h, helperEvents, Verb.deferred]

theorem put_snd (c : client) (env : Env) (endpoint : String)
    (queryMap : Option (List (String × String))) (body : Option Body) :
    (c.put env endpoint queryMap body).2 =
      helperEvents .put (c.doRequest env "PUT" endpoint queryMap body) := by
  unfold client.put
  rcases c.doRequest env "PUT" endpoint queryMap body with ⟨r, tr⟩
  rcases r with err | res
  · rfl
  · rcases hb : res.Body with err | respbody
    · simp [hb, helperEvents, Verb.deferred]
    · by_cases h : res.StatusCode < 200 ∨ res.StatusCode > 299
      · simp only [hb, h, if_true]
        cases jsonUnmarshal "apiResponse" apiResponse.storeField respbody {} <;>
          simp [helperEvents, Verb.deferred]
      · simp [hb, h, helperEvents, Verb.deferred]

theorem delete_snd (c : client) (env : Env) (endpoint : String)
    (queryMap : Option (List (String × String))) :
    (c.delete env endpoint queryMap).2 =
      helperEvents .delete (c.doRequest env "DELETE" endpoint queryMap none) := by
  unfold client.delete
  rcases c.doRequest env "DELETE" endpoint queryMap none with ⟨r, tr⟩
  rcases r with err | res
  · rfl
  · rcases hb : res.Body with err | respbody
    · simp [hb, helperEvents, Verb.deferred]
    · by_cases h : res.StatusCode < 200 ∨ res.StatusCode > 299
      · simp only [hb, h, if_true]
        cases jsonUnmarshal "apiResponse" apiResponse.storeField respbody {} <;>
          simp [helperEvents, Verb.deferred]
      · simp [hb, h, helperEvents, Verb.deferred]

/-- The events of every helper, from its own call of `client.do`. -/
theorem call_snd (c : client) (env : Env) (v : Verb) (endpoint : String)
    (queryMap : Option (List (String × String))) (body : Option Body) :
    (c.call env v endpoint queryMap body).2 =
      helperEvents v (c.doRequest env v.method endpoint queryMap (v.requestBody body)) := by
  cases v
  · exact get_snd c env endpoint queryMap
  · exact post_snd c env endpoint queryMap body
  · exact patch_snd c env endpoint queryMap body
  · exact put_snd c env endpoint queryMap body
  · exact delete_snd c env endpoint queryMap

/-! ### Claims on the verb helpers -/

/-- C1: for each of the five verb helpers and every response whose status code is a
key of the table (400, 401, 403, 404, 405, 406, 409, 415, 422, 424, 500, 503) the
helper returns no body and an error that is, or wraps, the sentinel of exactly that
status and of no other, whatever the response body is. -/
theorem verb_helper_returns_sentinel (c : client) (env : Env) (v : Verb) (endpoint : String)
    (queryMap : Option (List (String × String))) (body : Option Body)
    (res : Response) (respbody : Body) (code : Int) (s : Sentinel)
    (hdo : (c.doRequest env v.method endpoint queryMap (v.requestBody body)).1 = .ok res)
    (hread : res.Body = .ok respbody)
    (hcode : res.StatusCode = code)
    (hmem : (code, s) ∈
      [((400 : Int), Sentinel.ErrBadRequest), (401, Sentinel.ErrUnauthorized),
       (403, Sentinel.ErrForbidden), (404, Sentinel.ErrNotFound),
       (405, Sentinel.ErrMethodNotAllowed), (406, Sentinel.ErrNotAcceptable),
       (409, Sentinel.ErrConflict), (415, Sentinel.ErrUnsupportedMediaType),
       (422, Sentinel.ErrUnprocessableEntity), (424, Sentinel.ErrFailedDependency),
       (500, Sentinel.ErrInternalServerError), (503, Sentinel.ErrServiceUnavailable)]) :
    ∃ e, (c.call env v endpoint queryMap body).1 = .error e ∧
      ∀ t, errorsIs e t = true ↔ t = s := by
  have hm : responseCodeErrorMap res.StatusCode = some s := by
    rw [hcode]
    simp only [List.mem_cons, Prod.mk.injEq, List.mem_singleton, List.not_mem_nil,
      or_false] at hmem
    rcases hmem with h | h | h | h | h | h | h | h | h | h | h | h <;>
      (obtain ⟨rfl, rfl⟩ := h; rfl)
  rw [call_fst, hdo]
  simp only [specOutcome, hread]
  exact specHandleResponse_mapped res.StatusCode s hm respbody

/-- Witness of C1: a 404 answer with an empty body, through `get`. -/
theorem verb_helper_returns_sentinel_witness :
    ∃ e, (sampleClient.call (serverReplying 404 (Body.invalid "")) Verb.get
        "api/v2/interface/vlan" none none).1 = .error e ∧
      ∀ t, errorsIs e t = true ↔ t = Sentinel.ErrNotFound :=
  verb_helper_returns_sentinel sampleClient (serverReplying 404 (Body.invalid "")) Verb.get
    "api/v2/interface/vlan" none none
    { StatusCode := 404, Body := .ok (Body.invalid "") } (Body.invalid "") 404
    Sentinel.ErrNotFound rfl rfl rfl (by simp)

/-- C2: when the transport call and the body read succeed, a verb helper returns an
error if and only if the status is below 200 or above 299; a status in 200..299 gives
the response body back unchanged, any other status (199 and 300 included) gives no
body and an error. -/
theorem verb_helper_error_iff_non_2xx (c : client) (env : Env) (v : Verb) (endpoint : String)
    (queryMap : Option (List (String × String))) (body : Option Body)
    (res : Response) (respbody : Body)
    (hdo : (c.doRequest env v.method endpoint queryMap (v.requestBody body)).1 = .ok res)
    (hread : res.Body = .ok respbody) :
    ((∃ e, (c.call env v endpoint queryMap body).1 = .error e) ↔
        (res.StatusCode < 200 ∨ res.StatusCode > 299)) ∧
      (200 ≤ res.StatusCode ∧ res.StatusCode ≤ 299 →
        (c.call env v endpoint queryMap body).1 = .ok respbody) ∧
      (res.StatusCode < 200 ∨ res.StatusCode > 299 →
        ∃ e, (c.call env v endpoint queryMap body).1 = .error e) ∧
      (res.StatusCode = 199 ∨ res.StatusCode = 300 →
        ∃ e, (c.call env v endpoint queryMap body).1 = .error e) := by
  rw [call_fst, hdo]
  simp only [specOutcome, hread]
  have hin : 200 ≤ res.StatusCode ∧ res.StatusCode ≤ 299 →
      specHandleResponse res.StatusCode respbody = .ok respbody := by
    intro h
    unfold specHandleResponse
    rw [if_pos h]
  have hout : ¬ (200 ≤ res.StatusCode ∧ res.StatusCode ≤ 299) →
      ∃ e, specHandleResponse res.StatusCode respbody = .error e := by
    intro h
    unfold specHandleResponse
    rw [if_neg h]
    cases jsonUnmarshal "apiResponse" apiResponse.storeField respbody {} with
    | error _ => exact ⟨_, rfl⟩
    | ok resp => exact ⟨_, rfl⟩
  refine ⟨⟨?_, fun h => hout (by omega)⟩, hin, fun h => hout (by omega), fun h => hout (by omega)⟩
  rintro ⟨e, he⟩
  by_contra hcon
  rw [hin (by omega)] at he
  cases he

/-- Witness of C2: a 200 answer through `post` comes back unchanged. -/
theorem verb_helper_error_iff_non_2xx_witness :
    (sampleClient.call (serverReplying 200 (Body.json (Json.obj []))) Verb.post
        "api/v2/interface/vlan" none (some (Body.json Json.null))).1 =
      .ok (Body.json (Json.obj [])) :=
  (verb_helper_error_iff_non_2xx sampleClient (serverReplying 200 (Body.json (Json.obj [])))
    Verb.post "api/v2/interface/vlan" none (some (Body.json Json.null))
    { StatusCode := 200, Body := .ok (Body.json (Json.obj [])) } (Body.json (Json.obj []))
    rfl rfl).2.1 (by decide)

/-- The five helpers return the same result for the same outcome of `client.do`: the
returned bytes and the returned error, its text included, depend on the response
alone. -/
theorem verb_helpers_same_result (c : client) (env : Env) (v w : Verb) (endpoint : String)
    (queryMap : Option (List (String × String))) (body : Option Body)
    (h : (c.doRequest env v.method endpoint queryMap (v.requestBody body)).1 =
      (c.doRequest env w.method endpoint queryMap (w.requestBody body)).1) :
    (c.call env v endpoint queryMap body).1 = (c.call env w endpoint queryMap body).1 := by
  rw [call_fst, call_fst, h]

/-- The two ways `client.do` ends: the request cannot be built and nothing is sent,
or the request is built and sent once. -/
theorem doRequest_cases (c : client) (env : Env) (method endpoint : String)
    (queryMap : Option (List (String × String))) (body : Option Body) :
    (∃ err, env.newRequest method (c.options.host ++ "/" ++ endpoint) = some err ∧
      c.doRequest env method endpoint queryMap body = (.error err, [])) ∨
    (env.newRequest method (c.options.host ++ "/" ++ endpoint) = none ∧
      c.doRequest env method endpoint queryMap body =
        (env.roundTrip (c.buildRequest method endpoint queryMap body),
          [Event.send (c.buildRequest method endpoint queryMap body)])) := by
  cases h : env.newRequest method (c.options.host ++ "/" ++ endpoint) with
  | some err => exact Or.inl ⟨err, rfl, by simp only [client.doRequest, h]⟩
  | none => exact Or.inr ⟨rfl, by simp only [client.doRequest, client.buildRequest, h]⟩

/-- A call of `patch` never closes a response body, whatever the exchange. -/
theorem patch_never_closes (c : client) (env : Env) (endpoint : String)
    (queryMap : Option (List (String × String))) (body : Option Body) :
    Event.close ∉ (c.patch env endpoint queryMap body).2 := by
  rw [patch_snd]
  rcases doRequest_cases c env "PATCH" endpoint queryMap body with ⟨err, _, h⟩ | ⟨_, h⟩
  · simp [h, helperEvents]
  · rw [h]
    cases env.roundTrip (c.buildRequest "PATCH" endpoint queryMap body) <;>
      simp [helperEvents, Verb.deferred]

/-- Every other helper closes the body of every response it receives. -/
theorem other_helpers_close (c : client) (env : Env) (v : Verb) (endpoint : String)
    (queryMap : Option (List (String × String))) (body : Option Body) (res : Response)
    (hv : v ≠ Verb.patch)
    (hdo : (c.doRequest env v.method endpoint queryMap (v.requestBody body)).1 = .ok res) :
    Event.close ∈ (c.call env v endpoint queryMap body).2 := by
  rw [call_snd]
  rcases hd : c.doRequest env v.method endpoint queryMap (v.requestBody body) with ⟨r, tr⟩
  rw [hd] at hdo
  simp only at hdo
  subst hdo
  cases v <;> simp [helperEvents, Verb.deferred] at hv ⊢

/-- C7 (evaluation of the code): on the same exchange `patch` and `post` return the
same result, and `post` reads, drains and closes the response body while `patch`
reads and drains it and does not close it; no call of `patch` ever closes a response
body. -/
theorem patch_leaves_response_body_open :
    (sampleClient.patch (serverReplying 200 (Body.json (Json.obj [])))
        "api/v2/interface/vlan" none (some (Body.json Json.null))).2 =
      [Event.send
          { Method := "PATCH", URL := "https://192.168.1.1/api/v2/interface/vlan", Query := []
            Header := [("Accept", "application/json")]
            BasicAuth := some ("admin", "pfsense"), Body := some (Body.json Json.null) },
        Event.readAll, Event.discard] ∧
    (sampleClient.post (serverReplying 200 (Body.json (Json.obj [])))
        "api/v2/interface/vlan" none (some (Body.json Json.null))).2 =
      [Event.send
          { Method := "POST", URL := "https://192.168.1.1/api/v2/interface/vlan", Query := []
            Header := [("Accept", "application/json")]
            BasicAuth := some ("admin", "pfsense"), Body := some (Body.json Json.null) },
        Event.readAll, Event.discard, Event.close] ∧
    (sampleClient.patch (serverReplying 200 (Body.json (Json.obj [])))
        "api/v2/interface/vlan" none (some (Body.json Json.null))).1 =
      (sampleClient.post (serverReplying 200 (Body.json (Json.obj [])))
        "api/v2/interface/vlan" none (some (Body.json Json.null))).1 ∧
    (∀ (c : client) (env : Env) (endpoint : String)
        (queryMap : Option (List (String × String))) (body : Option Body),
      Event.close ∉ (c.patch env endpoint queryMap body).2) :=
  ⟨rfl, rfl, rfl, patch_never_closes⟩

/-! ### Claims on `options` and `New` -/

theorem applyOptions_eq (opts : List Options) (o : options) : applyOptions opts o = o := by
  induction opts with
  | nil => rfl
  | cons opt rest ih => simpa [applyOptions] using ih

/-- C3 (evaluation of the code): `New` validates the default options whatever option
functions it is given, so it returns no client and the error `missing host`, also for
`New(WithHost(host), WithCredentials(username, password))` with all three non-empty. -/
theorem New_returns_missing_host :
    (∀ opts : List Options, New opts = .error (GoError.fresh "missing host")) ∧
    New [WithHost "https://192.168.1.1", WithCredentials "admin" "pfsense"] =
      .error (GoError.fresh "missing host") ∧
    New [WithHost "https://192.168.1.1", WithCredentials "admin" "pfsense",
        WithTimeout 30000000000] = .error (GoError.fresh "missing host") := by
  have h : ∀ opts : List Options, New opts = .error (GoError.fresh "missing host") := by
    intro opts
    unfold New
    simp only [applyOptions_eq]
    rfl
  exact ⟨h, h _, h _⟩

/-- C4: `options.validate` returns nil exactly when host, username and password are
all non-empty, and otherwise reports the first missing field in the order host,
username, password; `New` returns no client and that error whenever `validate` fails
on the options it holds. -/
theorem validate_reports_first_missing (o : options) :
    (o.validate = none ↔ o.host ≠ "" ∧ o.username ≠ "" ∧ o.password ≠ "") ∧
    (o.host = "" → o.validate = some (GoError.fresh "missing host")) ∧
    (o.host ≠ "" → o.username = "" → o.validate = some (GoError.fresh "missing username")) ∧
    (o.host ≠ "" → o.username ≠ "" → o.password = "" →
      o.validate = some (GoError.fresh "missing password")) ∧
    (∀ (opts : List Options) (err : GoError),
      (applyOptions opts defaultOptions).validate = some err → New opts = .error err) := by
  refine ⟨?_, ?_, ?_, ?_, ?_⟩
  · unfold options.validate
    by_cases h1 : o.host = "" <;> by_cases h2 : o.username = "" <;>
      by_cases h3 : o.password = "" <;> simp [h1, h2, h3]
  · intro h1
    simp [options.validate, h1]
  · intro h1 h2
    simp [options.validate, h1, h2]
  · intro h1 h2 h3
    simp [options.validate, h1, h2, h3]
  · intro opts err h
    unfold New
    simp only [h]

/-- Witness of C4: a missing username is reported when the host is present, and `New`
passes the error of `validate` on. -/
theorem validate_reports_first_missing_witness :
    options.validate { host := "https://192.168.1.1", username := "", password := "" } =
      some (GoError.fresh "missing username") ∧
    New [] = .error (GoError.fresh "missing host") :=
  ⟨(validate_reports_first_missing
      { host := "https://192.168.1.1", username := "", password := "" }).2.2.1
      (by decide) rfl,
    (validate_reports_first_missing {}).2.2.2.2 [] (GoError.fresh "missing host") rfl⟩


/-! ### Go strings: encoding and decoding text -/

theorem char_bounds (c : Char) :
    c.toNat < 0xD800 ∨ (0xDFFF < c.toNat ∧ c.toNat < 0x110000) := by
  have h := c.valid
  simp only [UInt32.isValidChar, Nat.isValidChar] at h
  exact h

/-- The decoder reads the encoding of a character back as that character. -/
theorem decodeRune_encodeRune (c : Char) (rest : List Nat) :
    decodeRune (encodeRune c ++ rest) = (c, (encodeRune c).length) := by
  have hb := char_bounds c
  have hc : ∀ n, n = c.toNat → Char.ofNat n = c := by
    intro n hn
    rw [hn]
    exact Char.ofNat_toNat c
  unfold encodeRune
  by_cases h1 : c.toNat < 0x80
  · simp only [h1, if_true, List.cons_append, List.nil_append, decodeRune, List.length_singleton]
    rw [hc _ rfl]
  · by_cases h2 : c.toNat < 0x800
    · simp only [h1, h2, if_true, if_false, List.cons_append, List.nil_append, decodeRune]
      rw [if_neg (by omega), if_pos (by omega), if_pos (by omega), hc _ (by omega)]
      rfl
    · by_cases h3 : c.toNat < 0x10000
      · simp only [h1, h2, h3, if_true, if_false, List.cons_append, List.nil_append, decodeRune]
        have hcond : (if 0xE0 + c.toNat / 4096 = 0xE0 then 0xA0 else 0x80) ≤
              0x80 + c.toNat / 64 % 64 ∧
            0x80 + c.toNat / 64 % 64 ≤ (if 0xE0 + c.toNat / 4096 = 0xED then 0x9F else 0xBF) ∧
            0x80 ≤ 0x80 + c.toNat % 64 ∧ 0x80 + c.toNat % 64 ≤ 0xBF := by
          split_ifs <;> omega
        rw [if_neg (by omega), if_neg (by omega), if_pos (by omega), if_pos hcond,
          hc _ (by omega)]
        rfl
      · simp only [h1, h2, h3, if_true, if_false, List.cons_append, List.nil_append, decodeRune]
        have hcond : (if 0xF0 + c.toNat / 262144 = 0xF0 then 0x90 else 0x80) ≤
              0x80 + c.toNat / 4096 % 64 ∧
            0x80 + c.toNat / 4096 % 64 ≤
              (if 0xF0 + c.toNat / 262144 = 0xF4 then 0x8F else 0xBF) ∧
            0x80 ≤ 0x80 + c.toNat / 64 % 64 ∧ 0x80 + c.toNat / 64 % 64 ≤ 0xBF ∧
            0x80 ≤ 0x80 + c.toNat % 64 ∧ 0x80 + c.toNat % 64 ≤ 0xBF := by
          split_ifs <;> omega
        rw [if_neg (by omega), if_neg (by omega), if_neg (by omega), if_pos (by omega),
          if_pos hcond, hc _ (by omega)]
        rfl

theorem encodeRune_length (c : Char) :
    1 ≤ (encodeRune c).length ∧ (encodeRune c).length ≤ 4 := by
  unfold encodeRune
  split_ifs <;> simp

/-- With a turn for every byte the loop reads the encoding of a text back as that
text. -/
theorem coerceLoop_encode (cs : List Char) :
    ∀ fuel, (cs.flatMap encodeRune).length ≤ fuel →
      coerceLoop fuel (cs.flatMap encodeRune) = cs := by
  induction cs with
  | nil =>
    intro fuel _
    cases fuel <;> rfl
  | cons c cs ih =>
    intro fuel hfuel
    have hlen := encodeRune_length c
    simp only [List.flatMap_cons, List.length_append] at hfuel ⊢
    obtain ⟨n, rfl⟩ : ∃ n, fuel = n + 1 := ⟨fuel - 1, by omega⟩
    rcases henc : encodeRune c with _ | ⟨b0, bs⟩
    · rw [henc] at hlen
      simp at hlen
    · have hdec := decodeRune_encodeRune c (cs.flatMap encodeRune)
      rw [henc] at hdec hfuel
      simp only [List.cons_append, coerceLoop, List.append_eq] at hdec ⊢
      rw [hdec]
      simp only [List.length_cons] at hfuel ⊢
      have hdrop : List.drop (bs.length + 1) (b0 :: (bs ++ cs.flatMap encodeRune)) =
          cs.flatMap encodeRune := by
        simp
      rw [hdrop, ih n (by omega)]

/-- The encoding of every text is valid UTF-8. -/
theorem validUTF8_utf8Encode (s : String) : validUTF8 (utf8Encode s) = true := by
  unfold validUTF8 coerceUTF8 utf8Encode
  rw [coerceLoop_encode s.data _ (le_refl _)]
  simp

/-! ### Decoding what was marshalled -/

theorem decodeObject_nil {α : Type} (store : String → Json → α → Except GoError α) (cur : α) :
    decodeObject store [] cur = .ok cur := rfl

theorem decodeObject_cons {α : Type} (store : String → Json → α → Except GoError α)
    (kv : String × Json) (rest : List (String × Json)) (cur : α) :
    decodeObject store (kv :: rest) cur =
      (store kv.1 kv.2 cur).bind (decodeObject store rest) := by
  simp only [decodeObject, List.foldlM_cons]
  rfl

theorem decodeObject_append {α : Type} (store : String → Json → α → Except GoError α)
    (l₁ l₂ : List (String × Json)) (cur : α) :
    decodeObject store (l₁ ++ l₂) cur =
      (decodeObject store l₁ cur).bind (decodeObject store l₂) := by
  induction l₁ generalizing cur with
  | nil => rfl
  | cons kv rest ih =>
    rw [List.cons_append, decodeObject_cons, decodeObject_cons]
    cases store kv.1 kv.2 cur with
    | error e => rfl
    | ok acc => exact ih acc

theorem decodeObject_singleton {α : Type} (store : String → Json → α → Except GoError α)
    (k : String) (v : Json) (cur : α) : decodeObject store [(k, v)] cur = store k v cur := by
  rw [decodeObject_cons]
  cases store k v cur <;> rfl

/-- Members whose keys select no field leave the struct as it is, so an object
decodes as the object without them. -/
theorem decodeObject_filter {α : Type} (store : String → Json → α → Except GoError α)
    (known : String → Bool)
    (hunknown : ∀ k v acc, known k = false → store k v acc = .ok acc) :
    ∀ (ms : List (String × Json)) (cur : α),
      decodeObject store ms cur =
        decodeObject store (ms.filter (fun kv => known kv.1)) cur := by
  intro ms
  induction ms with
  | nil => intro cur; rfl
  | cons kv rest ih =>
    intro cur
    by_cases hk : known kv.1 = true
    · rw [List.filter_cons]
      simp only [hk, if_true]
      rw [decodeObject_cons, decodeObject_cons]
      cases store kv.1 kv.2 cur with
      | error e => rfl
      | ok acc => exact ih acc
    · rw [List.filter_cons]
      simp only [hk, if_false]
      rw [decodeObject_cons, hunknown kv.1 kv.2 cur (by simpa using hk)]
      exact ih cur

/-- Decoding the member written for a plain field stores the field. -/
theorem step_plain {σ α : Type} (store : String → Json → σ → Except GoError σ)
    (name : String) (v : Json) (st : Json → α → Except GoError α) (cur x : α)
    (acc : σ) (set : α → σ)
    (hstore : store name v acc = (st v cur).bind (fun y => .ok (set y)))
    (hst : st v cur = .ok x) :
    decodeObject store [(name, v)] acc = .ok (set x) := by
  rw [decodeObject_singleton, hstore, hst]
  rfl

/-- Decoding the members written for a field of type `*optional.T` gives nil for a
nil pointer and for an optional without a value, and the decoded value otherwise. -/
theorem step_optional {σ α : Type} (store : String → Json → σ → Except GoError σ)
    (name : String) (enc : α → Json) (st : Json → α → Except GoError α) (zero : α)
    (fits : α → Bool) (f : α → α) (p cur : Option (Optional α)) (acc : σ)
    (set : Option (Optional α) → σ)
    (hstore : ∀ v, store name v acc =
      (storeOptionalPtr st zero v cur).bind (fun y => .ok (set y)))
    (hnone : set none = acc)
    (henc : ∀ x, fits x = true →
      storeOptionalPtr st zero (enc x) cur = .ok (some { value := some (f x) }))
    (hfit : optionalFits fits p = true) :
    decodeObject store (marshalOptionalPtr name enc p) acc = .ok (set (normOptional f p)) := by
  rcases p with _ | ⟨_ | x⟩
  · show decodeObject store [] acc = _
    rw [decodeObject_nil]
    exact congrArg Except.ok hnone.symm
  · show decodeObject store [(name, Json.null)] acc = _
    rw [decodeObject_singleton, hstore]
    rfl
  · show decodeObject store [(name, enc x)] acc = _
    rw [decodeObject_singleton, hstore, henc x hfit]
    rfl

theorem storeInt_ok (n cur : Int) (h : fitsInt n = true) : storeInt (Json.int n) cur = .ok n := by
  simp [storeInt, h]

theorem storeInt32_ok (n cur : Int) (h : fitsInt32 n = true) :
    storeInt32 (Json.int n) cur = .ok n := by
  simp [storeInt32, h]

theorem storeOptional_str (x : GoString) (cur : Option (Optional GoString)) :
    (fun _ => true) x = true →
      storeOptionalPtr storeGoString [] (jsonString x) cur =
        .ok (some { value := some (normString x) }) :=
  fun _ => rfl

theorem storeOptional_bool (x : Bool) (cur : Option (Optional Bool)) :
    (fun _ => true) x = true →
      storeOptionalPtr storeBool false (Json.bool x) cur = .ok (some { value := some (id x) }) :=
  fun _ => rfl

theorem storeOptional_int (x : Int) (cur : Option (Optional Int)) :
    fitsInt x = true →
      storeOptionalPtr storeInt 0 (Json.int x) cur = .ok (some { value := some (id x) }) := by
  intro h
  simp only [storeOptionalPtr, storeInt_ok x 0 h]
  rfl

theorem storeOptional_int32 (x : Int) (cur : Option (Optional Int)) :
    fitsInt32 x = true →
      storeOptionalPtr storeInt32 0 (Json.int x) cur = .ok (some { value := some (id x) }) := by
  intro h
  simp only [storeOptionalPtr, storeInt32_ok x 0 h]
  rfl

theorem optionalFits_true {α : Type} (p : Option (Optional α)) :
    optionalFits (fun _ => true) p = true := by
  rcases p with _ | ⟨_ | x⟩ <;> rfl

theorem normString_eq_iff (g : GoString) : normString g = g ↔ validUTF8 g = true := by
  simp [normString, validUTF8]

theorem normOptional_string_eq_iff (p : Option (Optional GoString)) :
    normOptional normString p = p ↔
      presentOrNil p = true ∧ optionalFits validUTF8 p = true := by
  rcases p with _ | ⟨_ | x⟩
  · simp [normOptional, presentOrNil, optionalFits]
  · simp [normOptional, presentOrNil, optionalFits]
  · simp [normOptional, presentOrNil, optionalFits, normString_eq_iff]

theorem normOptional_id_eq_iff {α : Type} (p : Option (Optional α)) :
    normOptional id p = p ↔ presentOrNil p = true := by
  rcases p with _ | ⟨_ | x⟩ <;> simp [normOptional, presentOrNil]

/-- What the JSON object of a `VLAN` decodes to: the `VLAN` with its strings coerced
to valid UTF-8 and its optionals without a value set to nil. -/
theorem VLAN_roundtrip (r : VLANRequest) (vid : Int)
    (hrange : r.inRange = true) (hid : fitsInt vid = true) :
    decodeObject VLAN.storeField (VLAN.marshalFields { VLANRequest := r, Id := vid }) {} =
      .ok { VLANRequest := r.normalize, Id := vid } := by
  rcases r with ⟨rIf, rTag, rVlanif, rPcp, rDescr⟩
  simp only [VLANRequest.inRange, Bool.and_eq_true] at hrange
  obtain ⟨hTag, hPcpFit⟩ := hrange
  simp only [VLAN.marshalFields, VLANRequest.marshalFields, List.append_assoc]
  have s1 : decodeObject VLAN.storeField [("if", jsonString rIf)] {} =
      .ok { VLANRequest := { If := normString rIf } } := rfl
  have s2 : decodeObject VLAN.storeField [("tag", Json.int rTag)]
      { VLANRequest := { If := normString rIf } } =
      .ok { VLANRequest := { If := normString rIf, Tag := rTag } } :=
    step_plain VLAN.storeField "tag" (Json.int rTag) storeInt 0 rTag _
      (fun y => { VLANRequest := { If := normString rIf, Tag := y } })
      (by
        show Except.bind (Except.bind (storeInt (Json.int rTag) 0) _) _ = _
        cases storeInt (Json.int rTag) 0 <;> rfl)
      (storeInt_ok rTag 0 hTag)
  have s3 : decodeObject VLAN.storeField (marshalOptionalPtr "vlanif" jsonString rVlanif)
      { VLANRequest := { If := normString rIf, Tag := rTag } } =
      .ok { VLANRequest :=
        { If := normString rIf, Tag := rTag, Vlanif := normOptional normString rVlanif } } :=
    step_optional VLAN.storeField "vlanif" jsonString storeGoString [] (fun _ => true)
      normString rVlanif none _
      (fun y => { VLANRequest := { If := normString rIf, Tag := rTag, Vlanif := y } })
      (fun v => by
        show Except.bind (Except.bind (storeOptionalPtr storeGoString [] v none) _) _ = _
        cases storeOptionalPtr storeGoString [] v none <;> rfl)
      rfl (fun x => storeOptional_str x none) (optionalFits_true _)
  have s4 : decodeObject VLAN.storeField (marshalOptionalPtr "pcp" Json.int rPcp)
      { VLANRequest :=
        { If := normString rIf, Tag := rTag, Vlanif := normOptional normString rVlanif } } =
      .ok { VLANRequest :=
        { If := normString rIf, Tag := rTag, Vlanif := normOptional normString rVlanif
          Pcp := normOptional id rPcp } } :=
    step_optional VLAN.storeField "pcp" Json.int storeInt 0 fitsInt id rPcp none _
      (fun y => { VLANRequest :=
        { If := normString rIf, Tag := rTag, Vlanif := normOptional normString rVlanif
          Pcp := y } })
      (fun v => by
        show Except.bind (Except.bind (storeOptionalPtr storeInt 0 v none) _) _ = _
        cases storeOptionalPtr storeInt 0 v none <;> rfl)
      rfl (fun x => storeOptional_int x none) hPcpFit
  have s5 : decodeObject VLAN.storeField (marshalOptionalPtr "descr" jsonString rDescr)
      { VLANRequest :=
        { If := normString rIf, Tag := rTag, Vlanif := normOptional normString rVlanif
          Pcp := normOptional id rPcp } } =
      .ok { VLANRequest :=
        { If := normString rIf, Tag := rTag, Vlanif := normOptional normString rVlanif
          Pcp := normOptional id rPcp, Descr := normOptional normString rDescr } } :=
    step_optional VLAN.storeField "descr" jsonString storeGoString [] (fun _ => true)
      normString rDescr none _
      (fun y => { VLANRequest :=
        { If := normString rIf, Tag := rTag, Vlanif := normOptional normString rVlanif
          Pcp := normOptional id rPcp, Descr := y } })
      (fun v => by
        show Except.bind (Except.bind (storeOptionalPtr storeGoString [] v none) _) _ = _
        cases storeOptionalPtr storeGoString [] v none <;> rfl)
      rfl (fun x => storeOptional_str x none) (optionalFits_true _)
  have s6 : decodeObject VLAN.storeField [("id", Json.int vid)]
      { VLANRequest :=
        { If := normString rIf, Tag := rTag, Vlanif := normOptional normString rVlanif
          Pcp := normOptional id rPcp, Descr := normOptional normString rDescr } } =
      .ok { VLANRequest :=
          { If := normString rIf, Tag := rTag, Vlanif := normOptional normString rVlanif
            Pcp := normOptional id rPcp, Descr := normOptional normString rDescr }
            Id := vid } :=
    step_plain VLAN.storeField "id" (Json.int vid) storeInt 0 vid _
      (fun y => { VLANRequest :=
          { If := normString rIf, Tag := rTag, Vlanif := normOptional normString rVlanif
            Pcp := normOptional id rPcp, Descr := normOptional normString rDescr }
                  Id := y })
      (by
        show Except.bind (storeInt (Json.int vid) 0) _ = _
        cases storeInt (Json.int vid) 0 <;> rfl)
      (storeInt_ok vid 0 hid)
  rw [decodeObject_append, s1, Except.bind, decodeObject_append, s2, Except.bind,
    decodeObject_append, s3, Except.bind, decodeObject_append, s4, Except.bind,
    decodeObject_append, s5, Except.bind, s6]
  rfl

/-- A `VLANRequest` is left as it is by `json.Marshal` and `json.Unmarshal` exactly
when no optional field points to an optional without a value and every string is
valid UTF-8. -/
theorem VLANRequest_normalize_eq_iff (r : VLANRequest) :
    r.normalize = r ↔ r.presentOrNil = true ∧ r.validUTF8 = true := by
  rcases r with ⟨rIf, rTag, rVlanif, rPcp, rDescr⟩
  simp only [VLANRequest.normalize, VLANRequest.presentOrNil, VLANRequest.validUTF8,
    VLANRequest.mk.injEq, Bool.and_eq_true, true_and, normString_eq_iff,
    normOptional_string_eq_iff, normOptional_id_eq_iff]
  constructor
  · rintro ⟨h1, ⟨h2, h3⟩, h4, h5, h6⟩
    exact ⟨⟨⟨h2, h4⟩, h5⟩, ⟨h1, h3⟩, h6⟩
  · rintro ⟨⟨⟨h2, h4⟩, h5⟩, ⟨h1, h3⟩, h6⟩
    exact ⟨h1, ⟨h2, h3⟩, h4, h5, h6⟩


theorem Interface_decode_if (s : GoString) (acc : Interface) :
    decodeObject Interface.storeField [("if", jsonString s)] acc =
      .ok { acc with InterfaceRequest := { acc.InterfaceRequest with If := normString s } } := rfl

theorem Interface_decode_enable (p : Option (Optional Bool)) (acc : Interface)
    (hacc : acc.InterfaceRequest.Enable = none) :
    decodeObject Interface.storeField (marshalOptionalPtr "enable" Json.bool p) acc =
      .ok { acc with InterfaceRequest := { acc.InterfaceRequest with Enable := normOptional id p } } :=
  step_optional Interface.storeField "enable" Json.bool storeBool false (fun _ => true) id p
    acc.InterfaceRequest.Enable acc
    (fun y => { acc with InterfaceRequest := { acc.InterfaceRequest with Enable := y } })
    (fun v => by
      show Except.bind (Except.bind (storeOptionalPtr storeBool false v _) _) _ = _
      cases storeOptionalPtr storeBool false v acc.InterfaceRequest.Enable <;> rfl)
    (by
      obtain ⟨ir, _⟩ := acc
      cases ir
      cases hacc
      rfl)
    (fun x => storeOptional_bool x _) (optionalFits_true p)

theorem Interface_decode_descr (s : GoString) (acc : Interface) :
    decodeObject Interface.storeField [("descr", jsonString s)] acc =
      .ok { acc with InterfaceRequest := { acc.InterfaceRequest with Descr := normString s } } := rfl

theorem Interface_decode_spoofmac (p : Option (Optional GoString)) (acc : Interface)
    (hacc : acc.InterfaceRequest.Spoofmac = none) :
    decodeObject Interface.storeField (marshalOptionalPtr "spoofmac" jsonString p) acc =
      .ok { acc with InterfaceRequest := { acc.InterfaceRequest with Spoofmac := normOptional normString p } } :=
  step_optional Interface.storeField "spoofmac" jsonString storeGoString [] (fun _ => true) normString p
    acc.InterfaceRequest.Spoofmac acc
    (fun y => { acc with InterfaceRequest := { acc.InterfaceRequest with Spoofmac := y } })
    (fun v => by
      show Except.bind (Except.bind (storeOptionalPtr storeGoString [] v _) _) _ = _
      cases storeOptionalPtr storeGoString [] v acc.InterfaceRequest.Spoofmac <;> rfl)
    (by
      obtain ⟨ir, _⟩ := acc
      cases ir
      cases hacc
      rfl)
    (fun x => storeOptional_str x _) (optionalFits_true p)

theorem Interface_decode_mtu (p : Option (Optional Int)) (acc : Interface)
    (hacc : acc.InterfaceRequest.Mtu = none) (hfit : optionalFits fitsInt32 p = true) :
    decodeObject Interface.storeField (marshalOptionalPtr "mtu" Json.int p) acc =
      .ok { acc with InterfaceRequest := { acc.InterfaceRequest with Mtu := normOptional id p } } :=
  step_optional Interface.storeField "mtu" Json.int storeInt32 0 fitsInt32 id p
    acc.InterfaceRequest.Mtu acc
    (fun y => { acc with InterfaceRequest := { acc.InterfaceRequest with Mtu := y } })
    (fun v => by
      show Except.bind (Except.bind (storeOptionalPtr storeInt32 0 v _) _) _ = _
      cases storeOptionalPtr storeInt32 0 v acc.InterfaceRequest.Mtu <;> rfl)
    (by
      obtain ⟨ir, _⟩ := acc
      cases ir
      cases hacc
      rfl)
    (fun x => storeOptional_int32 x _) hfit

theorem Interface_decode_mss (p : Option (Optional Int)) (acc : Interface)
    (hacc : acc.InterfaceRequest.Mss = none) (hfit : optionalFits fitsInt32 p = true) :
    decodeObject Interface.storeField (marshalOptionalPtr "mss" Json.int p) acc =
      .ok { acc with InterfaceRequest := { acc.InterfaceRequest with Mss := normOptional id p } } :=
  step_optional Interface.storeField "mss" Json.int storeInt32 0 fitsInt32 id p
    acc.InterfaceRequest.Mss acc
    (fun y => { acc with InterfaceRequest := { acc.InterfaceRequest with Mss := y } })
    (fun v => by
      show Except.bind (Except.bind (storeOptionalPtr storeInt32 0 v _) _) _ = _
      cases storeOptionalPtr storeInt32 0 v acc.InterfaceRequest.Mss <;> rfl)
    (by
      obtain ⟨ir, _⟩ := acc
      cases ir
      cases hacc
      rfl)
    (fun x => storeOptional_int32 x _) hfit

theorem Interface_decode_media (p : Option (Optional GoString)) (acc : Interface)
    (hacc : acc.InterfaceRequest.Media = none) :
    decodeObject Interface.storeField (marshalOptionalPtr "media" jsonString p) acc =
      .ok { acc with InterfaceRequest := { acc.InterfaceRequest with Media := normOptional normString p } } :=
  step_optional Interface.storeField "media" jsonString storeGoString [] (fun _ => true) normString p
    acc.InterfaceRequest.Media acc
    (fun y => { acc with InterfaceRequest := { acc.InterfaceRequest with Media := y } })
    (fun v => by
      show Except.bind (Except.bind (storeOptionalPtr storeGoString [] v _) _) _ = _
      cases storeOptionalPtr storeGoString [] v acc.InterfaceRequest.Media <;> rfl)
    (by
      obtain ⟨ir, _⟩ := acc
      cases ir
      cases hacc
      rfl)
    (fun x => storeOptional_str x _) (optionalFits_true p)

theorem Interface_decode_mediaopt (p : Option (Optional GoString)) (acc : Interface)
    (hacc : acc.InterfaceRequest.Mediaopt = none) :
    decodeObject Interface.storeField (marshalOptionalPtr "mediaopt" jsonString p) acc =
      .ok { acc with InterfaceRequest := { acc.InterfaceRequest with Mediaopt := normOptional normString p } } :=
  step_optional Interface.storeField "mediaopt" jsonString storeGoString [] (fun _ => true) normString p
    acc.InterfaceRequest.Mediaopt acc
    (fun y => { acc with InterfaceRequest := { acc.InterfaceRequest with Mediaopt := y } })
    (fun v => by
      show Except.bind (Except.bind (storeOptionalPtr storeGoString [] v _) _) _ = _
      cases storeOptionalPtr storeGoString [] v acc.InterfaceRequest.Mediaopt <;> rfl)
    (by
      obtain ⟨ir, _⟩ := acc
      cases ir
      cases hacc
      rfl)
    (fun x => storeOptional_str x _) (optionalFits_true p)

theorem Interface_decode_blockpriv (p : Option (Optional Bool)) (acc : Interface)
    (hacc : acc.InterfaceRequest.Blockpriv = none) :
    decodeObject Interface.storeField (marshalOptionalPtr "blockpriv" Json.bool p) acc =
      .ok { acc with InterfaceRequest := { acc.InterfaceRequest with Blockpriv := normOptional id p } } :=
  step_optional Interface.storeField "blockpriv" Json.bool storeBool false (fun _ => true) id p
    acc.InterfaceRequest.Blockpriv acc
    (fun y => { acc with InterfaceRequest := { acc.InterfaceRequest with Blockpriv := y } })
    (fun v => by
      show Except.bind (Except.bind (storeOptionalPtr storeBool false v _) _) _ = _
      cases storeOptionalPtr storeBool false v acc.InterfaceRequest.Blockpriv <;> rfl)
    (by
      obtain ⟨ir, _⟩ := acc
      cases ir
      cases hacc
      rfl)
    (fun x => storeOptional_bool x _) (optionalFits_true p)

theorem Interface_decode_blockbogons (p : Option (Optional Bool)) (acc : Interface)
    (hacc : acc.InterfaceRequest.Blockbogons = none) :
    decodeObject Interface.storeField (marshalOptionalPtr "blockbogons" Json.bool p) acc =
      .ok { acc with InterfaceRequest := { acc.InterfaceRequest with Blockbogons := normOptional id p } } :=
  step_optional Interface.storeField "blockbogons" Json.bool storeBool false (fun _ => true) id p
    acc.InterfaceRequest.Blockbogons acc
    (fun y => { acc with InterfaceRequest := { acc.InterfaceRequest with Blockbogons := y } })
    (fun v => by
      show Except.bind (Except.bind (storeOptionalPtr storeBool false v _) _) _ = _
      cases storeOptionalPtr storeBool false v acc.InterfaceRequest.Blockbogons <;> rfl)
    (by
      obtain ⟨ir, _⟩ := acc
      cases ir
      cases hacc
      rfl)
    (fun x => storeOptional_bool x _) (optionalFits_true p)

theorem Interface_decode_typev4 (s : GoString) (acc : Interface) :
    decodeObject Interface.storeField [("typev4", jsonString s)] acc =
      .ok { acc with InterfaceRequest := { acc.InterfaceRequest with Typev4 := normString s } } := rfl

theorem Interface_decode_ipaddr (s : GoString) (acc : Interface) :
    decodeObject Interface.storeField [("ipaddr", jsonString s)] acc =
      .ok { acc with InterfaceRequest := { acc.InterfaceRequest with Ipaddr := normString s } } := rfl

theorem Interface_decode_subnet (n : Int) (acc : Interface) (h : fitsInt32 n = true) :
    decodeObject Interface.storeField [("subnet", Json.int n)] acc =
      .ok { acc with InterfaceRequest := { acc.InterfaceRequest with Subnet := n } } :=
  step_plain Interface.storeField "subnet" (Json.int n) storeInt32 acc.InterfaceRequest.Subnet n acc
    (fun y => { acc with InterfaceRequest := { acc.InterfaceRequest with Subnet := y } })
    (by
      show Except.bind (Except.bind (storeInt32 (Json.int n) _) _) _ = _
      cases storeInt32 (Json.int n) acc.InterfaceRequest.Subnet <;> rfl)
    (storeInt32_ok n _ h)

theorem Interface_decode_gateway (p : Option (Optional GoString)) (acc : Interface)
    (hacc : acc.InterfaceRequest.Gateway = none) :
    decodeObject Interface.storeField (marshalOptionalPtr "gateway" jsonString p) acc =
      .ok { acc with InterfaceRequest := { acc.InterfaceRequest with Gateway := normOptional normString p } } :=
  step_optional Interface.storeField "gateway" jsonString storeGoString [] (fun _ => true) normString p
    acc.InterfaceRequest.Gateway acc
    (fun y => { acc with InterfaceRequest := { acc.InterfaceRequest with Gateway := y } })
    (fun v => by
      show Except.bind (Except.bind (storeOptionalPtr storeGoString [] v _) _) _ = _
      cases storeOptionalPtr storeGoString [] v acc.InterfaceRequest.Gateway <;> rfl)
    (by
      obtain ⟨ir, _⟩ := acc
      cases ir
      cases hacc
      rfl)
    (fun x => storeOptional_str x _) (optionalFits_true p)

theorem Interface_decode_alias_subnet (p : Option (Optional Int)) (acc : Interface)
    (hacc : acc.InterfaceRequest.AliasSubnet = none) (hfit : optionalFits fitsInt32 p = true) :
    decodeObject Interface.storeField (marshalOptionalPtr "alias_subnet" Json.int p) acc =
      .ok { acc with InterfaceRequest := { acc.InterfaceRequest with AliasSubnet := normOptional id p } } :=
  step_optional Interface.storeField "alias_subnet" Json.int storeInt32 0 fitsInt32 id p
    acc.InterfaceRequest.AliasSubnet acc
    (fun y => { acc with InterfaceRequest := { acc.InterfaceRequest with AliasSubnet := y } })
    (fun v => by
      show Except.bind (Except.bind (storeOptionalPtr storeInt32 0 v _) _) _ = _
      cases storeOptionalPtr storeInt32 0 v acc.InterfaceRequest.AliasSubnet <;> rfl)
    (by
      obtain ⟨ir, _⟩ := acc
      cases ir
      cases hacc
      rfl)
    (fun x => storeOptional_int32 x _) hfit

theorem Interface_decode_adv_dhcp_pt_timeout (p : Option (Optional Int)) (acc : Interface)
    (hacc : acc.InterfaceRequest.AdvDhcpPtTimeout = none) (hfit : optionalFits fitsInt32 p = true) :
    decodeObject Interface.storeField (marshalOptionalPtr "adv_dhcp_pt_timeout" Json.int p) acc =
      .ok { acc with InterfaceRequest := { acc.InterfaceRequest with AdvDhcpPtTimeout := normOptional id p } } :=
  step_optional Interface.storeField "adv_dhcp_pt_timeout" Json.int storeInt32 0 fitsInt32 id p
    acc.InterfaceRequest.AdvDhcpPtTimeout acc
    (fun y => { acc with InterfaceRequest := { acc.InterfaceRequest with AdvDhcpPtTimeout := y } })
    (fun v => by
      show Except.bind (Except.bind (storeOptionalPtr storeInt32 0 v _) _) _ = _
      cases storeOptionalPtr storeInt32 0 v acc.InterfaceRequest.AdvDhcpPtTimeout <;> rfl)
    (by
      obtain ⟨ir, _⟩ := acc
      cases ir
      cases hacc
      rfl)
    (fun x => storeOptional_int32 x _) hfit

theorem Interface_decode_adv_dhcp_pt_retry (p : Option (Optional Int)) (acc : Interface)
    (hacc : acc.InterfaceRequest.AdvDhcpPtRetry = none) (hfit : optionalFits fitsInt32 p = true) :
    decodeObject Interface.storeField (marshalOptionalPtr "adv_dhcp_pt_retry" Json.int p) acc =
      .ok { acc with InterfaceRequest := { acc.InterfaceRequest with AdvDhcpPtRetry := normOptional id p } } :=
  step_optional Interface.storeField "adv_dhcp_pt_retry" Json.int storeInt32 0 fitsInt32 id p
    acc.InterfaceRequest.AdvDhcpPtRetry acc
    (fun y => { acc with InterfaceRequest := { acc.InterfaceRequest with AdvDhcpPtRetry := y } })
    (fun v => by
      show Except.bind (Except.bind (storeOptionalPtr storeInt32 0 v _) _) _ = _
      cases storeOptionalPtr storeInt32 0 v acc.InterfaceRequest.AdvDhcpPtRetry <;> rfl)
    (by
      obtain ⟨ir, _⟩ := acc
      cases ir
      cases hacc
      rfl)
    (fun x => storeOptional_int32 x _) hfit

theorem Interface_decode_adv_dhcp_pt_select_timeout (p : Option (Optional Int)) (acc : Interface)
    (hacc : acc.InterfaceRequest.AdvDhcpPtSelectTimeout = none) (hfit : optionalFits fitsInt32 p = true) :
    decodeObject Interface.storeField (marshalOptionalPtr "adv_dhcp_pt_select_timeout" Json.int p) acc =
      .ok { acc with InterfaceRequest := { acc.InterfaceRequest with AdvDhcpPtSelectTimeout := normOptional id p } } :=
  step_optional Interface.storeField "adv_dhcp_pt_select_timeout" Json.int storeInt32 0 fitsInt32 id p
    acc.InterfaceRequest.AdvDhcpPtSelectTimeout acc
    (fun y => { acc with InterfaceRequest := { acc.InterfaceRequest with AdvDhcpPtSelectTimeout := y } })
    (fun v => by
      show Except.bind (Except.bind (storeOptionalPtr storeInt32 0 v _) _) _ = _
      cases storeOptionalPtr storeInt32 0 v acc.InterfaceRequest.AdvDhcpPtSelectTimeout <;> rfl)
    (by
      obtain ⟨ir, _⟩ := acc
      cases ir
      cases hacc
      rfl)
    (fun x => storeOptional_int32 x _) hfit

theorem Interface_decode_adv_dhcp_pt_reboot (p : Option (Optional Int)) (acc : Interface)
    (hacc : acc.InterfaceRequest.AdvDhcpPtReboot = none) (hfit : optionalFits fitsInt32 p = true) :
    decodeObject Interface.storeField (marshalOptionalPtr "adv_dhcp_pt_reboot" Json.int p) acc =
      .ok { acc with InterfaceRequest := { acc.InterfaceRequest with AdvDhcpPtReboot := normOptional id p } } :=
  step_optional Interface.storeField "adv_dhcp_pt_reboot" Json.int storeInt32 0 fitsInt32 id p
    acc.InterfaceRequest.AdvDhcpPtReboot acc
    (fun y => { acc with InterfaceRequest := { acc.InterfaceRequest with AdvDhcpPtReboot := y } })
    (fun v => by
      show Except.bind (Except.bind (storeOptionalPtr storeInt32 0 v _) _) _ = _
      cases storeOptionalPtr storeInt32 0 v acc.InterfaceRequest.AdvDhcpPtReboot <;> rfl)
    (by
      obtain ⟨ir, _⟩ := acc
      cases ir
      cases hacc
      rfl)
    (fun x => storeOptional_int32 x _) hfit

theorem Interface_decode_adv_dhcp_pt_backoff_cutoff (p : Option (Optional Int)) (acc : Interface)
    (hacc : acc.InterfaceRequest.AdvDhcpPtBackoffCutoff = none) (hfit : optionalFits fitsInt32 p = true) :
    decodeObject Interface.storeField (marshalOptionalPtr "adv_dhcp_pt_backoff_cutoff" Json.int p) acc =
      .ok { acc with InterfaceRequest := { acc.InterfaceRequest with AdvDhcpPtBackoffCutoff := normOptional id p } } :=
  step_optional Interface.storeField "adv_dhcp_pt_backoff_cutoff" Json.int storeInt32 0 fitsInt32 id p
    acc.InterfaceRequest.AdvDhcpPtBackoffCutoff acc
    (fun y => { acc with InterfaceRequest := { acc.InterfaceRequest with AdvDhcpPtBackoffCutoff := y } })
    (fun v => by
      show Except.bind (Except.bind (storeOptionalPtr storeInt32 0 v _) _) _ = _
      cases storeOptionalPtr storeInt32 0 v acc.InterfaceRequest.AdvDhcpPtBackoffCutoff <;> rfl)
    (by
      obtain ⟨ir, _⟩ := acc
      cases ir
      cases hacc
      rfl)
    (fun x => storeOptional_int32 x _) hfit

theorem Interface_decode_adv_dhcp_pt_initial_interval (p : Option (Optional Int)) (acc : Interface)
    (hacc : acc.InterfaceRequest.AdvDhcpPtInitialInterval = none) (hfit : optionalFits fitsInt32 p = true) :
    decodeObject Interface.storeField (marshalOptionalPtr "adv_dhcp_pt_initial_interval" Json.int p) acc =
      .ok { acc with InterfaceRequest := { acc.InterfaceRequest with AdvDhcpPtInitialInterval := normOptional id p } } :=
  step_optional Interface.storeField "adv_dhcp_pt_initial_interval" Json.int storeInt32 0 fitsInt32 id p
    acc.InterfaceRequest.AdvDhcpPtInitialInterval acc
    (fun y => { acc with InterfaceRequest := { acc.InterfaceRequest with AdvDhcpPtInitialInterval := y } })
    (fun v => by
      show Except.bind (Except.bind (storeOptionalPtr storeInt32 0 v _) _) _ = _
      cases storeOptionalPtr storeInt32 0 v acc.InterfaceRequest.AdvDhcpPtInitialInterval <;> rfl)
    (by
      obtain ⟨ir, _⟩ := acc
      cases ir
      cases hacc
      rfl)
    (fun x => storeOptional_int32 x _) hfit

theorem Interface_decode_adv_dhcp_send_options (p : Option (Optional GoString)) (acc : Interface)
    (hacc : acc.InterfaceRequest.AdvDhcpSendOptions = none) :
    decodeObject Interface.storeField (marshalOptionalPtr "adv_dhcp_send_options" jsonString p) acc =
      .ok { acc with InterfaceRequest := { acc.InterfaceRequest with AdvDhcpSendOptions := normOptional normString p } } :=
  step_optional Interface.storeField "adv_dhcp_send_options" jsonString storeGoString [] (fun _ => true) normString p
    acc.InterfaceRequest.AdvDhcpSendOptions acc
    (fun y => { acc with InterfaceRequest := { acc.InterfaceRequest with AdvDhcpSendOptions := y } })
    (fun v => by
      show Except.bind (Except.bind (storeOptionalPtr storeGoString [] v _) _) _ = _
      cases storeOptionalPtr storeGoString [] v acc.InterfaceRequest.AdvDhcpSendOptions <;> rfl)
    (by
      obtain ⟨ir, _⟩ := acc
      cases ir
      cases hacc
      rfl)
    (fun x => storeOptional_str x _) (optionalFits_true p)

theorem Interface_decode_adv_dhcp_request_options (p : Option (Optional GoString)) (acc : Interface)
    (hacc : acc.InterfaceRequest.AdvDhcpRequestOptions = none) :
    decodeObject Interface.storeField (marshalOptionalPtr "adv_dhcp_request_options" jsonString p) acc =
      .ok { acc with InterfaceRequest := { acc.InterfaceRequest with AdvDhcpRequestOptions := normOptional normString p } } :=
  step_optional Interface.storeField "adv_dhcp_request_options" jsonString storeGoString [] (fun _ => true) normString p
    acc.InterfaceRequest.AdvDhcpRequestOptions acc
    (fun y => { acc with InterfaceRequest := { acc.InterfaceRequest with AdvDhcpRequestOptions := y } })
    (fun v => by
      show Except.bind (Except.bind (storeOptionalPtr storeGoString [] v _) _) _ = _
      cases storeOptionalPtr storeGoString [] v acc.InterfaceRequest.AdvDhcpRequestOptions <;> rfl)
    (by
      obtain ⟨ir, _⟩ := acc
      cases ir
      cases hacc
      rfl)
    (fun x => storeOptional_str x _) (optionalFits_true p)

theorem Interface_decode_adv_dhcp_required_options (p : Option (Optional GoString)) (acc : Interface)
    (hacc : acc.InterfaceRequest.AdvDhcpRequiredOptions = none) :
    decodeObject Interface.storeField (marshalOptionalPtr "adv_dhcp_required_options" jsonString p) acc =
      .ok { acc with InterfaceRequest := { acc.InterfaceRequest with AdvDhcpRequiredOptions := normOptional normString p } } :=
  step_optional Interface.storeField "adv_dhcp_required_options" jsonString storeGoString [] (fun _ => true) normString p
    acc.InterfaceRequest.AdvDhcpRequiredOptions acc
    (fun y => { acc with InterfaceRequest := { acc.InterfaceRequest with AdvDhcpRequiredOptions := y } })
    (fun v => by
      show Except.bind (Except.bind (storeOptionalPtr storeGoString [] v _) _) _ = _
      cases storeOptionalPtr storeGoString [] v acc.InterfaceRequest.AdvDhcpRequiredOptions <;> rfl)
    (by
      obtain ⟨ir, _⟩ := acc
      cases ir
      cases hacc
      rfl)
    (fun x => storeOptional_str x _) (optionalFits_true p)

theorem Interface_decode_adv_dhcp_option_modifiers (p : Option (Optional GoString)) (acc : Interface)
    (hacc : acc.InterfaceRequest.AdvDhcpOptionModifiers = none) :
    decodeObject Interface.storeField (marshalOptionalPtr "adv_dhcp_option_modifiers" jsonString p) acc =
      .ok { acc with InterfaceRequest := { acc.InterfaceRequest with AdvDhcpOptionModifiers := normOptional normString p } } :=
  step_optional Interface.storeField "adv_dhcp_option_modifiers" jsonString storeGoString [] (fun _ => true) normString p
    acc.InterfaceRequest.AdvDhcpOptionModifiers acc
    (fun y => { acc with InterfaceRequest := { acc.InterfaceRequest with AdvDhcpOptionModifiers := y } })
    (fun v => by
      show Except.bind (Except.bind (storeOptionalPtr storeGoString [] v _) _) _ = _
      cases storeOptionalPtr storeGoString [] v acc.InterfaceRequest.AdvDhcpOptionModifiers <;> rfl)
    (by
      obtain ⟨ir, _⟩ := acc
      cases ir
      cases hacc
      rfl)
    (fun x => storeOptional_str x _) (optionalFits_true p)

theorem Interface_decode_adv_dhcp_config_file_override_path (p : Option (Optional GoString)) (acc : Interface)
    (hacc : acc.InterfaceRequest.AdvDhcpConfigFileOverridePath = none) :
    decodeObject Interface.storeField (marshalOptionalPtr "adv_dhcp_config_file_override_path" jsonString p) acc =
      .ok { acc with InterfaceRequest := { acc.InterfaceRequest with AdvDhcpConfigFileOverridePath := normOptional normString p } } :=
  step_optional Interface.storeField "adv_dhcp_config_file_override_path" jsonString storeGoString [] (fun _ => true) normString p
    acc.InterfaceRequest.AdvDhcpConfigFileOverridePath acc
    (fun y => { acc with InterfaceRequest := { acc.InterfaceRequest with AdvDhcpConfigFileOverridePath := y } })
    (fun v => by
      show Except.bind (Except.bind (storeOptionalPtr storeGoString [] v _) _) _ = _
      cases storeOptionalPtr storeGoString [] v acc.InterfaceRequest.AdvDhcpConfigFileOverridePath <;> rfl)
    (by
      obtain ⟨ir, _⟩ := acc
      cases ir
      cases hacc
      rfl)
    (fun x => storeOptional_str x _) (optionalFits_true p)

theorem Interface_decode_typev6 (p : Option (Optional GoString)) (acc : Interface)
    (hacc : acc.InterfaceRequest.Typev6 = none) :
    decodeObject Interface.storeField (marshalOptionalPtr "typev6" jsonString p) acc =
      .ok { acc with InterfaceRequest := { acc.InterfaceRequest with Typev6 := normOptional normString p } } :=
  step_optional Interface.storeField "typev6" jsonString storeGoString [] (fun _ => true) normString p
    acc.InterfaceRequest.Typev6 acc
    (fun y => { acc with InterfaceRequest := { acc.InterfaceRequest with Typev6 := y } })
    (fun v => by
      show Except.bind (Except.bind (storeOptionalPtr storeGoString [] v _) _) _ = _
      cases storeOptionalPtr storeGoString [] v acc.InterfaceRequest.Typev6 <;> rfl)
    (by
      obtain ⟨ir, _⟩ := acc
      cases ir
      cases hacc
      rfl)
    (fun x => storeOptional_str x _) (optionalFits_true p)

theorem Interface_decode_ipaddrv6 (s : GoString) (acc : Interface) :
    decodeObject Interface.storeField [("ipaddrv6", jsonString s)] acc =
      .ok { acc with InterfaceRequest := { acc.InterfaceRequest with Ipaddrv6 := normString s } } := rfl

theorem Interface_decode_subnetv6 (n : Int) (acc : Interface) (h : fitsInt32 n = true) :
    decodeObject Interface.storeField [("subnetv6", Json.int n)] acc =
      .ok { acc with InterfaceRequest := { acc.InterfaceRequest with Subnetv6 := n } } :=
  step_plain Interface.storeField "subnetv6" (Json.int n) storeInt32 acc.InterfaceRequest.Subnetv6 n acc
    (fun y => { acc with InterfaceRequest := { acc.InterfaceRequest with Subnetv6 := y } })
    (by
      show Except.bind (Except.bind (storeInt32 (Json.int n) _) _) _ = _
      cases storeInt32 (Json.int n) acc.InterfaceRequest.Subnetv6 <;> rfl)
    (storeInt32_ok n _ h)

theorem Interface_decode_gatewayv6 (p : Option (Optional GoString)) (acc : Interface)
    (hacc : acc.InterfaceRequest.Gatewayv6 = none) :
    decodeObject Interface.storeField (marshalOptionalPtr "gatewayv6" jsonString p) acc =
      .ok { acc with InterfaceRequest := { acc.InterfaceRequest with Gatewayv6 := normOptional normString p } } :=
  step_optional Interface.storeField "gatewayv6" jsonString storeGoString [] (fun _ => true) normString p
    acc.InterfaceRequest.Gatewayv6 acc
    (fun y => { acc with InterfaceRequest := { acc.InterfaceRequest with Gatewayv6 := y } })
    (fun v => by
      show Except.bind (Except.bind (storeOptionalPtr storeGoString [] v _) _) _ = _
      cases storeOptionalPtr storeGoString [] v acc.InterfaceRequest.Gatewayv6 <;> rfl)
    (by
      obtain ⟨ir, _⟩ := acc
      cases ir
      cases hacc
      rfl)
    (fun x => storeOptional_str x _) (optionalFits_true p)

theorem Interface_decode_prefix_6rd (s : GoString) (acc : Interface) :
    decodeObject Interface.storeField [("prefix_6rd", jsonString s)] acc =
      .ok { acc with InterfaceRequest := { acc.InterfaceRequest with Prefix6Rd := normString s } } := rfl

theorem Interface_decode_gateway_6rd (s : GoString) (acc : Interface) :
    decodeObject Interface.storeField [("gateway_6rd", jsonString s)] acc =
      .ok { acc with InterfaceRequest := { acc.InterfaceRequest with Gateway6Rd := normString s } } := rfl

theorem Interface_decode_prefix_6rd_v4plen (n : Int) (acc : Interface) (h : fitsInt32 n = true) :
    decodeObject Interface.storeField [("prefix_6rd_v4plen", Json.int n)] acc =
      .ok { acc with InterfaceRequest := { acc.InterfaceRequest with Prefix6RdV4Plen := n } } :=
  step_plain Interface.storeField "prefix_6rd_v4plen" (Json.int n) storeInt32 acc.InterfaceRequest.Prefix6RdV4Plen n acc
    (fun y => { acc with InterfaceRequest := { acc.InterfaceRequest with Prefix6RdV4Plen := y } })
    (by
      show Except.bind (Except.bind (storeInt32 (Json.int n) _) _) _ = _
      cases storeInt32 (Json.int n) acc.InterfaceRequest.Prefix6RdV4Plen <;> rfl)
    (storeInt32_ok n _ h)

theorem Interface_decode_track6_interface (s : GoString) (acc : Interface) :
    decodeObject Interface.storeField [("track6_interface", jsonString s)] acc =
      .ok { acc with InterfaceRequest := { acc.InterfaceRequest with Track6Interface := normString s } } := rfl

/-- What the JSON object of an `Interface` decodes to: the `Interface` with its
strings coerced to valid UTF-8 and its optionals without a value set to nil. -/
theorem Interface_roundtrip (r : InterfaceRequest) (xid : GoString)
    (hrange : r.inRange = true) :
    decodeObject Interface.storeField
        (Interface.marshalFields { InterfaceRequest := r, Id := xid }) {} =
      .ok { InterfaceRequest := r.normalize, Id := normString xid } := by
  rcases r with
    ⟨fIf, fEnable, fDescr, fSpoofmac, fMtu, fMss, fMedia, fMediaopt, fBlockpriv,
    fBlockbogons, fTypev4, fIpaddr, fSubnet, fGateway, fAliasSubnet, fAdvDhcpPtTimeout,
    fAdvDhcpPtRetry, fAdvDhcpPtSelectTimeout, fAdvDhcpPtReboot, fAdvDhcpPtBackoffCutoff,
    fAdvDhcpPtInitialInterval, fAdvDhcpSendOptions, fAdvDhcpRequestOptions,
    fAdvDhcpRequiredOptions, fAdvDhcpOptionModifiers, fAdvDhcpConfigFileOverridePath,
    fTypev6, fIpaddrv6, fSubnetv6, fGatewayv6, fPrefix6Rd, fGateway6Rd, fPrefix6RdV4Plen,
    fTrack6Interface⟩
  simp only [InterfaceRequest.inRange, Bool.and_eq_true] at hrange
  obtain ⟨⟨⟨⟨⟨⟨⟨⟨⟨⟨⟨hMtuFit, hMssFit⟩, hSubnetFit⟩, hAliasSubnetFit⟩, hAdvDhcpPtTimeoutFit⟩,
    hAdvDhcpPtRetryFit⟩, hAdvDhcpPtSelectTimeoutFit⟩, hAdvDhcpPtRebootFit⟩,
    hAdvDhcpPtBackoffCutoffFit⟩, hAdvDhcpPtInitialIntervalFit⟩, hSubnetv6Fit⟩,
    hPrefix6RdV4PlenFit⟩ := hrange
  simp only [Interface.marshalFields, InterfaceRequest.marshalFields, List.append_assoc]
  rw [decodeObject_append, Interface_decode_if]
  dsimp only [Except.bind]
  rw [decodeObject_append, Interface_decode_enable _ _ rfl]
  dsimp only [Except.bind]
  rw [decodeObject_append, Interface_decode_descr]
  dsimp only [Except.bind]
  rw [decodeObject_append, Interface_decode_spoofmac _ _ rfl]
  dsimp only [Except.bind]
  rw [decodeObject_append, Interface_decode_mtu _ _ rfl hMtuFit]
  dsimp only [Except.bind]
  rw [decodeObject_append, Interface_decode_mss _ _ rfl hMssFit]
  dsimp only [Except.bind]
  rw [decodeObject_append, Interface_decode_media _ _ rfl]
  dsimp only [Except.bind]
  rw [decodeObject_append, Interface_decode_mediaopt _ _ rfl]
  dsimp only [Except.bind]
  rw [decodeObject_append, Interface_decode_blockpriv _ _ rfl]
  dsimp only [Except.bind]
  rw [decodeObject_append, Interface_decode_blockbogons _ _ rfl]
  dsimp only [Except.bind]
  rw [decodeObject_append, Interface_decode_typev4]
  dsimp only [Except.bind]
  rw [decodeObject_append, Interface_decode_ipaddr]
  dsimp only [Except.bind]
  rw [decodeObject_append, Interface_decode_subnet _ _ hSubnetFit]
  dsimp only [Except.bind]
  rw [decodeObject_append, Interface_decode_gateway _ _ rfl]
  dsimp only [Except.bind]
  rw [decodeObject_append, Interface_decode_alias_subnet _ _ rfl hAliasSubnetFit]
  dsimp only [Except.bind]
  rw [decodeObject_append, Interface_decode_adv_dhcp_pt_timeout _ _ rfl hAdvDhcpPtTimeoutFit]
  dsimp only [Except.bind]
  rw [decodeObject_append, Interface_decode_adv_dhcp_pt_retry _ _ rfl hAdvDhcpPtRetryFit]
  dsimp only [Except.bind]
  rw [decodeObject_append, Interface_decode_adv_dhcp_pt_select_timeout _ _ rfl hAdvDhcpPtSelectTimeoutFit]
  dsimp only [Except.bind]
  rw [decodeObject_append, Interface_decode_adv_dhcp_pt_reboot _ _ rfl hAdvDhcpPtRebootFit]
  dsimp only [Except.bind]
  rw [decodeObject_append, Interface_decode_adv_dhcp_pt_backoff_cutoff _ _ rfl hAdvDhcpPtBackoffCutoffFit]
  dsimp only [Except.bind]
  rw [decodeObject_append, Interface_decode_adv_dhcp_pt_initial_interval _ _ rfl hAdvDhcpPtInitialIntervalFit]
  dsimp only [Except.bind]
  rw [decodeObject_append, Interface_decode_adv_dhcp_send_options _ _ rfl]
  dsimp only [Except.bind]
  rw [decodeObject_append, Interface_decode_adv_dhcp_request_options _ _ rfl]
  dsimp only [Except.bind]
  rw [decodeObject_append, Interface_decode_adv_dhcp_required_options _ _ rfl]
  dsimp only [Except.bind]
  rw [decodeObject_append, Interface_decode_adv_dhcp_option_modifiers _ _ rfl]
  dsimp only [Except.bind]
  rw [decodeObject_append, Interface_decode_adv_dhcp_config_file_override_path _ _ rfl]
  dsimp only [Except.bind]
  rw [decodeObject_append, Interface_decode_typev6 _ _ rfl]
  dsimp only [Except.bind]
  rw [decodeObject_append, Interface_decode_ipaddrv6]
  dsimp only [Except.bind]
  rw [decodeObject_append, Interface_decode_subnetv6 _ _ hSubnetv6Fit]
  dsimp only [Except.bind]
  rw [decodeObject_append, Interface_decode_gatewayv6 _ _ rfl]
  dsimp only [Except.bind]
  rw [decodeObject_append, Interface_decode_prefix_6rd]
  dsimp only [Except.bind]
  rw [decodeObject_append, Interface_decode_gateway_6rd]
  dsimp only [Except.bind]
  rw [decodeObject_append, Interface_decode_prefix_6rd_v4plen _ _ hPrefix6RdV4PlenFit]
  dsimp only [Except.bind]
  rw [decodeObject_append, Interface_decode_track6_interface]
  dsimp only [Except.bind]
  rfl

/-- An `InterfaceRequest` is left as it is by `json.Marshal` and `json.Unmarshal`
exactly when no optional field points to an optional without a value and every
string is valid UTF-8. -/
theorem InterfaceRequest_normalize_eq_iff (r : InterfaceRequest) :
    r.normalize = r ↔ r.presentOrNil = true ∧ r.validUTF8 = true := by
  rcases r with
    ⟨fIf, fEnable, fDescr, fSpoofmac, fMtu, fMss, fMedia, fMediaopt, fBlockpriv,
    fBlockbogons, fTypev4, fIpaddr, fSubnet, fGateway, fAliasSubnet, fAdvDhcpPtTimeout,
    fAdvDhcpPtRetry, fAdvDhcpPtSelectTimeout, fAdvDhcpPtReboot, fAdvDhcpPtBackoffCutoff,
    fAdvDhcpPtInitialInterval, fAdvDhcpSendOptions, fAdvDhcpRequestOptions,
    fAdvDhcpRequiredOptions, fAdvDhcpOptionModifiers, fAdvDhcpConfigFileOverridePath,
    fTypev6, fIpaddrv6, fSubnetv6, fGatewayv6, fPrefix6Rd, fGateway6Rd, fPrefix6RdV4Plen,
    fTrack6Interface⟩
  simp only [InterfaceRequest.normalize, InterfaceRequest.presentOrNil,
    InterfaceRequest.validUTF8, InterfaceRequest.mk.injEq, Bool.and_eq_true, true_and, and_true,
    normString_eq_iff, normOptional_string_eq_iff, normOptional_id_eq_iff]
  constructor
  · rintro
      ⟨vIf, pEnable, vDescr, ⟨pSpoofmac, vSpoofmac⟩, pMtu, pMss, ⟨pMedia, vMedia⟩,
      ⟨pMediaopt, vMediaopt⟩, pBlockpriv, pBlockbogons, vTypev4, vIpaddr,
      ⟨pGateway, vGateway⟩, pAliasSubnet, pAdvDhcpPtTimeout, pAdvDhcpPtRetry,
      pAdvDhcpPtSelectTimeout, pAdvDhcpPtReboot, pAdvDhcpPtBackoffCutoff,
      pAdvDhcpPtInitialInterval, ⟨pAdvDhcpSendOptions, vAdvDhcpSendOptions⟩,
      ⟨pAdvDhcpRequestOptions, vAdvDhcpRequestOptions⟩,
      ⟨pAdvDhcpRequiredOptions, vAdvDhcpRequiredOptions⟩,
      ⟨pAdvDhcpOptionModifiers, vAdvDhcpOptionModifiers⟩,
      ⟨pAdvDhcpConfigFileOverridePath, vAdvDhcpConfigFileOverridePath⟩, ⟨pTypev6, vTypev6⟩,
      vIpaddrv6, ⟨pGatewayv6, vGatewayv6⟩, vPrefix6Rd, vGateway6Rd, vTrack6Interface⟩
    exact
      ⟨⟨⟨⟨⟨⟨⟨⟨⟨⟨⟨⟨⟨⟨⟨⟨⟨⟨⟨⟨⟨⟨⟨pEnable, pSpoofmac⟩, pMtu⟩, pMss⟩, pMedia⟩, pMediaopt⟩,
        pBlockpriv⟩, pBlockbogons⟩, pGateway⟩, pAliasSubnet⟩, pAdvDhcpPtTimeout⟩,
        pAdvDhcpPtRetry⟩, pAdvDhcpPtSelectTimeout⟩, pAdvDhcpPtReboot⟩,
        pAdvDhcpPtBackoffCutoff⟩, pAdvDhcpPtInitialInterval⟩, pAdvDhcpSendOptions⟩,
        pAdvDhcpRequestOptions⟩, pAdvDhcpRequiredOptions⟩, pAdvDhcpOptionModifiers⟩,
        pAdvDhcpConfigFileOverridePath⟩, pTypev6⟩, pGatewayv6⟩,
        ⟨⟨⟨⟨⟨⟨⟨⟨⟨⟨⟨⟨⟨⟨⟨⟨⟨⟨vIf, vDescr⟩, vSpoofmac⟩, vMedia⟩, vMediaopt⟩, vTypev4⟩,
        vIpaddr⟩, vGateway⟩, vAdvDhcpSendOptions⟩, vAdvDhcpRequestOptions⟩,
        vAdvDhcpRequiredOptions⟩, vAdvDhcpOptionModifiers⟩,
        vAdvDhcpConfigFileOverridePath⟩, vTypev6⟩, vIpaddrv6⟩, vGatewayv6⟩, vPrefix6Rd⟩,
        vGateway6Rd⟩, vTrack6Interface⟩⟩
  · rintro
      ⟨⟨⟨⟨⟨⟨⟨⟨⟨⟨⟨⟨⟨⟨⟨⟨⟨⟨⟨⟨⟨⟨⟨pEnable, pSpoofmac⟩, pMtu⟩, pMss⟩, pMedia⟩, pMediaopt⟩,
        pBlockpriv⟩, pBlockbogons⟩, pGateway⟩, pAliasSubnet⟩, pAdvDhcpPtTimeout⟩,
        pAdvDhcpPtRetry⟩, pAdvDhcpPtSelectTimeout⟩, pAdvDhcpPtReboot⟩,
        pAdvDhcpPtBackoffCutoff⟩, pAdvDhcpPtInitialInterval⟩, pAdvDhcpSendOptions⟩,
        pAdvDhcpRequestOptions⟩, pAdvDhcpRequiredOptions⟩, pAdvDhcpOptionModifiers⟩,
        pAdvDhcpConfigFileOverridePath⟩, pTypev6⟩, pGatewayv6⟩,
        ⟨⟨⟨⟨⟨⟨⟨⟨⟨⟨⟨⟨⟨⟨⟨⟨⟨⟨vIf, vDescr⟩, vSpoofmac⟩, vMedia⟩, vMediaopt⟩, vTypev4⟩,
        vIpaddr⟩, vGateway⟩, vAdvDhcpSendOptions⟩, vAdvDhcpRequestOptions⟩,
        vAdvDhcpRequiredOptions⟩, vAdvDhcpOptionModifiers⟩,
        vAdvDhcpConfigFileOverridePath⟩, vTypev6⟩, vIpaddrv6⟩, vGatewayv6⟩, vPrefix6Rd⟩,
        vGateway6Rd⟩, vTrack6Interface⟩⟩
    exact
      ⟨vIf, pEnable, vDescr, ⟨pSpoofmac, vSpoofmac⟩, pMtu, pMss, ⟨pMedia, vMedia⟩,
      ⟨pMediaopt, vMediaopt⟩, pBlockpriv, pBlockbogons, vTypev4, vIpaddr,
      ⟨pGateway, vGateway⟩, pAliasSubnet, pAdvDhcpPtTimeout, pAdvDhcpPtRetry,
      pAdvDhcpPtSelectTimeout, pAdvDhcpPtReboot, pAdvDhcpPtBackoffCutoff,
      pAdvDhcpPtInitialInterval, ⟨pAdvDhcpSendOptions, vAdvDhcpSendOptions⟩,
      ⟨pAdvDhcpRequestOptions, vAdvDhcpRequestOptions⟩,
      ⟨pAdvDhcpRequiredOptions, vAdvDhcpRequiredOptions⟩,
      ⟨pAdvDhcpOptionModifiers, vAdvDhcpOptionModifiers⟩,
      ⟨pAdvDhcpConfigFileOverridePath, vAdvDhcpConfigFileOverridePath⟩, ⟨pTypev6, vTypev6⟩,
      vIpaddrv6, ⟨pGatewayv6, vGatewayv6⟩, vPrefix6Rd, vGateway6Rd, vTrack6Interface⟩

/-! ### Claims on the resource operations -/

theorem requestsOf_append_noreq (tr rest : List Event)
    (h : ∀ e ∈ rest, ∀ req, e ≠ Event.send req) :
    requestsOf (tr ++ rest) = requestsOf tr := by
  induction tr with
  | nil =>
    induction rest with
    | nil => rfl
    | cons e rest ih =>
      cases e with
      | send req => exact absurd rfl (h _ (List.mem_cons_self _ _) req)
      | readAll => exact ih (fun e he => h e (List.mem_cons_of_mem _ he))
      | discard => exact ih (fun e he => h e (List.mem_cons_of_mem _ he))
      | close => exact ih (fun e he => h e (List.mem_cons_of_mem _ he))
  | cons e tr ih => cases e <;> simp [requestsOf, ih]

/-- The requests of a helper are the requests of its call of `client.do`. -/
theorem requestsOf_call (c : client) (env : Env) (v : Verb) (endpoint : String)
    (queryMap : Option (List (String × String))) (body : Option Body) :
    requestsOf (c.call env v endpoint queryMap body).2 =
      expectedRequests c env v.method endpoint (queryMap.getD []) (v.requestBody body) := by
  rw [call_snd]
  unfold expectedRequests
  rcases doRequest_cases c env v.method endpoint queryMap (v.requestBody body) with
    ⟨err, hn, h⟩ | ⟨hn, h⟩
  · rw [h, hn]
    rfl
  · rw [h, hn]
    cases env.roundTrip (c.buildRequest v.method endpoint queryMap (v.requestBody body)) with
    | error e => rfl
    | ok res =>
      simp only [helperEvents, List.append_assoc]
      rw [requestsOf_append_noreq]
      · rfl
      · intro e he req
        cases v <;> simp [Verb.deferred] at he <;> rcases he with rfl | rfl | rfl <;> simp

theorem GetVLANs_snd (c : client) (env : Env) :
    (c.GetVLANs env).2 = (c.call env Verb.get interfaceVLANsEndpoint none none).2 := by
  unfold client.GetVLANs client.call
  rcases c.get env interfaceVLANsEndpoint none with ⟨r, tr⟩
  rcases r with err | response
  · rfl
  · simp only
    cases jsonUnmarshal "vlanListResponse" vlanListResponse.storeField response {} <;> rfl

theorem GetVLAN_snd (c : client) (env : Env) (id : Int) :
    (c.GetVLAN env id).2 = (c.call env Verb.get interfaceVLANEndpoint (some [("id", toString id)]) none).2 := by
  unfold client.GetVLAN client.call
  simp only
  rcases c.get env interfaceVLANEndpoint (some [("id", toString id)]) with ⟨r, tr⟩
  rcases r with err | response
  · rfl
  · simp only
    cases jsonUnmarshal "createVLANResponse" createVLANResponse.storeField response {} <;> rfl

theorem DeleteVLAN_snd (c : client) (env : Env) (id : Int) :
    (c.DeleteVLAN env id).2 = (c.call env Verb.delete interfaceVLANEndpoint (some [("id", toString id)]) none).2 := by
  unfold client.DeleteVLAN client.call
  simp only
  rcases c.delete env interfaceVLANEndpoint (some [("id", toString id)]) with ⟨r, tr⟩
  rcases r with err | response
  · rfl
  · rfl

theorem CreateVLAN_snd (c : client) (env : Env) (data : VLANRequest) :
    (c.CreateVLAN env data).2 = (c.call env Verb.post interfaceVLANEndpoint none (some (Body.json (Json.obj data.marshalFields)))).2 := by
  unfold client.CreateVLAN client.call jsonMarshal
  simp only
  rcases c.post env interfaceVLANEndpoint none (some (Body.json (Json.obj data.marshalFields))) with ⟨r, tr⟩
  rcases r with err | response
  · rfl
  · simp only
    cases jsonUnmarshal "createVLANResponse" createVLANResponse.storeField response {} <;> rfl

theorem UpdateVLAN_snd (c : client) (env : Env) (id : Int) (data : VLANRequest) :
    (c.UpdateVLAN env id data).2 = (c.call env Verb.patch interfaceVLANEndpoint none (some (Body.json (Json.obj (VLAN.marshalFields { VLANRequest := data, Id := id }))))).2 := by
  unfold client.UpdateVLAN client.call jsonMarshal
  simp only
  rcases c.patch env interfaceVLANEndpoint none (some (Body.json (Json.obj (VLAN.marshalFields { VLANRequest := data, Id := id })))) with ⟨r, tr⟩
  rcases r with err | response
  · rfl
  · simp only
    cases jsonUnmarshal "createVLANResponse" createVLANResponse.storeField response {} <;> rfl

theorem GetInterfaces_snd (c : client) (env : Env) :
    (c.GetInterfaces env).2 = (c.call env Verb.get interfacesEndpoint none none).2 := by
  unfold client.GetInterfaces client.call
  simp only
  rcases c.get env interfacesEndpoint none with ⟨r, tr⟩
  rcases r with err | response
  · rfl
  · simp only
    cases jsonUnmarshal "interfaceListResponse" interfaceListResponse.storeField response {} <;> rfl

theorem GetInterface_snd (c : client) (env : Env) (id : String) :
    (c.GetInterface env id).2 = (c.call env Verb.get interfaceEndpoint (some [("if", id)]) none).2 := by
  unfold client.GetInterface client.call
  simp only
  rcases c.get env interfaceEndpoint (some [("if", id)]) with ⟨r, tr⟩
  rcases r with err | response
  · rfl
  · simp only
    cases jsonUnmarshal "createInterfaceResponse" createInterfaceResponse.storeField response {} <;> rfl

theorem DeleteInterface_snd (c : client) (env : Env) (id : String) :
    (c.DeleteInterface env id).2 = (c.call env Verb.delete interfaceEndpoint (some [("if", id)]) none).2 := by
  unfold client.DeleteInterface client.call
  simp only
  rcases c.delete env interfaceEndpoint (some [("if", id)]) with ⟨r, tr⟩
  rcases r with err | response
  · rfl
  · rfl

theorem CreateInterface_snd (c : client) (env : Env) (data : InterfaceRequest) :
    (c.CreateInterface env data).2 = (c.call env Verb.post interfaceEndpoint none (some (Body.json (Json.obj data.marshalFields)))).2 := by
  unfold client.CreateInterface client.call jsonMarshal
  simp only
  rcases c.post env interfaceEndpoint none (some (Body.json (Json.obj data.marshalFields))) with ⟨r, tr⟩
  rcases r with err | response
  · rfl
  · simp only
    cases jsonUnmarshal "createInterfaceResponse" createInterfaceResponse.storeField response {} <;> rfl

theorem UpdateInterface_snd (c : client) (env : Env) (id : GoString)
    (data : InterfaceRequest) :
    (c.UpdateInterface env id data).2 = (c.call env Verb.patch interfaceEndpoint none (some (Body.json (Json.obj (Interface.marshalFields { InterfaceRequest := data, Id := id }))))).2 := by
  unfold client.UpdateInterface client.call jsonMarshal
  simp only
  rcases c.patch env interfaceEndpoint none (some (Body.json (Json.obj (Interface.marshalFields { InterfaceRequest := data, Id := id })))) with ⟨r, tr⟩
  rcases r with err | response
  · rfl
  · simp only
    cases jsonUnmarshal "createInterfaceResponse" createInterfaceResponse.storeField response {} <;> rfl

/-- C5, as amended: every resource operation sends the requests of the table (method,
endpoint, query, body), none when `http.NewRequestWithContext` rejects the URL and
exactly one otherwise, to `host + "/" + endpoint`, with basic authentication from the
configured credentials and the header `Accept: application/json`.  (The identifier of
`UpdateInterface` goes into the body and is given as the bytes of the Go string.) -/
theorem operations_send_table_requests (c : client) (env : Env) (id : Int) (x : String)
    (xid : GoString) (vlan : VLANRequest) (iface : InterfaceRequest) :
    requestsOf (c.GetVLANs env).2 =
      expectedRequests c env "GET" "api/v2/interface/vlans" [] none ∧
    requestsOf (c.GetVLAN env id).2 =
      expectedRequests c env "GET" "api/v2/interface/vlan" [("id", toString id)] none ∧
    requestsOf (c.CreateVLAN env vlan).2 =
      expectedRequests c env "POST" "api/v2/interface/vlan" []
        (some (Body.json (Json.obj vlan.marshalFields))) ∧
    requestsOf (c.UpdateVLAN env id vlan).2 =
      expectedRequests c env "PATCH" "api/v2/interface/vlan" []
        (some (Body.json (Json.obj (vlan.marshalFields ++ [("id", Json.int id)])))) ∧
    requestsOf (c.DeleteVLAN env id).2 =
      expectedRequests c env "DELETE" "api/v2/interface/vlan" [("id", toString id)] none ∧
    requestsOf (c.GetInterfaces env).2 =
      expectedRequests c env "GET" "api/v2/interfaces" [] none ∧
    requestsOf (c.GetInterface env x).2 =
      expectedRequests c env "GET" "api/v2/interface" [("if", x)] none ∧
    requestsOf (c.CreateInterface env iface).2 =
      expectedRequests c env "POST" "api/v2/interface" []
        (some (Body.json (Json.obj iface.marshalFields))) ∧
    requestsOf (c.UpdateInterface env xid iface).2 =
      expectedRequests c env "PATCH" "api/v2/interface" []
        (some (Body.json (Json.obj (iface.marshalFields ++ [("id", jsonString xid)])))) ∧
    requestsOf (c.DeleteInterface env x).2 =
      expectedRequests c env "DELETE" "api/v2/interface" [("if", x)] none := by
  refine ⟨?_, ?_, ?_, ?_, ?_, ?_, ?_, ?_, ?_, ?_⟩
  · rw [GetVLANs_snd, requestsOf_call]; rfl
  · rw [GetVLAN_snd, requestsOf_call]; rfl
  · rw [CreateVLAN_snd, requestsOf_call]; rfl
  · rw [UpdateVLAN_snd, requestsOf_call]; rfl
  · rw [DeleteVLAN_snd, requestsOf_call]; rfl
  · rw [GetInterfaces_snd, requestsOf_call]; rfl
  · rw [GetInterface_snd, requestsOf_call]; rfl
  · rw [CreateInterface_snd, requestsOf_call]; rfl
  · rw [UpdateInterface_snd, requestsOf_call]; rfl
  · rw [DeleteInterface_snd, requestsOf_call]; rfl

/-- C5 as stated fails: with a host that `http.NewRequestWithContext` rejects,
`GetVLANs` returns the error of the request construction and sends no request. -/
theorem GetVLANs_sends_nothing_for_rejected_host :
    requestsOf (lineFeedHostClient.GetVLANs strictEnv).2 = [] ∧
    (requestsOf (lineFeedHostClient.GetVLANs strictEnv).2).length ≠ 1 ∧
    (lineFeedHostClient.GetVLANs strictEnv).1 =
      .error (GoError.fresh "net/url: invalid control character in URL") := by
  refine ⟨?_, ?_, ?_⟩
  · rfl
  · decide
  · rfl

/-- C10 (evaluation of the code): for the same 404 answer `UpdateVLAN` and
`CreateInterface` return the error of the verb helper unchanged, while `CreateVLAN`
and `UpdateInterface` return it behind the text `error unmarshalling response: `; and
`UpdateInterface` returns the decoding error of a 200 answer that is not JSON without
that text. -/
theorem error_wrapping_differs_between_operations :
    (sampleClient.UpdateVLAN (serverReplying 404 (Body.invalid "")) 3 sampleVLANRequest).1 =
      .error (GoError.sentinel Sentinel.ErrNotFound) ∧
    (sampleClient.CreateVLAN (serverReplying 404 (Body.invalid "")) sampleVLANRequest).1 =
      .error (GoError.wrapped "error unmarshalling response: "
        (GoError.sentinel Sentinel.ErrNotFound) "") ∧
    (sampleClient.CreateInterface (serverReplying 404 (Body.invalid ""))
        sampleInterfaceRequest).1 =
      .error (GoError.sentinel Sentinel.ErrNotFound) ∧
    (sampleClient.UpdateInterface (serverReplying 404 (Body.invalid ""))
        (utf8Encode "opt1")
        sampleInterfaceRequest).1 =
      .error (GoError.wrapped "error unmarshalling response: "
        (GoError.sentinel Sentinel.ErrNotFound) "") ∧
    (GoError.sentinel Sentinel.ErrNotFound).Error = "HTTP 404: Not Found" ∧
    (GoError.wrapped "error unmarshalling response: "
        (GoError.sentinel Sentinel.ErrNotFound) "").Error =
      "error unmarshalling response: HTTP 404: Not Found" ∧
    (sampleClient.UpdateInterface (serverReplying 200 (Body.invalid ""))
        (utf8Encode "opt1")
        sampleInterfaceRequest).1 = .error jsonSyntaxError ∧
    (sampleClient.UpdateVLAN (serverReplying 200 (Body.invalid "")) 3 sampleVLANRequest).1 =
      .error (GoError.wrapped "error unmarshalling response: " jsonSyntaxError "") := by
  refine ⟨?_, ?_, ?_, ?_, ?_, ?_, ?_, ?_⟩
  · rfl
  · rfl
  · rfl
  · rfl
  · decide
  · decide
  · rfl
  · rfl


/-! ### Decoding an envelope -/

/-- Members that are not `data` reach only the embedded `apiResponse`. -/
theorem decodeObject_envelope_rest {ρ δ : Type}
    (store : String → Json → ρ → Except GoError ρ) (mk : apiResponse → δ → ρ)
    (storeD : Json → δ → Except GoError δ)
    (hstore : ∀ k v a d, store k v (mk a d) =
      if fieldIs k "data" then (storeD v d).bind (fun d' => .ok (mk a d'))
      else (apiResponse.storeField k v a).bind (fun a' => .ok (mk a' d)))
    (d : δ) :
    ∀ (ms : List (String × Json)) (a : apiResponse),
      (∀ kv ∈ ms, fieldIs kv.1 "data" = false) →
      decodeObject store ms (mk a d) =
        (decodeObject apiResponse.storeField ms a).bind (fun a' => .ok (mk a' d)) := by
  intro ms
  induction ms with
  | nil => intro a _; rfl
  | cons kv rest ih =>
    intro a hkeys
    have hk : fieldIs kv.1 "data" = false := hkeys kv (List.mem_cons_self _ _)
    rw [decodeObject_cons, decodeObject_cons, hstore, hk]
    simp only [Bool.false_eq_true, if_false]
    cases apiResponse.storeField kv.1 kv.2 a with
    | error e => rfl
    | ok a' => exact ih a' (fun kv' h => hkeys kv' (List.mem_cons_of_mem _ h))

/-- An envelope whose other members decode as an `apiResponse` and whose `data`
member decodes to `d` decodes to that `apiResponse` with the data `d`. -/
theorem decodeObject_envelope {ρ δ : Type}
    (store : String → Json → ρ → Except GoError ρ) (mk : apiResponse → δ → ρ)
    (storeD : Json → δ → Except GoError δ)
    (hstore : ∀ k v a d, store k v (mk a d) =
      if fieldIs k "data" then (storeD v d).bind (fun d' => .ok (mk a d'))
      else (apiResponse.storeField k v a).bind (fun a' => .ok (mk a' d)))
    (pre post : List (String × Json)) (w : Json) (d₀ d : δ) (a : apiResponse)
    (hkeys : ∀ kv ∈ pre ++ post, fieldIs kv.1 "data" = false)
    (henv : decodeObject apiResponse.storeField (pre ++ post) {} = .ok a)
    (hdata : storeD w d₀ = .ok d) :
    decodeObject store (pre ++ ("data", w) :: post) (mk {} d₀) = .ok (mk a d) := by
  have hpre : ∀ kv ∈ pre, fieldIs kv.1 "data" = false :=
    fun kv h => hkeys kv (List.mem_append_left _ h)
  have hpost : ∀ kv ∈ post, fieldIs kv.1 "data" = false :=
    fun kv h => hkeys kv (List.mem_append_right _ h)
  rw [decodeObject_append] at henv
  rw [decodeObject_append, decodeObject_envelope_rest store mk storeD hstore d₀ pre {} hpre]
  cases h1 : decodeObject apiResponse.storeField pre {} with
  | error e =>
    rw [h1] at henv
    cases henv
  | ok a₁ =>
    rw [h1] at henv
    have hd : fieldIs "data" "data" = true := by decide
    simp only [Except.bind] at henv ⊢
    rw [decodeObject_cons, hstore, hd, if_pos rfl, hdata]
    simp only [Except.bind]
    rw [decodeObject_envelope_rest store mk storeD hstore d post a₁ hpost, henv]
    rfl

/-- Decoding an array into a slice that holds nothing. -/
theorem storeSlice_fresh {β : Type} (goType : String)
    (storeElem : Json → β → Except GoError β) (zero : β) (entries : List Json) :
    storeSlice goType storeElem zero (Json.arr entries) { elems := [], spare := [] } =
      (storeElems storeElem zero entries []).bind
        (fun r => .ok { elems := r.1, spare := r.2 }) := by
  cases entries <;> rfl

/-- An array of objects that all decode gives a slice of as many elements, the i-th
pointing to the decoding of the i-th entry, and nothing behind them. -/
theorem storeElems_objects {α : Type} (goType : String)
    (store : String → Json → α → Except GoError α) (zero : α) :
    ∀ entries : List Json,
      (∀ e ∈ entries, ∃ ms y, e = Json.obj ms ∧ decodeObject store ms zero = .ok y) →
      ∃ vs, storeElems (storeStructPtr goType store zero) none entries [] = .ok (vs, []) ∧
        List.Forall₂
          (fun e v => ∃ ms y, e = Json.obj ms ∧ decodeObject store ms zero = .ok y ∧ v = some y)
          entries vs := by
  intro entries
  induction entries with
  | nil => intro _; exact ⟨[], rfl, List.Forall₂.nil⟩
  | cons e rest ih =>
    intro h
    obtain ⟨ms, y, rfl, hy⟩ := h e (List.mem_cons_self _ _)
    obtain ⟨vs, hvs, hall⟩ := ih (fun e' he' => h e' (List.mem_cons_of_mem _ he'))
    refine ⟨some y :: vs, ?_, List.Forall₂.cons ⟨ms, y, rfl, hy, rfl⟩ hall⟩
    have h1 : storeStructPtr goType store zero (Json.obj ms) none = .ok (some y) := by
      simp only [storeStructPtr, storeStruct, Option.getD_none, hy]
      rfl
    simp only [storeElems, List.headD_nil, List.tail_nil, h1, hvs]
    rfl

/-- An array of objects that decode to the given values gives the slice of pointers
to these values, in order. -/
theorem storeElems_items {α : Type} (goType : String)
    (store : String → Json → α → Except GoError α) (zero : α) :
    ∀ items : List (List (String × Json) × α),
      (∀ p ∈ items, decodeObject store p.1 zero = .ok p.2) →
      storeElems (storeStructPtr goType store zero) none
          (items.map (fun p => Json.obj p.1)) [] =
        .ok (items.map (fun p => some p.2), []) := by
  intro items
  induction items with
  | nil => intro _; rfl
  | cons p rest ih =>
    intro h
    have hp := h p (List.mem_cons_self _ _)
    have hrest := ih (fun q hq => h q (List.mem_cons_of_mem _ hq))
    have h1 : storeStructPtr goType store zero (Json.obj p.1) none = .ok (some p.2) := by
      simp only [storeStructPtr, storeStruct, Option.getD_none, hp]
      rfl
    simp only [List.map_cons, storeElems, List.headD_nil, List.tail_nil, h1, hrest]
    rfl

/-- A key that selects no field of `VLAN` leaves the struct as it is. -/
theorem VLAN_storeField_unknown (k : String) (v : Json) (acc : VLAN)
    (h : selectsField VLAN.fieldNames k = false) : VLAN.storeField k v acc = .ok acc := by
  simp only [selectsField, VLAN.fieldNames, List.any_cons, List.any_nil, Bool.or_false,
    Bool.or_eq_false_iff] at h
  simp only [VLAN.storeField, VLANRequest.storeField, h, Bool.false_eq_true, if_false]
  rfl

/-- A key that selects no field of `Interface` leaves the struct as it is. -/
theorem Interface_storeField_unknown (k : String) (v : Json) (acc : Interface)
    (h : selectsField Interface.fieldNames k = false) :
    Interface.storeField k v acc = .ok acc := by
  simp only [selectsField, Interface.fieldNames, List.any_cons, List.any_nil, Bool.or_false,
    Bool.or_eq_false_iff] at h
  simp only [Interface.storeField, InterfaceRequest.storeField, h, Bool.false_eq_true, if_false]
  rfl

/-- The JSON object of a well-formed `VLAN`, with or without members that are no
fields of it, decodes to that `VLAN`. -/
theorem VLAN_decode_wellFormed (x : VLAN) (ms : List (String × Json))
    (hms : ms.filter (fun kv => selectsField VLAN.fieldNames kv.1) = x.marshalFields)
    (hwf : x.wellFormed = true) : decodeObject VLAN.storeField ms {} = .ok x := by
  obtain ⟨r, vid⟩ := x
  simp only [VLAN.wellFormed, Bool.and_eq_true] at hwf
  obtain ⟨⟨⟨hrange, hid⟩, hpres⟩, hvalid⟩ := hwf
  rw [decodeObject_filter VLAN.storeField (selectsField VLAN.fieldNames)
    VLAN_storeField_unknown, hms, VLAN_roundtrip r vid hrange hid,
    (VLANRequest_normalize_eq_iff r).mpr ⟨hpres, hvalid⟩]

/-- The JSON object of a well-formed `Interface`, with or without members that are no
fields of it, decodes to that `Interface`. -/
theorem Interface_decode_wellFormed (x : Interface) (ms : List (String × Json))
    (hms : ms.filter (fun kv => selectsField Interface.fieldNames kv.1) = x.marshalFields)
    (hwf : x.wellFormed = true) : decodeObject Interface.storeField ms {} = .ok x := by
  obtain ⟨r, xid⟩ := x
  simp only [Interface.wellFormed, Bool.and_eq_true] at hwf
  obtain ⟨⟨⟨hrange, hpres⟩, hvalid⟩, hid⟩ := hwf
  rw [decodeObject_filter Interface.storeField (selectsField Interface.fieldNames)
    Interface_storeField_unknown, hms, Interface_roundtrip r xid hrange,
    (InterfaceRequest_normalize_eq_iff r).mpr ⟨hpres, hvalid⟩,
    (normString_eq_iff xid).mpr hid]

/-- A 2xx answer comes back from the helper unchanged. -/
theorem call_fst_2xx (c : client) (env : Env) (v : Verb) (endpoint : String)
    (queryMap : Option (List (String × String))) (body : Option Body)
    (res : Response) (respbody : Body)
    (hdo : (c.doRequest env v.method endpoint queryMap (v.requestBody body)).1 = .ok res)
    (hread : res.Body = .ok respbody)
    (h2xx : 200 ≤ res.StatusCode ∧ res.StatusCode ≤ 299) :
    (c.call env v endpoint queryMap body).1 = .ok respbody := by
  rw [call_fst, hdo]
  simp only [specOutcome, hread, specHandleResponse, if_pos h2xx]

theorem vlanListResponse_storeField_mk (k : String) (v : Json) (a : apiResponse) (d : GoSlice (Option VLAN)) :
    vlanListResponse.storeField k v { apiResponse := a, Data := d } =
      if fieldIs k "data" then
        ((storeSlice "[]*pfsenseapi.VLAN"
        (storeStructPtr "pfsenseapi.VLAN" VLAN.storeField {}) none) v d).bind
          (fun d' => .ok { apiResponse := a, Data := d' })
      else (apiResponse.storeField k v a).bind (fun a' => .ok { apiResponse := a', Data := d }) := by
  unfold vlanListResponse.storeField
  by_cases h : fieldIs k "data" = true
  · simp only [h, if_true]
    rfl
  · simp only [h, if_false]
    rfl

theorem interfaceListResponse_storeField_mk (k : String) (v : Json) (a : apiResponse) (d : GoSlice (Option Interface)) :
    interfaceListResponse.storeField k v { apiResponse := a, Data := d } =
      if fieldIs k "data" then
        ((storeSlice "[]*pfsenseapi.Interface"
        (storeStructPtr "pfsenseapi.Interface" Interface.storeField {}) none) v d).bind
          (fun d' => .ok { apiResponse := a, Data := d' })
      else (apiResponse.storeField k v a).bind (fun a' => .ok { apiResponse := a', Data := d }) := by
  unfold interfaceListResponse.storeField
  by_cases h : fieldIs k "data" = true
  · simp only [h, if_true]
    rfl
  · simp only [h, if_false]
    rfl

theorem createVLANResponse_storeField_mk (k : String) (v : Json) (a : apiResponse) (d : Option VLAN) :
    createVLANResponse.storeField k v { apiResponse := a, Data := d } =
      if fieldIs k "data" then
        ((storeStructPtr "pfsenseapi.VLAN" VLAN.storeField {}) v d).bind
          (fun d' => .ok { apiResponse := a, Data := d' })
      else (apiResponse.storeField k v a).bind (fun a' => .ok { apiResponse := a', Data := d }) := by
  unfold createVLANResponse.storeField
  by_cases h : fieldIs k "data" = true
  · simp only [h, if_true]
    rfl
  · simp only [h, if_false]
    rfl

theorem createInterfaceResponse_storeField_mk (k : String) (v : Json) (a : apiResponse) (d : Option Interface) :
    createInterfaceResponse.storeField k v { apiResponse := a, Data := d } =
      if fieldIs k "data" then
        ((storeStructPtr "pfsenseapi.Interface" Interface.storeField {}) v d).bind
          (fun d' => .ok { apiResponse := a, Data := d' })
      else (apiResponse.storeField k v a).bind (fun a' => .ok { apiResponse := a', Data := d }) := by
  unfold createInterfaceResponse.storeField
  by_cases h : fieldIs k "data" = true
  · simp only [h, if_true]
    rfl
  · simp only [h, if_false]
    rfl

theorem GetVLANs_fst_ok (c : client) (env : Env) (body : Body) (resp : vlanListResponse)
    (h : (c.call env Verb.get interfaceVLANsEndpoint none none).1 = .ok body)
    (hu : jsonUnmarshal "vlanListResponse" vlanListResponse.storeField body {} = .ok resp) :
    (c.GetVLANs env).1 = .ok resp.Data := by
  unfold client.GetVLANs
  unfold client.call at h
  simp only at h ⊢
  rcases hh : c.get env interfaceVLANsEndpoint none with ⟨r, tr⟩
  rw [hh] at h
  simp only at h
  subst h
  simp only [hu]

theorem GetInterfaces_fst_ok (c : client) (env : Env) (body : Body) (resp : interfaceListResponse)
    (h : (c.call env Verb.get interfacesEndpoint none none).1 = .ok body)
    (hu : jsonUnmarshal "interfaceListResponse" interfaceListResponse.storeField body {} = .ok resp) :
    (c.GetInterfaces env).1 = .ok resp.Data := by
  unfold client.GetInterfaces
  unfold client.call at h
  simp only at h ⊢
  rcases hh : c.get env interfacesEndpoint none with ⟨r, tr⟩
  rw [hh] at h
  simp only at h
  subst h
  simp only [hu]

theorem UpdateVLAN_fst_ok (c : client) (env : Env) (id : Int) (data : VLANRequest) (body : Body) (resp : createVLANResponse)
    (h : (c.call env Verb.patch interfaceVLANEndpoint none
        (some (Body.json (Json.obj (VLAN.marshalFields { VLANRequest := data, Id := id }))))).1 = .ok body)
    (hu : jsonUnmarshal "createVLANResponse" createVLANResponse.storeField body {} = .ok resp) :
    (c.UpdateVLAN env id data).1 = .ok resp.Data := by
  unfold client.UpdateVLAN jsonMarshal
  unfold client.call at h
  simp only at h ⊢
  rcases hh : c.patch env interfaceVLANEndpoint none
    (some (Body.json (Json.obj (VLAN.marshalFields { VLANRequest := data, Id := id })))) with ⟨r, tr⟩
  rw [hh] at h
  simp only at h
  subst h
  simp only [hu]

theorem UpdateInterface_fst_ok (c : client) (env : Env) (id : GoString) (data : InterfaceRequest) (body : Body) (resp : createInterfaceResponse)
    (h : (c.call env Verb.patch interfaceEndpoint none
        (some (Body.json (Json.obj
          (Interface.marshalFields { InterfaceRequest := data, Id := id }))))).1 = .ok body)
    (hu : jsonUnmarshal "createInterfaceResponse" createInterfaceResponse.storeField body {} = .ok resp) :
    (c.UpdateInterface env id data).1 = .ok resp.Data := by
  unfold client.UpdateInterface jsonMarshal
  unfold client.call at h
  simp only at h ⊢
  rcases hh : c.patch env interfaceEndpoint none
    (some (Body.json (Json.obj
      (Interface.marshalFields { InterfaceRequest := data, Id := id })))) with ⟨r, tr⟩
  rw [hh] at h
  simp only at h
  subst h
  simp only [hu]


/-- C6: for every 2xx response whose body is an envelope (members that decode as an
`apiResponse`, and a member `data`) in which `data` is an array of n resource
objects, the list operations `GetVLANs` and `GetInterfaces` return a nil error and a
list of exactly n elements in the order of the array.  When the i-th entry is the JSON
object of a well-formed resource, with or without members that are no fields of it,
the i-th element points to that resource; for any entries that decode, the i-th
element points to what the i-th entry decodes to. -/
theorem list_operations_decode_every_entry (c : client) (env : Env) :
    (∀ (res : Response) (pre post : List (String × Json))
        (items : List (List (String × Json) × VLAN)),
      (c.doRequest env "GET" "api/v2/interface/vlans" none none).1 = .ok res →
      res.Body = .ok (Body.json (Json.obj
        (pre ++ ("data", Json.arr (items.map (fun p => Json.obj p.1))) :: post))) →
      200 ≤ res.StatusCode ∧ res.StatusCode ≤ 299 →
      (∀ kv ∈ pre ++ post, fieldIs kv.1 "data" = false) →
      (∃ a, decodeObject apiResponse.storeField (pre ++ post) {} = .ok a) →
      (∀ p ∈ items,
        p.1.filter (fun kv => selectsField VLAN.fieldNames kv.1) = p.2.marshalFields ∧
          p.2.wellFormed = true) →
      (c.GetVLANs env).1 = .ok { elems := items.map (fun p => some p.2), spare := [] }) ∧
    (∀ (res : Response) (pre post : List (String × Json))
        (items : List (List (String × Json) × Interface)),
      (c.doRequest env "GET" "api/v2/interfaces" none none).1 = .ok res →
      res.Body = .ok (Body.json (Json.obj
        (pre ++ ("data", Json.arr (items.map (fun p => Json.obj p.1))) :: post))) →
      200 ≤ res.StatusCode ∧ res.StatusCode ≤ 299 →
      (∀ kv ∈ pre ++ post, fieldIs kv.1 "data" = false) →
      (∃ a, decodeObject apiResponse.storeField (pre ++ post) {} = .ok a) →
      (∀ p ∈ items,
        p.1.filter (fun kv => selectsField Interface.fieldNames kv.1) = p.2.marshalFields ∧
          p.2.wellFormed = true) →
      (c.GetInterfaces env).1 = .ok { elems := items.map (fun p => some p.2), spare := [] }) ∧
    (∀ (res : Response) (pre post : List (String × Json)) (entries : List Json),
      (c.doRequest env "GET" "api/v2/interface/vlans" none none).1 = .ok res →
      res.Body = .ok (Body.json (Json.obj (pre ++ ("data", Json.arr entries) :: post))) →
      200 ≤ res.StatusCode ∧ res.StatusCode ≤ 299 →
      (∀ kv ∈ pre ++ post, fieldIs kv.1 "data" = false) →
      (∃ a, decodeObject apiResponse.storeField (pre ++ post) {} = .ok a) →
      (∀ e ∈ entries, ∃ ms y,
        e = Json.obj ms ∧ decodeObject VLAN.storeField ms {} = .ok y) →
      ∃ vs, (c.GetVLANs env).1 = .ok { elems := vs, spare := [] } ∧
        vs.length = entries.length ∧
        ∀ (i : Nat) (h : i < entries.length) (h' : i < vs.length), ∃ ms y,
          entries.get ⟨i, h⟩ = Json.obj ms ∧ decodeObject VLAN.storeField ms {} = .ok y ∧
            vs.get ⟨i, h'⟩ = some y) ∧
    (∀ (res : Response) (pre post : List (String × Json)) (entries : List Json),
      (c.doRequest env "GET" "api/v2/interfaces" none none).1 = .ok res →
      res.Body = .ok (Body.json (Json.obj (pre ++ ("data", Json.arr entries) :: post))) →
      200 ≤ res.StatusCode ∧ res.StatusCode ≤ 299 →
      (∀ kv ∈ pre ++ post, fieldIs kv.1 "data" = false) →
      (∃ a, decodeObject apiResponse.storeField (pre ++ post) {} = .ok a) →
      (∀ e ∈ entries, ∃ ms y,
        e = Json.obj ms ∧ decodeObject Interface.storeField ms {} = .ok y) →
      ∃ vs, (c.GetInterfaces env).1 = .ok { elems := vs, spare := [] } ∧
        vs.length = entries.length ∧
        ∀ (i : Nat) (h : i < entries.length) (h' : i < vs.length), ∃ ms y,
          entries.get ⟨i, h⟩ = Json.obj ms ∧
            decodeObject Interface.storeField ms {} = .ok y ∧ vs.get ⟨i, h'⟩ = some y) := by
  refine ⟨?_, ?_, ?_, ?_⟩
  · intro res pre post items hdo hread h2xx hkeys henv hitems
    obtain ⟨a, ha⟩ := henv
    have hel := storeElems_items "pfsenseapi.VLAN" VLAN.storeField {} items
      (fun p hp => VLAN_decode_wellFormed p.2 p.1 (hitems p hp).1 (hitems p hp).2)
    have hdec : jsonUnmarshal "vlanListResponse" vlanListResponse.storeField
        (Body.json (Json.obj
          (pre ++ ("data", Json.arr (items.map (fun p => Json.obj p.1))) :: post))) {} =
        .ok { apiResponse := a
              Data := { elems := items.map (fun p => some p.2), spare := [] } } :=
      decodeObject_envelope vlanListResponse.storeField
        (fun a d => { apiResponse := a, Data := d }) _ vlanListResponse_storeField_mk
        pre post _ { elems := [], spare := [] } _ a hkeys ha
        (by rw [storeSlice_fresh, hel]; rfl)
    exact GetVLANs_fst_ok c env _ _
      (call_fst_2xx c env Verb.get interfaceVLANsEndpoint none none res _ hdo hread h2xx) hdec
  · intro res pre post items hdo hread h2xx hkeys henv hitems
    obtain ⟨a, ha⟩ := henv
    have hel := storeElems_items "pfsenseapi.Interface" Interface.storeField {} items
      (fun p hp => Interface_decode_wellFormed p.2 p.1 (hitems p hp).1 (hitems p hp).2)
    have hdec : jsonUnmarshal "interfaceListResponse" interfaceListResponse.storeField
        (Body.json (Json.obj
          (pre ++ ("data", Json.arr (items.map (fun p => Json.obj p.1))) :: post))) {} =
        .ok { apiResponse := a
              Data := { elems := items.map (fun p => some p.2), spare := [] } } :=
      decodeObject_envelope interfaceListResponse.storeField
        (fun a d => { apiResponse := a, Data := d }) _ interfaceListResponse_storeField_mk
        pre post _ { elems := [], spare := [] } _ a hkeys ha
        (by rw [storeSlice_fresh, hel]; rfl)
    exact GetInterfaces_fst_ok c env _ _
      (call_fst_2xx c env Verb.get interfacesEndpoint none none res _ hdo hread h2xx) hdec
  · intro res pre post entries hdo hread h2xx hkeys henv hentries
    obtain ⟨a, ha⟩ := henv
    obtain ⟨vs, hvs, hall⟩ :=
      storeElems_objects "pfsenseapi.VLAN" VLAN.storeField {} entries hentries
    have hdec : jsonUnmarshal "vlanListResponse" vlanListResponse.storeField
        (Body.json (Json.obj (pre ++ ("data", Json.arr entries) :: post))) {} =
        .ok { apiResponse := a, Data := { elems := vs, spare := [] } } :=
      decodeObject_envelope vlanListResponse.storeField
        (fun a d => { apiResponse := a, Data := d }) _ vlanListResponse_storeField_mk
        pre post _ { elems := [], spare := [] } _ a hkeys ha
        (by rw [storeSlice_fresh, hvs]; rfl)
    refine ⟨vs, GetVLANs_fst_ok c env _ _
      (call_fst_2xx c env Verb.get interfaceVLANsEndpoint none none res _ hdo hread h2xx) hdec,
      hall.length_eq.symm, ?_⟩
    intro i h h'
    exact (List.forall₂_iff_get.mp hall).2 i h h'
  · intro res pre post entries hdo hread h2xx hkeys henv hentries
    obtain ⟨a, ha⟩ := henv
    obtain ⟨vs, hvs, hall⟩ :=
      storeElems_objects "pfsenseapi.Interface" Interface.storeField {} entries hentries
    have hdec : jsonUnmarshal "interfaceListResponse" interfaceListResponse.storeField
        (Body.json (Json.obj (pre ++ ("data", Json.arr entries) :: post))) {} =
        .ok { apiResponse := a, Data := { elems := vs, spare := [] } } :=
      decodeObject_envelope interfaceListResponse.storeField
        (fun a d => { apiResponse := a, Data := d }) _ interfaceListResponse_storeField_mk
        pre post _ { elems := [], spare := [] } _ a hkeys ha
        (by rw [storeSlice_fresh, hvs]; rfl)
    refine ⟨vs, GetInterfaces_fst_ok c env _ _
      (call_fst_2xx c env Verb.get interfacesEndpoint none none res _ hdo hread h2xx) hdec,
      hall.length_eq.symm, ?_⟩
    intro i h h'
    exact (List.forall₂_iff_get.mp hall).2 i h h'

/-- Witness of C6: a server that answers only the VLAN list gives, through `GetVLANs`,
the one VLAN of its envelope; a server that answers only the interface list gives,
through `GetInterfaces`, the one interface of its envelope; and the envelope of the
test, with one lease, gives one element that holds the members of the lease that are
fields of the resource. -/
theorem list_operations_decode_every_entry_witness :
    (sampleClient.GetVLANs
        (serverReplyingAt "https://192.168.1.1/api/v2/interface/vlans" 200
          vlanListEnvelope)).1 =
      .ok { elems := [some { VLANRequest := sampleVLANRequest, Id := 3 }], spare := [] } ∧
    (sampleClient.GetInterfaces
        (serverReplyingAt "https://192.168.1.1/api/v2/interfaces" 200
          interfaceListEnvelope)).1 =
      .ok { elems :=
              [some { InterfaceRequest := sampleInterfaceRequest, Id := utf8Encode "opt1" }]
            spare := [] } ∧
    (∃ vs, (sampleClient.GetVLANs (serverReplying 200 dhcpLeasesTestResponse)).1 =
        .ok { elems := vs, spare := [] } ∧ vs.length = 1) ∧
    (sampleClient.GetVLANs (serverReplying 200 dhcpLeasesTestResponse)).1 =
      .ok { elems :=
              [some { VLANRequest :=
                        { If := utf8Encode "opt10"
                          Descr := some { value := some (utf8Encode "host1") } }
                      Id := 0 }]
            spare := [] } ∧
    (sampleClient.GetInterfaces (serverReplying 200 dhcpLeasesTestResponse)).1 =
      .ok { elems :=
              [some { InterfaceRequest :=
                        { If := utf8Encode "opt10", Descr := utf8Encode "host1" }
                      Id := [] }]
            spare := [] } :=
  ⟨(list_operations_decode_every_entry sampleClient
      (serverReplyingAt "https://192.168.1.1/api/v2/interface/vlans" 200
        vlanListEnvelope)).1
      { StatusCode := 200, Body := .ok vlanListEnvelope }
      [("status", Json.str "ok"), ("code", Json.int 200), ("message", Json.str "Success")] []
      [([("if", Json.str "igb0"), ("tag", Json.int 10), ("online", Json.bool true),
          ("descr", Json.str "lab"), ("id", Json.int 3)],
        { VLANRequest := sampleVLANRequest, Id := 3 })]
      rfl rfl (by decide) (by decide) ⟨_, rfl⟩
      (fun p hp => by
        rw [List.mem_singleton] at hp
        subst hp
        exact ⟨rfl, by decide⟩),
    (list_operations_decode_every_entry sampleClient
      (serverReplyingAt "https://192.168.1.1/api/v2/interfaces" 200
        interfaceListEnvelope)).2.1
      { StatusCode := 200, Body := .ok interfaceListEnvelope }
      [("status", Json.str "ok"), ("code", Json.int 200), ("message", Json.str "Success")] []
      [([("if", Json.str "igb1"), ("descr", Json.str "LAN2"), ("mtu", Json.int 1500),
          ("typev4", Json.str "static"), ("ipaddr", Json.str "10.0.2.1"),
          ("subnet", Json.int 24), ("ipaddrv6", Json.str ""), ("subnetv6", Json.int 0),
          ("prefix_6rd", Json.str ""), ("gateway_6rd", Json.str ""),
          ("prefix_6rd_v4plen", Json.int 0), ("track6_interface", Json.str ""),
          ("id", Json.str "opt1")],
        { InterfaceRequest := sampleInterfaceRequest, Id := utf8Encode "opt1" })]
      rfl rfl (by decide) (by decide) ⟨_, rfl⟩
      (fun p hp => by
        rw [List.mem_singleton] at hp
        subst hp
        exact ⟨rfl, by decide⟩),
    ((list_operations_decode_every_entry sampleClient
      (serverReplying 200 dhcpLeasesTestResponse)).2.2.1
      { StatusCode := 200, Body := .ok dhcpLeasesTestResponse }
      [("status", Json.str "ok"), ("code", Json.int 200), ("return", Json.int 0),
        ("message", Json.str "Success")] []
      [Json.obj
        [("ip", Json.str "192.168.60.7"), ("type", Json.str "static"),
          ("mac", Json.str "b4:5f:56:22:d4:33"), ("if", Json.str "opt10"),
          ("starts", Json.str ""), ("ends", Json.str ""), ("hostname", Json.str "host1"),
          ("descr", Json.str "host1"), ("online", Json.bool true),
          ("staticmap_array_index", Json.int 1), ("state", Json.str "static")]]
      rfl rfl (by decide) (by decide) ⟨_, rfl⟩
      (fun e he => by
        rw [List.mem_singleton] at he
        subst he
        exact ⟨_, _, rfl, rfl⟩)).imp (fun _ h => ⟨h.1, h.2.1⟩),
    rfl, rfl⟩

/-- C9, as amended: `UpdateVLAN(id, data)` sends, when the request can be built, a
single PATCH request without query parameters whose body is the body of `CreateVLAN`
for the same data followed by the member `id`.  That body decodes to a `VLAN` with
`Id = id` whose `VLANRequest` is `data` with every byte that is not UTF-8 replaced
by U+FFFD and every optional without a value set to nil: it is `data` exactly when no
optional field of `data` points to an optional without a value and every string of
`data` is valid UTF-8.  Likewise for `UpdateInterface`, whose identifier is a string
of the body too.  On a 2xx answer with an envelope whose data is an object that
decodes as the resource, both return the decoding of that object and a nil error. -/
theorem update_body_decodes_back (c : client) (env : Env) :
    (∀ (vid : Int) (vlan : VLANRequest),
      (env.newRequest "PATCH" (c.options.host ++ "/" ++ "api/v2/interface/vlan") = none →
        requestsOf (c.UpdateVLAN env vid vlan).2 =
          [{ Method := "PATCH", URL := c.options.host ++ "/" ++ "api/v2/interface/vlan"
             Query := [], Header := [("Accept", "application/json")]
             BasicAuth := some (c.options.username, c.options.password)
             Body := some (Body.json
               (Json.obj (vlan.marshalFields ++ [("id", Json.int vid)]))) }]) ∧
      requestsOf (c.CreateVLAN env vlan).2 =
        expectedRequests c env "POST" "api/v2/interface/vlan" []
          (some (Body.json (Json.obj vlan.marshalFields)))) ∧
    (∀ (vid : Int) (vlan : VLANRequest), fitsInt vid = true → vlan.inRange = true →
      jsonUnmarshal "pfsenseapi.VLAN" VLAN.storeField
          (Body.json (Json.obj (vlan.marshalFields ++ [("id", Json.int vid)]))) {} =
        .ok { VLANRequest := vlan.normalize, Id := vid } ∧
      (jsonUnmarshal "pfsenseapi.VLAN" VLAN.storeField
          (Body.json (Json.obj (vlan.marshalFields ++ [("id", Json.int vid)]))) {} =
        .ok { VLANRequest := vlan, Id := vid } ↔
          vlan.presentOrNil = true ∧ vlan.validUTF8 = true)) ∧
    (∀ (xid : GoString) (iface : InterfaceRequest),
      (env.newRequest "PATCH" (c.options.host ++ "/" ++ "api/v2/interface") = none →
        requestsOf (c.UpdateInterface env xid iface).2 =
          [{ Method := "PATCH", URL := c.options.host ++ "/" ++ "api/v2/interface"
             Query := [], Header := [("Accept", "application/json")]
             BasicAuth := some (c.options.username, c.options.password)
             Body := some (Body.json
               (Json.obj (iface.marshalFields ++ [("id", jsonString xid)]))) }]) ∧
      requestsOf (c.CreateInterface env iface).2 =
        expectedRequests c env "POST" "api/v2/interface" []
          (some (Body.json (Json.obj iface.marshalFields)))) ∧
    (∀ (xid : GoString) (iface : InterfaceRequest), iface.inRange = true →
      jsonUnmarshal "pfsenseapi.Interface" Interface.storeField
          (Body.json (Json.obj (iface.marshalFields ++ [("id", jsonString xid)]))) {} =
        .ok { InterfaceRequest := iface.normalize, Id := normString xid } ∧
      (jsonUnmarshal "pfsenseapi.Interface" Interface.storeField
          (Body.json (Json.obj (iface.marshalFields ++ [("id", jsonString xid)]))) {} =
        .ok { InterfaceRequest := iface, Id := xid } ↔
          iface.presentOrNil = true ∧ iface.validUTF8 = true ∧ validUTF8 xid = true)) ∧
    (∀ (vid : Int) (vlan : VLANRequest) (res : Response)
        (pre post ms : List (String × Json)) (y : VLAN),
      (c.doRequest env "PATCH" "api/v2/interface/vlan" none
        (some (Body.json (Json.obj (vlan.marshalFields ++ [("id", Json.int vid)]))))).1 =
          .ok res →
      res.Body = .ok (Body.json (Json.obj (pre ++ ("data", Json.obj ms) :: post))) →
      200 ≤ res.StatusCode ∧ res.StatusCode ≤ 299 →
      (∀ kv ∈ pre ++ post, fieldIs kv.1 "data" = false) →
      (∃ a, decodeObject apiResponse.storeField (pre ++ post) {} = .ok a) →
      decodeObject VLAN.storeField ms {} = .ok y →
      (c.UpdateVLAN env vid vlan).1 = .ok (some y)) ∧
    (∀ (xid : GoString) (iface : InterfaceRequest) (res : Response)
        (pre post ms : List (String × Json)) (y : Interface),
      (c.doRequest env "PATCH" "api/v2/interface" none
        (some (Body.json (Json.obj (iface.marshalFields ++ [("id", jsonString xid)]))))).1 =
          .ok res →
      res.Body = .ok (Body.json (Json.obj (pre ++ ("data", Json.obj ms) :: post))) →
      200 ≤ res.StatusCode ∧ res.StatusCode ≤ 299 →
      (∀ kv ∈ pre ++ post, fieldIs kv.1 "data" = false) →
      (∃ a, decodeObject apiResponse.storeField (pre ++ post) {} = .ok a) →
      decodeObject Interface.storeField ms {} = .ok y →
      (c.UpdateInterface env xid iface).1 = .ok (some y)) := by
  refine ⟨?_, ?_, ?_, ?_, ?_, ?_⟩
  · intro vid vlan
    refine ⟨fun haccept => ?_, ?_⟩
    · rw [UpdateVLAN_snd, requestsOf_call]
      simp only [expectedRequests, Verb.method, interfaceVLANEndpoint, haccept]
      rfl
    · rw [CreateVLAN_snd, requestsOf_call]
      rfl
  · intro vid vlan hid hrange
    have hrt : jsonUnmarshal "pfsenseapi.VLAN" VLAN.storeField
        (Body.json (Json.obj (vlan.marshalFields ++ [("id", Json.int vid)]))) {} =
        .ok { VLANRequest := vlan.normalize, Id := vid } :=
      VLAN_roundtrip vlan vid hrange hid
    refine ⟨hrt, ?_⟩
    rw [hrt, ← VLANRequest_normalize_eq_iff]
    constructor
    · intro h
      injection h with h
      injection h
    · intro h
      rw [h]
  · intro xid iface
    refine ⟨fun haccept => ?_, ?_⟩
    · rw [UpdateInterface_snd, requestsOf_call]
      simp only [expectedRequests, Verb.method, interfaceEndpoint, haccept]
      rfl
    · rw [CreateInterface_snd, requestsOf_call]
      rfl
  · intro xid iface hrange
    have hrt : jsonUnmarshal "pfsenseapi.Interface" Interface.storeField
        (Body.json (Json.obj (iface.marshalFields ++ [("id", jsonString xid)]))) {} =
        .ok { InterfaceRequest := iface.normalize, Id := normString xid } :=
      Interface_roundtrip iface xid hrange
    refine ⟨hrt, ?_⟩
    rw [hrt, ← and_assoc, ← InterfaceRequest_normalize_eq_iff, ← normString_eq_iff]
    constructor
    · intro h
      injection h with h
      injection h with h1 h2
      exact ⟨h1, h2⟩
    · rintro ⟨h1, h2⟩
      rw [h1, h2]
  · intro vid vlan res pre post ms y hdo hread h2xx hkeys henv hy
    obtain ⟨a, ha⟩ := henv
    have hdata : storeStructPtr "pfsenseapi.VLAN" VLAN.storeField {} (Json.obj ms) none =
        .ok (some y) := by
      simp only [storeStructPtr, storeStruct, Option.getD_none, hy]
      rfl
    have hdec : jsonUnmarshal "createVLANResponse" createVLANResponse.storeField
        (Body.json (Json.obj (pre ++ ("data", Json.obj ms) :: post))) {} =
        .ok { apiResponse := a, Data := some y } :=
      decodeObject_envelope createVLANResponse.storeField
        (fun a d => { apiResponse := a, Data := d }) _ createVLANResponse_storeField_mk
        pre post (Json.obj ms) none (some y) a hkeys ha hdata
    exact UpdateVLAN_fst_ok c env vid vlan _ _
      (call_fst_2xx c env Verb.patch interfaceVLANEndpoint none _ res _ hdo hread h2xx) hdec
  · intro xid iface res pre post ms y hdo hread h2xx hkeys henv hy
    obtain ⟨a, ha⟩ := henv
    have hdata : storeStructPtr "pfsenseapi.Interface" Interface.storeField {} (Json.obj ms)
        none = .ok (some y) := by
      simp only [storeStructPtr, storeStruct, Option.getD_none, hy]
      rfl
    have hdec : jsonUnmarshal "createInterfaceResponse" createInterfaceResponse.storeField
        (Body.json (Json.obj (pre ++ ("data", Json.obj ms) :: post))) {} =
        .ok { apiResponse := a, Data := some y } :=
      decodeObject_envelope createInterfaceResponse.storeField
        (fun a d => { apiResponse := a, Data := d }) _ createInterfaceResponse_storeField_mk
        pre post (Json.obj ms) none (some y) a hkeys ha hdata
    exact UpdateInterface_fst_ok c env xid iface _ _
      (call_fst_2xx c env Verb.patch interfaceEndpoint none _ res _ hdo hread h2xx) hdec

/-- Witness of C9: under an environment that rejects URLs with control characters the
request of `UpdateVLAN` for the sample data is built and sent once; the body decodes
back to the sample data, which has no optional without a value and only UTF-8
strings; and the answer with one VLAN object is returned decoded. -/
theorem update_body_decodes_back_witness :
    requestsOf (sampleClient.UpdateVLAN strictEnv 3 sampleVLANRequest).2 =
      [{ Method := "PATCH", URL := "https://192.168.1.1/api/v2/interface/vlan"
         Query := [], Header := [("Accept", "application/json")]
         BasicAuth := some ("admin", "pfsense")
         Body := some (Body.json (Json.obj
           [("if", Json.str "igb0"), ("tag", Json.int 10), ("descr", Json.str "lab"),
            ("id", Json.int 3)])) }] ∧
    jsonUnmarshal "pfsenseapi.VLAN" VLAN.storeField
        (Body.json (Json.obj (sampleVLANRequest.marshalFields ++ [("id", Json.int 3)]))) {} =
      .ok { VLANRequest := sampleVLANRequest, Id := 3 } ∧
    jsonUnmarshal "pfsenseapi.Interface" Interface.storeField
        (Body.json (Json.obj
          (sampleInterfaceRequest.marshalFields ++ [("id", jsonString (utf8Encode "opt1"))])))
        {} =
      .ok { InterfaceRequest := sampleInterfaceRequest, Id := utf8Encode "opt1" } ∧
    (sampleClient.UpdateVLAN (serverReplying 200 vlanEnvelope) 3 sampleVLANRequest).1 =
      .ok (some { VLANRequest := sampleVLANRequest, Id := 3 }) :=
  ⟨((update_body_decodes_back sampleClient strictEnv).1 3 sampleVLANRequest).1 rfl,
    ((update_body_decodes_back sampleClient strictEnv).2.1 3 sampleVLANRequest
      (by decide) (by decide)).2.mpr ⟨by decide, by decide⟩,
    ((update_body_decodes_back sampleClient strictEnv).2.2.2.1 (utf8Encode "opt1")
      sampleInterfaceRequest (by decide)).2.mpr ⟨by decide, by decide, by decide⟩,
    (update_body_decodes_back sampleClient (serverReplying 200 vlanEnvelope)).2.2.2.2.1
      3 sampleVLANRequest { StatusCode := 200, Body := .ok vlanEnvelope }
      [("status", Json.str "ok"), ("code", Json.int 200), ("message", Json.str "Success")] []
      [("if", Json.str "igb0"), ("tag", Json.int 10), ("descr", Json.str "lab"),
        ("id", Json.int 3)]
      { VLANRequest := sampleVLANRequest, Id := 3 }
      rfl rfl (by decide) (by decide) ⟨_, rfl⟩ rfl⟩

/-- C9 as stated fails, in two ways.  For data whose `Vlanif` points to an optional
without a value the body of `UpdateVLAN` carries `"vlanif": null` and decodes back to
a `VLAN` whose `Vlanif` is nil.  For data whose `If` is the byte 0xff the body carries
the string U+FFFD and decodes back to a `VLAN` whose `If` is the three bytes of
U+FFFD.  Neither is the data sent. -/
theorem UpdateVLAN_body_loses_empty_optional :
    (requestsOf (sampleClient.UpdateVLAN (serverReplying 200 vlanEnvelope) 3
        emptyOptionalVLANRequest).2 =
      [{ Method := "PATCH", URL := "https://192.168.1.1/api/v2/interface/vlan"
         Query := [], Header := [("Accept", "application/json")]
         BasicAuth := some ("admin", "pfsense")
         Body := some (Body.json (Json.obj
           [("if", Json.str "igb0"), ("tag", Json.int 10), ("vlanif", Json.null),
            ("id", Json.int 3)])) }] ∧
    jsonUnmarshal "pfsenseapi.VLAN" VLAN.storeField
        (Body.json (Json.obj
          [("if", Json.str "igb0"), ("tag", Json.int 10), ("vlanif", Json.null),
           ("id", Json.int 3)])) {} =
      .ok { VLANRequest := { If := utf8Encode "igb0", Tag := 10, Vlanif := none }, Id := 3 } ∧
    ({ VLANRequest := { If := utf8Encode "igb0", Tag := 10, Vlanif := none }, Id := 3 } : VLAN) ≠
      { VLANRequest := emptyOptionalVLANRequest, Id := 3 }) ∧
    (requestsOf (sampleClient.UpdateVLAN (serverReplying 200 vlanEnvelope) 3
        invalidUTF8VLANRequest).2 =
      [{ Method := "PATCH", URL := "https://192.168.1.1/api/v2/interface/vlan"
         Query := [], Header := [("Accept", "application/json")]
         BasicAuth := some ("admin", "pfsense")
         Body := some (Body.json (Json.obj
           [("if", Json.str (String.mk [Char.ofNat 0xFFFD])), ("tag", Json.int 1),
            ("id", Json.int 3)])) }] ∧
    jsonUnmarshal "pfsenseapi.VLAN" VLAN.storeField
        (Body.json (Json.obj
          [("if", Json.str (String.mk [Char.ofNat 0xFFFD])), ("tag", Json.int 1),
           ("id", Json.int 3)])) {} =
      .ok { VLANRequest := { If := [0xEF, 0xBF, 0xBD], Tag := 1 }, Id := 3 } ∧
    ({ VLANRequest := { If := [0xEF, 0xBF, 0xBD], Tag := 1 }, Id := 3 } : VLAN) ≠
      { VLANRequest := invalidUTF8VLANRequest, Id := 3 }) := by
  refine ⟨⟨rfl, rfl, ?_⟩, ⟨rfl, rfl, ?_⟩⟩ <;> decide

end pfsenseapi
